import Mathlib

/-! Training scheduler: seat capacity and registration bookkeeping.

A shallow embedding of `src/services/TrainingSchedulerService.js`.  The relational
store is a record of row lists; every service function becomes a function from the
store before the call to the result seen by the caller and the store after the call.
-/

namespace TrainingScheduler

/-! ## JavaScript defaulting operators -/

/-- The value of `x || d` for an optional number: absent and `0` are falsy. -/
def orDefaultInt (x : Option Int) (d : Int) : Int :=
  match x with
  | some v => if v = 0 then d else v
  | none => d

/-- The value of `x || d` for an optional string: absent and `""` are falsy. -/
def orDefaultStr (x : Option String) (d : String) : String :=
  match x with
  | some v => if v = "" then d else v
  | none => d

/-- The value of `x || null` for an optional string. -/
def orNull (x : Option String) : Option String :=
  match x with
  | some v => if v = "" then none else some v
  | none => none

/-- The value of `x || false` for an optional boolean. -/
def orFalse (x : Option Bool) : Bool :=
  match x with
  | some v => v
  | none => false

/-! ## Rows and the store -/

/-- A row of `training_categories`; `updated_at` is the column the update statement
sets to `CURRENT_TIMESTAMP`. -/
structure Category where
  id : String
  tenant_id : Nat
  name : String
  display_name : String
  icon : Option String
  sort_order : Int
  active : Bool
  updated_at : Nat
  deriving DecidableEq, Repr

/-- A row of `training_classes`. -/
structure TrainingClass where
  id : String
  tenant_id : Nat
  name : Option String
  level : Option String
  duration : Option String
  tuition : Option Int
  category : String
  sort_order : Int
  badge : Option String
  summary : Option String
  description : Option String
  highlights : Option String
  equipment : Option String
  prerequisites : Option String
  active : Bool
  deriving DecidableEq, Repr

/-- A row of `training_class_sessions`. -/
structure Session where
  id : String
  tenant_id : Nat
  class_id : Option String
  date : Option String
  start_time : Option String
  end_time : Option String
  location : Option String
  instructor : Option String
  max_seats : Int
  available_seats : Int
  status : String
  deriving DecidableEq, Repr

/-- A row of `training_registrations`; `id` is the auto-increment key and
`created_at` the time of the insert. -/
structure Registration where
  id : Nat
  tenant_id : Nat
  transaction_id : Option String
  class_id : Option String
  session_id : Option String
  first_name : Option String
  last_name : Option String
  email : Option String
  phone : Option String
  experience_level : Option String
  amount : Option Int
  status : String
  auth_code : Option String
  waiver_accepted : Bool
  rules_accepted : Bool
  created_at : Nat
  deriving DecidableEq, Repr

/-- The four tables and the auto-increment counter of `training_registrations`. -/
structure Store where
  categories : List Category
  classes : List TrainingClass
  sessions : List Session
  registrations : List Registration
  nextRegistrationId : Nat
  deriving DecidableEq, Repr

/-- The store before any operation. -/
def emptyStore : Store :=
  { categories := [], classes := [], sessions := [], registrations := [],
    nextRegistrationId := 1 }

/-- The errors a service call can raise to its caller. -/
inductive ServiceError where
  | tenantContextRequired
  | storeError
  deriving DecidableEq, Repr

/-! ## Tenant context -/

/-- The function `getTenantContext`: `getTenantId()` yields `tenantId`; a falsy
value (absent or `0`) throws `Tenant context required`. -/
def getTenantContext (tenantId : Option Nat) : Except ServiceError Nat :=
  match tenantId with
  | none => .error .tenantContextRequired
  | some t => if t = 0 then .error .tenantContextRequired else .ok t

/-! ## Sessions -/

/-- The payload `sessionData` of `upsertSession`. -/
structure SessionData where
  id : String
  class_id : Option String
  date : Option String
  start_time : Option String
  end_time : Option String
  location : Option String
  instructor : Option String
  max_seats : Option Int
  status : Option String
  deriving DecidableEq, Repr

/-- The predicate `WHERE id = ? AND tenant_id = ?` on a session row. -/
def sessionMatches (id : String) (tenantId : Nat) (r : Session) : Bool :=
  decide (r.id = id) && decide (r.tenant_id = tenantId)

/-- Modelled from the spec: the table definition of `training_class_sessions` (the
migration SQL) is not among the sources; the session identifier is unique per
tenant, so the key on which `INSERT ... ON DUPLICATE KEY UPDATE` collides is
`(id, tenant_id)`. -/
def sessionKeyCollides (id : String) (tenantId : Nat) (r : Session) : Bool :=
  sessionMatches id tenantId r

/-- The rows of `SELECT ... FROM training_class_sessions WHERE id = ? AND tenant_id = ?`. -/
def selectSessions (id : String) (tenantId : Nat) (s : Store) : List Session :=
  s.sessions.filter (sessionMatches id tenantId)

/-- The value of `availableSeats` computed by `upsertSession` from the rows
`existing` and the payload. -/
def upsertAvailableSeats (existing : List Session) (sessionData : SessionData) : Int :=
  match existing with
  | row :: _ =>
    let oldMaxSeats := row.max_seats
    let oldAvailableSeats := row.available_seats
    let newMaxSeats := orDefaultInt sessionData.max_seats 12
    if newMaxSeats < oldMaxSeats then
      let reduction := oldMaxSeats - newMaxSeats
      max 0 (oldAvailableSeats - reduction)
    else
      oldAvailableSeats
  | [] => orDefaultInt sessionData.max_seats 12

/-- The row inserted by `upsertSession` when the key is new. -/
def insertedSession (tenantId : Nat) (sessionData : SessionData) (availableSeats : Int) :
    Session :=
  { id := sessionData.id
    tenant_id := tenantId
    class_id := sessionData.class_id
    date := sessionData.date
    start_time := sessionData.start_time
    end_time := sessionData.end_time
    location := orNull sessionData.location
    instructor := orNull sessionData.instructor
    max_seats := orDefaultInt sessionData.max_seats 12
    available_seats := availableSeats
    status := orDefaultStr sessionData.status "scheduled" }

/-- The `ON DUPLICATE KEY UPDATE` assignment applied to the colliding row: every
column of the list is replaced, `id`, `tenant_id` and `class_id` are kept. -/
def updatedSession (r : Session) (sessionData : SessionData) (availableSeats : Int) :
    Session :=
  { r with
    date := sessionData.date
    start_time := sessionData.start_time
    end_time := sessionData.end_time
    location := orNull sessionData.location
    instructor := orNull sessionData.instructor
    max_seats := orDefaultInt sessionData.max_seats 12
    available_seats := availableSeats
    status := orDefaultStr sessionData.status "scheduled" }

/-- The statement `INSERT INTO training_class_sessions ... ON DUPLICATE KEY UPDATE ...`. -/
def insertOrUpdateSession (tenantId : Nat) (sessionData : SessionData)
    (availableSeats : Int) (rows : List Session) : List Session :=
  if rows.any (sessionKeyCollides sessionData.id tenantId) then
    rows.map (fun r =>
      if sessionKeyCollides sessionData.id tenantId r then
        updatedSession r sessionData availableSeats
      else r)
  else
    rows ++ [insertedSession tenantId sessionData availableSeats]

/-- The function `getSessionById`, on a resolved tenant. -/
def sessionById (id : String) (tenantId : Nat) (s : Store) : Option Session :=
  (selectSessions id tenantId s).head?

/-- The function `getSessionById`. -/
def getSessionById (tenant : Option Nat) (id : String) (s : Store) :
    Except ServiceError (Option Session) :=
  match getTenantContext tenant with
  | .error e => .error e
  | .ok tenantId => .ok (sessionById id tenantId s)

/-- The function `upsertSession`: the result returned to the caller and the store
after the call.  Every statement of the transaction is taken to execute. -/
def upsertSession (tenant : Option Nat) (sessionData : SessionData) (s : Store) :
    Except ServiceError (Option Session) × Store :=
  match getTenantContext tenant with
  | .error e => (.error e, s)
  | .ok tenantId =>
    let existing := selectSessions sessionData.id tenantId s
    let availableSeats := upsertAvailableSeats existing sessionData
    let s1 := { s with
      sessions := insertOrUpdateSession tenantId sessionData availableSeats s.sessions }
    (.ok (sessionById sessionData.id tenantId s1), s1)

/-- The function `deleteSession`. -/
def deleteSession (tenant : Option Nat) (sessionId : String) (s : Store) :
    Except ServiceError Unit × Store :=
  match getTenantContext tenant with
  | .error e => (.error e, s)
  | .ok tenantId =>
    (.ok (), { s with
      sessions := s.sessions.filter (fun r => !sessionMatches sessionId tenantId r) })

/-! ## Registrations -/

/-- The payload `registrationData` of `createRegistration`. -/
structure RegistrationData where
  transaction_id : Option String
  class_id : Option String
  session_id : Option String
  first_name : Option String
  last_name : Option String
  email : Option String
  phone : Option String
  experience_level : Option String
  amount : Option Int
  status : Option String
  auth_code : Option String
  waiver_accepted : Option Bool
  rules_accepted : Option Bool
  deriving DecidableEq, Repr

/-- The statements `createRegistration` sends to the store, in program order. -/
inductive RegistrationStatement where
  | getConnection
  | beginTransaction
  | insertRegistration
  | decrementSeats
  | selectSeats
  | markFull
  | commit
  | fetchCreated
  deriving DecidableEq, Repr

/-- The row written by `INSERT INTO training_registrations`; the store supplies the
auto-increment `insertId` and the time `now` of the insert. -/
def insertedRegistration (insertId tenantId now : Nat) (registrationData : RegistrationData) :
    Registration :=
  { id := insertId
    tenant_id := tenantId
    transaction_id := registrationData.transaction_id
    class_id := registrationData.class_id
    session_id := registrationData.session_id
    first_name := registrationData.first_name
    last_name := registrationData.last_name
    email := registrationData.email
    phone := registrationData.phone
    experience_level := registrationData.experience_level
    amount := registrationData.amount
    status := orDefaultStr registrationData.status "confirmed"
    auth_code := orNull registrationData.auth_code
    waiver_accepted := orFalse registrationData.waiver_accepted
    rules_accepted := orFalse registrationData.rules_accepted
    created_at := now }

/-- The predicate `WHERE id = ? AND tenant_id = ?` with the bound value
`registrationData.session_id`; an absent value (`NULL`) equals no id. -/
def sessionTargeted (sessionId : Option String) (tenantId : Nat) (r : Session) : Bool :=
  decide (sessionId = some r.id) && decide (r.tenant_id = tenantId)

/-- The statement `UPDATE training_class_sessions SET available_seats =
available_seats - 1 WHERE id = ? AND tenant_id = ?`. -/
def decrementSeats (sessionId : Option String) (tenantId : Nat) (rows : List Session) :
    List Session :=
  rows.map (fun r =>
    if sessionTargeted sessionId tenantId r then
      { r with available_seats := r.available_seats - 1 }
    else r)

/-- The statement `UPDATE training_class_sessions SET status = "full" WHERE id = ?
AND tenant_id = ?`. -/
def markFull (sessionId : Option String) (tenantId : Nat) (rows : List Session) :
    List Session :=
  rows.map (fun r =>
    if sessionTargeted sessionId tenantId r then { r with status := "full" } else r)

/-- The condition `session[0] && session[0].available_seats <= 0` on the rows of
`SELECT available_seats ... WHERE id = ? AND tenant_id = ?`. -/
def nowFull (sessionId : Option String) (tenantId : Nat) (rows : List Session) : Bool :=
  match rows.filter (sessionTargeted sessionId tenantId) with
  | row :: _ => decide (row.available_seats ≤ 0)
  | [] => false

/-- The statements of `createRegistration` between `beginTransaction` and `commit`.
The store raises an error at the statement `fault`, if that statement is reached;
the result is the `insertId` and the store as committed. -/
def registrationTransaction (tenantId : Nat) (fault : Option RegistrationStatement)
    (now : Nat) (registrationData : RegistrationData) (s : Store) :
    Except ServiceError (Nat × Store) :=
  if fault = some .beginTransaction then .error .storeError else
  if fault = some .insertRegistration then .error .storeError else
  let insertId := s.nextRegistrationId
  let s1 := { s with
    registrations :=
      s.registrations ++ [insertedRegistration insertId tenantId now registrationData]
    nextRegistrationId := s.nextRegistrationId + 1 }
  if fault = some .decrementSeats then .error .storeError else
  let s2 := { s1 with
    sessions := decrementSeats registrationData.session_id tenantId s1.sessions }
  if fault = some .selectSeats then .error .storeError else
  if nowFull registrationData.session_id tenantId s2.sessions then
    if fault = some .markFull then .error .storeError else
    let s3 := { s2 with
      sessions := markFull registrationData.session_id tenantId s2.sessions }
    if fault = some .commit then .error .storeError else .ok (insertId, s3)
  else
    if fault = some .commit then .error .storeError else .ok (insertId, s2)

/-- The function `createRegistration`: the result returned to the caller and the
store after the call.  An error inside the `try` block runs `rollback`, which
restores the store of `beginTransaction` as long as `commit` has not run. -/
def createRegistration (tenant : Option Nat) (fault : Option RegistrationStatement)
    (now : Nat) (registrationData : RegistrationData) (s : Store) :
    Except ServiceError (Option Registration) × Store :=
  match getTenantContext tenant with
  | .error e => (.error e, s)
  | .ok tenantId =>
    if fault = some .getConnection then (.error .storeError, s) else
    match registrationTransaction tenantId fault now registrationData s with
    | .error e => (.error e, s)
    | .ok (insertId, committed) =>
      if fault = some .fetchCreated then (.error .storeError, committed)
      else (.ok ((committed.registrations.filter (fun r => decide (r.id = insertId))).head?),
        committed)

/-- The function `updateRegistrationStatus`. -/
def updateRegistrationStatus (tenant : Option Nat) (registrationId : Nat) (status : String)
    (s : Store) : Except ServiceError Unit × Store :=
  match getTenantContext tenant with
  | .error e => (.error e, s)
  | .ok tenantId =>
    (.ok (), { s with
      registrations := s.registrations.map (fun r =>
        if decide (r.id = registrationId) && decide (r.tenant_id = tenantId) then
          { r with status := status }
        else r) })

/-! ## Sequences of service calls -/

/-- A call of one of the operations that write sessions or registrations. -/
inductive Op where
  | upsertSession (tenant : Option Nat) (sessionData : SessionData)
  | deleteSession (tenant : Option Nat) (sessionId : String)
  | createRegistration (tenant : Option Nat) (fault : Option RegistrationStatement)
      (now : Nat) (registrationData : RegistrationData)
  | updateRegistrationStatus (tenant : Option Nat) (registrationId : Nat) (status : String)
  deriving DecidableEq, Repr

/-- The store after one call. -/
def step (s : Store) : Op → Store
  | .upsertSession tenant sessionData => (upsertSession tenant sessionData s).2
  | .deleteSession tenant sessionId => (deleteSession tenant sessionId s).2
  | .createRegistration tenant fault now registrationData =>
    (createRegistration tenant fault now registrationData s).2
  | .updateRegistrationStatus tenant registrationId status =>
    (updateRegistrationStatus tenant registrationId status s).2

/-- The store after a sequence of calls. -/
def run (s : Store) (ops : List Op) : Store :=
  ops.foldl step s


/-! ## Ordering and pattern matching of the store -/

/-- The order of two strings by code point, as lists of characters. -/
def charsLe : List Char → List Char → Bool
  | [], _ => true
  | _ :: _, [] => false
  | a :: as, b :: bs =>
    if a.toNat < b.toNat then true
    else if b.toNat < a.toNat then false
    else charsLe as bs

/-- Modelled from the spec: the collation of the text columns is part of the table
definitions, which are not among the sources; `ORDER BY` on a text column is taken
as the order by code point, with `NULL` before every value. -/
def textLe (a b : Option String) : Bool :=
  match a, b with
  | none, _ => true
  | some _, none => false
  | some x, some y => charsLe x.data y.data

/-- The rows of a query in the order of its `ORDER BY` clause: a stable sort by the
comparison `le`. -/
def orderBy {α : Type} (le : α → α → Bool) (rows : List α) : List α :=
  rows.insertionSort (fun a b => le a b = true)

/-- Modelled from the spec: the collation is not among the sources and the spec calls
the search case-insensitive; characters are compared after `Char.toLower`. -/
def foldCase (c : Char) : Char :=
  c.toLower

/-- The MySQL operator `text LIKE pattern` on character lists: `%` matches any run of
characters, `_` any one character, a backslash makes the next pattern character
literal. -/
def likeChars : List Char → List Char → Bool
  | [], text => text.isEmpty
  | '%' :: ps, text => text.tails.any (fun t => likeChars ps t)
  | '_' :: ps, text =>
    match text with
    | [] => false
    | _ :: ts => likeChars ps ts
  | '\\' :: c :: ps, text =>
    match text with
    | [] => false
    | t :: ts => decide (foldCase c = foldCase t) && likeChars ps ts
  | c :: ps, text =>
    match text with
    | [] => false
    | t :: ts => decide (foldCase c = foldCase t) && likeChars ps ts

/-- The condition `column LIKE ?`; it is not true on a `NULL` column. -/
def like (column : Option String) (pattern : String) : Bool :=
  match column with
  | none => false
  | some text => likeChars pattern.data text.data

/-! ## Categories -/

/-- The payload `categoryData` of `createCategory`. -/
structure CategoryData where
  id : String
  name : Option String
  display_name : Option String
  icon : Option String
  sort_order : Option Int
  active : Option Bool
  deriving DecidableEq, Repr

/-- The payload `categoryData` of `updateCategory`; `none` is an `undefined` field. -/
structure CategoryUpdate where
  name : Option String
  display_name : Option String
  icon : Option (Option String)
  sort_order : Option Int
  active : Option Bool
  deriving DecidableEq, Repr

/-- The predicate `WHERE id = ? AND tenant_id = ?` on a category row. -/
def categoryMatches (id : String) (tenantId : Nat) (r : Category) : Bool :=
  decide (r.id = id) && decide (r.tenant_id = tenantId)

/-- The comparison of `ORDER BY sort_order ASC, display_name ASC`. -/
def categoryLe (a b : Category) : Bool :=
  decide (a.sort_order < b.sort_order) ||
    (decide (a.sort_order = b.sort_order) &&
      charsLe a.display_name.data b.display_name.data)

/-- The function `getCategories`. -/
def getCategories (tenant : Option Nat) (includeInactive : Bool) (s : Store) :
    Except ServiceError (List Category) :=
  match getTenantContext tenant with
  | .error e => .error e
  | .ok tenantId =>
    .ok (orderBy categoryLe
      (s.categories.filter (fun r =>
        decide (r.tenant_id = tenantId) && (includeInactive || r.active))))

/-- The function `getCategoryById`, on a resolved tenant. -/
def categoryById (id : String) (tenantId : Nat) (s : Store) : Option Category :=
  (s.categories.filter (categoryMatches id tenantId)).head?

/-- The function `getCategoryById`. -/
def getCategoryById (tenant : Option Nat) (id : String) (s : Store) :
    Except ServiceError (Option Category) :=
  match getTenantContext tenant with
  | .error e => .error e
  | .ok tenantId => .ok (categoryById id tenantId s)

/-- The function `createCategory`.  Modelled from the spec: the category identifier
is unique per tenant, so the insert raises a store error when the tenant already has
a row with the id; the column default of `updated_at` is taken as the time `now` of
the insert. -/
def createCategory (tenant : Option Nat) (now : Nat) (categoryData : CategoryData)
    (s : Store) : Except ServiceError (Option Category) × Store :=
  match getTenantContext tenant with
  | .error e => (.error e, s)
  | .ok tenantId =>
    if s.categories.any (categoryMatches categoryData.id tenantId) then
      (.error .storeError, s)
    else
      let s1 := { s with
        categories := s.categories ++ [
          { id := categoryData.id
            tenant_id := tenantId
            name := orDefaultStr categoryData.name categoryData.id
            display_name := orDefaultStr categoryData.display_name
              (orDefaultStr categoryData.name categoryData.id)
            icon := orNull categoryData.icon
            sort_order := orDefaultInt categoryData.sort_order 0
            active := categoryData.active.getD true
            updated_at := now }] }
      (.ok (categoryById categoryData.id tenantId s1), s1)

/-- The assignments collected by `updateCategory`, applied to a row; there is none
when every field of the payload is `undefined`. -/
def updatedCategory (now : Nat) (categoryData : CategoryUpdate) (r : Category) : Category :=
  { r with
    name := categoryData.name.getD r.name
    display_name := categoryData.display_name.getD r.display_name
    icon := categoryData.icon.getD r.icon
    sort_order := categoryData.sort_order.getD r.sort_order
    active := categoryData.active.getD r.active
    updated_at := now }

/-- The condition `updates.length === 0` of `updateCategory`. -/
def categoryUpdateEmpty (categoryData : CategoryUpdate) : Bool :=
  categoryData.name.isNone && categoryData.display_name.isNone &&
    categoryData.icon.isNone && categoryData.sort_order.isNone && categoryData.active.isNone

/-- The function `updateCategory`. -/
def updateCategory (tenant : Option Nat) (now : Nat) (categoryId : String)
    (categoryData : CategoryUpdate) (s : Store) :
    Except ServiceError (Option Category) × Store :=
  match getTenantContext tenant with
  | .error e => (.error e, s)
  | .ok tenantId =>
    if categoryUpdateEmpty categoryData then
      (.ok (categoryById categoryId tenantId s), s)
    else
      let s1 := { s with
        categories := s.categories.map (fun r =>
          if categoryMatches categoryId tenantId r then updatedCategory now categoryData r
          else r) }
      (.ok (categoryById categoryId tenantId s1), s1)

/-! ## Classes -/

/-- The payload `classData` of `createClass`. -/
structure ClassData where
  id : String
  name : Option String
  level : Option String
  duration : Option String
  tuition : Option Int
  category : Option String
  sort_order : Option Int
  badge : Option String
  summary : Option String
  description : Option String
  highlights : Option String
  equipment : Option String
  prerequisites : Option String
  active : Option Bool
  deriving DecidableEq, Repr

/-- The payload `classData` of `updateClass`; `none` is an `undefined` field, and
`some none` a field sent as `null`. -/
structure ClassUpdate where
  name : Option (Option String)
  level : Option (Option String)
  duration : Option (Option String)
  tuition : Option (Option Int)
  category : Option String
  sort_order : Option Int
  badge : Option (Option String)
  summary : Option (Option String)
  description : Option (Option String)
  highlights : Option (Option String)
  equipment : Option (Option String)
  prerequisites : Option (Option String)
  active : Option Bool
  deriving DecidableEq, Repr

/-- The predicate `WHERE id = ? AND tenant_id = ?` on a class row. -/
def classMatches (id : String) (tenantId : Nat) (r : TrainingClass) : Bool :=
  decide (r.id = id) && decide (r.tenant_id = tenantId)

/-- The value of `CASE level WHEN 'Beginner' THEN 1 WHEN 'Intermediate' THEN 2 WHEN
'Advanced' THEN 3 ELSE 4 END`. -/
def levelRank (level : Option String) : Nat :=
  if level = some "Beginner" then 1
  else if level = some "Intermediate" then 2
  else if level = some "Advanced" then 3
  else 4

/-- The comparison of the `ORDER BY` clause of `getClasses`: level rank, then
`sort_order ASC`, then `name ASC`. -/
def classLe (a b : TrainingClass) : Bool :=
  decide (levelRank a.level < levelRank b.level) ||
    (decide (levelRank a.level = levelRank b.level) &&
      (decide (a.sort_order < b.sort_order) ||
        (decide (a.sort_order = b.sort_order) && textLe a.name b.name)))

/-- The condition `category && category !== 'all'`: the category filter is added. -/
def categoryFilterActive (category : Option String) : Bool :=
  match category with
  | none => false
  | some c => !decide (c = "") && !decide (c = "all")

/-- The characters `String.prototype.trim` removes: the white space and line
terminator code points of ECMAScript (tab, line feed, vertical tab, form feed,
carriage return, space, no-break space, U+1680, U+2000 to U+200A, U+2028, U+2029,
U+202F, U+205F, U+3000 and U+FEFF). -/
def trimmedChar (c : Char) : Bool :=
  (decide (9 ≤ c.toNat) && decide (c.toNat ≤ 13)) || decide (c.toNat = 32) ||
    decide (c.toNat = 160) || decide (c.toNat = 5760) ||
    (decide (8192 ≤ c.toNat) && decide (c.toNat ≤ 8202)) || decide (c.toNat = 8232) ||
    decide (c.toNat = 8233) || decide (c.toNat = 8239) || decide (c.toNat = 8287) ||
    decide (c.toNat = 12288) || decide (c.toNat = 65279)

/-- The value of `search.trim()` as a character list: the characters that `trim`
removes are dropped at both ends. -/
def trimChars (l : List Char) : List Char :=
  ((l.dropWhile trimmedChar).reverse.dropWhile trimmedChar).reverse

/-- The condition `search && search.trim()`: the search filter is added. -/
def searchFilterActive (search : Option String) : Bool :=
  match search with
  | none => false
  | some t => !(trimChars t.data).isEmpty

/-- The bound value `searchTerm`, the trimmed search string between two `%`. -/
def searchTerm (text : String) : String :=
  String.mk ('%' :: (trimChars text.data ++ ['%']))

/-- The `WHERE` clause `getClasses` builds for the given arguments. -/
def classSelected (tenantId : Nat) (category search : Option String) (r : TrainingClass) :
    Bool :=
  decide (r.tenant_id = tenantId) && r.active &&
    (!categoryFilterActive category || decide (some r.category = category)) &&
    (!searchFilterActive search ||
      (like r.name (searchTerm (search.getD "")) ||
        like r.summary (searchTerm (search.getD "")) ||
        like r.description (searchTerm (search.getD ""))))

/-- The function `getClasses`, on a resolved tenant. -/
def classesOf (tenantId : Nat) (category search : Option String) (s : Store) :
    List TrainingClass :=
  orderBy classLe (s.classes.filter (classSelected tenantId category search))

/-- The function `getClasses`. -/
def getClasses (tenant : Option Nat) (category search : Option String) (s : Store) :
    Except ServiceError (List TrainingClass) :=
  match getTenantContext tenant with
  | .error e => .error e
  | .ok tenantId => .ok (classesOf tenantId category search s)

/-- The function `getClassById`, on a resolved tenant: the row must be active. -/
def classById (id : String) (tenantId : Nat) (s : Store) : Option TrainingClass :=
  (s.classes.filter (fun r => classMatches id tenantId r && r.active)).head?

/-- The function `getClassById`. -/
def getClassById (tenant : Option Nat) (id : String) (s : Store) :
    Except ServiceError (Option TrainingClass) :=
  match getTenantContext tenant with
  | .error e => .error e
  | .ok tenantId => .ok (classById id tenantId s)

/-- The row written by the `INSERT` of `createClass`. -/
def insertedClass (tenantId : Nat) (classData : ClassData) : TrainingClass :=
  { id := classData.id
    tenant_id := tenantId
    name := classData.name
    level := classData.level
    duration := classData.duration
    tuition := classData.tuition
    category := orDefaultStr classData.category "other"
    sort_order := orDefaultInt classData.sort_order 0
    badge := orNull classData.badge
    summary := orNull classData.summary
    description := orNull classData.description
    highlights := orNull classData.highlights
    equipment := orNull classData.equipment
    prerequisites := orNull classData.prerequisites
    active := classData.active.getD true }

/-- The function `createClass`.  Modelled from the spec: the class identifier is
unique per tenant, so the insert raises a store error when the tenant already has a
row with the id. -/
def createClass (tenant : Option Nat) (classData : ClassData) (s : Store) :
    Except ServiceError (Option TrainingClass) × Store :=
  match getTenantContext tenant with
  | .error e => (.error e, s)
  | .ok tenantId =>
    if s.classes.any (classMatches classData.id tenantId) then
      (.error .storeError, s)
    else
      let s1 := { s with classes := s.classes ++ [insertedClass tenantId classData] }
      (.ok (classById classData.id tenantId s1), s1)

/-- The test `if (classData.field)` on a text field of the update payload: the field
is a non-empty string. -/
def truthyText (x : Option (Option String)) : Bool :=
  match x with
  | some (some v) => !decide (v = "")
  | _ => false

/-- The assignments collected by `updateClass`, applied to a row: `name`, `level` and
`duration` are assigned when truthy, every other field when not `undefined`. -/
def updatedClass (classData : ClassUpdate) (r : TrainingClass) : TrainingClass :=
  { r with
    name := if truthyText classData.name then classData.name.getD r.name else r.name
    level := if truthyText classData.level then classData.level.getD r.level else r.level
    duration :=
      if truthyText classData.duration then classData.duration.getD r.duration
      else r.duration
    tuition := classData.tuition.getD r.tuition
    category := classData.category.getD r.category
    sort_order := classData.sort_order.getD r.sort_order
    badge := classData.badge.getD r.badge
    summary := classData.summary.getD r.summary
    description := classData.description.getD r.description
    highlights := classData.highlights.getD r.highlights
    equipment := classData.equipment.getD r.equipment
    prerequisites := classData.prerequisites.getD r.prerequisites
    active := classData.active.getD r.active }

/-- The condition `updates.length === 0` of `updateClass`. -/
def classUpdateEmpty (classData : ClassUpdate) : Bool :=
  !truthyText classData.name && !truthyText classData.level &&
    !truthyText classData.duration && classData.tuition.isNone &&
    classData.category.isNone && classData.sort_order.isNone && classData.badge.isNone &&
    classData.summary.isNone && classData.description.isNone &&
    classData.highlights.isNone && classData.equipment.isNone &&
    classData.prerequisites.isNone && classData.active.isNone

/-- The function `updateClass`. -/
def updateClass (tenant : Option Nat) (classId : String) (classData : ClassUpdate)
    (s : Store) : Except ServiceError (Option TrainingClass) × Store :=
  match getTenantContext tenant with
  | .error e => (.error e, s)
  | .ok tenantId =>
    if classUpdateEmpty classData then
      (.ok (classById classId tenantId s), s)
    else
      let s1 := { s with
        classes := s.classes.map (fun r =>
          if classMatches classId tenantId r then updatedClass classData r else r) }
      (.ok (classById classId tenantId s1), s1)

/-! ## Session and registration listings -/

/-- The comparison of `ORDER BY date, start_time` on session rows. -/
def sessionLe (a b : Session) : Bool :=
  (textLe a.date b.date && !textLe b.date a.date) ||
    (decide (a.date = b.date) && textLe a.start_time b.start_time)

/-- The function `getClassSessions`; `today` is the value of `CURDATE()`. -/
def getClassSessions (tenant : Option Nat) (today : String) (classId : String)
    (futureOnly : Bool) (s : Store) : Except ServiceError (List Session) :=
  match getTenantContext tenant with
  | .error e => .error e
  | .ok tenantId =>
    .ok (orderBy sessionLe
      (s.sessions.filter (fun r =>
        decide (r.class_id = some classId) && decide (r.tenant_id = tenantId) &&
          (!futureOnly ||
            (decide (r.date ≠ none) && textLe (some today) r.date &&
              decide (r.status = "scheduled"))))))

/-- The argument `filters` of `getRegistrations`. -/
structure RegistrationFilters where
  class_id : Option String
  session_id : Option String
  status : Option String
  email : Option String
  deriving DecidableEq, Repr

/-- A row of the result of `getRegistrations`: the registration columns `r.*` and the
joined columns `c.name as class_name`, `cs.date`, `cs.start_time`, `cs.end_time`,
`cs.location`. -/
structure RegistrationListing where
  registration : Registration
  class_name : Option String
  date : Option String
  start_time : Option String
  end_time : Option String
  location : Option String
  deriving DecidableEq, Repr

/-- The test `if (filters.field)`: the filter is a non-empty string. -/
def filterPresent (x : Option String) : Bool :=
  match x with
  | none => false
  | some v => !decide (v = "")

/-- The `WHERE` clause `getRegistrations` builds: the tenant predicate and one
equality for every filter that passes `if (filters.field)`. -/
def registrationSelected (tenantId : Nat) (filters : RegistrationFilters)
    (r : Registration) : Bool :=
  decide (r.tenant_id = tenantId) &&
    (!filterPresent filters.class_id || decide (r.class_id = filters.class_id)) &&
    (!filterPresent filters.session_id || decide (r.session_id = filters.session_id)) &&
    (!filterPresent filters.status || decide (some r.status = filters.status)) &&
    (!filterPresent filters.email || decide (r.email = filters.email))

/-- The join condition `r.class_id = c.id AND r.tenant_id = c.tenant_id`. -/
def classJoins (r : Registration) (c : TrainingClass) : Bool :=
  decide (r.class_id = some c.id) && decide (r.tenant_id = c.tenant_id)

/-- The join condition `r.session_id = cs.id AND r.tenant_id = cs.tenant_id`. -/
def sessionJoins (r : Registration) (cs : Session) : Bool :=
  decide (r.session_id = some cs.id) && decide (r.tenant_id = cs.tenant_id)

/-- The rows of the two inner joins for one registration. -/
def joinedRows (s : Store) (r : Registration) : List RegistrationListing :=
  (s.classes.filter (classJoins r)).flatMap (fun c =>
    (s.sessions.filter (sessionJoins r)).map (fun cs =>
      { registration := r
        class_name := c.name
        date := cs.date
        start_time := cs.start_time
        end_time := cs.end_time
        location := cs.location }))

/-- The comparison of `ORDER BY r.created_at DESC`. -/
def listingLe (a b : RegistrationListing) : Bool :=
  decide (b.registration.created_at ≤ a.registration.created_at)

/-- The function `getRegistrations`, on a resolved tenant. -/
def registrationsOf (tenantId : Nat) (filters : RegistrationFilters) (s : Store) :
    List RegistrationListing :=
  orderBy listingLe
    ((s.registrations.filter (registrationSelected tenantId filters)).flatMap (joinedRows s))

/-- The function `getRegistrations`. -/
def getRegistrations (tenant : Option Nat) (filters : RegistrationFilters) (s : Store) :
    Except ServiceError (List RegistrationListing) :=
  match getTenantContext tenant with
  | .error e => .error e
  | .ok tenantId => .ok (registrationsOf tenantId filters s)
/-! ## Sample payloads and rows -/

/-- A session payload with the given id, seat count and status. -/
def sampleSessionData (id : String) (maxSeats : Option Int) (status : Option String) :
    SessionData :=
  { id := id, class_id := some "c1", date := some "2026-03-01",
    start_time := some "09:00", end_time := some "17:00", location := some "Range A",
    instructor := none, max_seats := maxSeats, status := status }

/-- A registration payload against the given session with the given status. -/
def sampleRegistrationData (sessionId : Option String) (status : Option String) :
    RegistrationData :=
  { transaction_id := some "tx", class_id := some "c1", session_id := sessionId,
    first_name := some "Ada", last_name := some "Lee", email := some "ada@example.org",
    phone := none, experience_level := none, amount := some 100, status := status,
    auth_code := none, waiver_accepted := some true, rules_accepted := some true }

/-- A session row `s1` of tenant 1 with the given seat counts and status. -/
def sampleSession (maxSeats availableSeats : Int) (status : String) : Session :=
  { id := "s1", tenant_id := 1, class_id := some "c1", date := some "2026-03-01",
    start_time := some "09:00", end_time := some "17:00", location := some "Range A",
    instructor := none, max_seats := maxSeats, available_seats := availableSeats,
    status := status }

/-- A store whose only row is the given session. -/
def storeWith (row : Session) : Store :=
  { emptyStore with sessions := [row] }

/-! ## Readings used to state the properties -/

/-- The seat count the payload asks for when only an absent value is defaulted:
the requested value, or 12 when the payload has none. -/
def requestedMaxSeats (sessionData : SessionData) : Int :=
  match sessionData.max_seats with
  | some v => v
  | none => 12

/-! ## Guarded sequences of calls and invariants -/

/-- Every call of the sequence `ops`, started in `s`, passes `guard` in the store it
is issued in. -/
def admissible (guard : Store → Op → Bool) : Store → List Op → Bool
  | _, [] => true
  | s, op :: ops => guard s op && admissible guard (step s op) ops

/-- The seat bounds of a session row: `0 ≤ available_seats ≤ max_seats`, and status
`full` only with no seat available. -/
def seatBounds (r : Session) : Prop :=
  0 ≤ r.available_seats ∧ r.available_seats ≤ r.max_seats ∧
    (r.status = "full" → r.available_seats = 0)

/-- The calls under which the seat bounds are stated: an `upsertSession` payload asks
for no negative seat count, and for the status `full` only when the call leaves no
seat available; a `createRegistration` names no session row with fewer than one
available seat. -/
def seatGuard (s : Store) : Op → Bool
  | .upsertSession tenant sessionData =>
    decide (0 ≤ orDefaultInt sessionData.max_seats 12) &&
      (decide (orDefaultStr sessionData.status "scheduled" ≠ "full") ||
        match getTenantContext tenant with
        | .error _ => true
        | .ok tenantId =>
          decide (upsertAvailableSeats (selectSessions sessionData.id tenantId s)
            sessionData = 0))
  | .createRegistration tenant _ _ registrationData =>
    match getTenantContext tenant with
    | .error _ => true
    | .ok tenantId =>
      s.sessions.all (fun r =>
        !sessionTargeted registrationData.session_id tenantId r ||
          decide (1 ≤ r.available_seats))
  | _ => true

/-- No two session rows carry the same `(id, tenant_id)`. -/
def keysUnique (rows : List Session) : Prop :=
  rows.Pairwise (fun a b => ¬ (a.id = b.id ∧ a.tenant_id = b.tenant_id))

/-- The invariant carried along guarded call sequences: the session keys are unique
and every session row satisfies the seat bounds. -/
def seatInvariant (s : Store) : Prop :=
  keysUnique s.sessions ∧ ∀ r ∈ s.sessions, seatBounds r

/-- A registration status that counts towards seat consumption: `confirmed` or
`pending`. -/
def isActive (status : String) : Bool :=
  decide (status = "confirmed") || decide (status = "pending")

/-- The registrations of tenant `tenantId` against session `sessionId` whose status
is active, counted in the rows `regs`. -/
def activeCount (regs : List Registration) (tenantId : Nat) (sessionId : String) : Nat :=
  (regs.filter (fun g =>
    decide (g.tenant_id = tenantId) && decide (g.session_id = some sessionId) &&
      isActive g.status)).length

/-- The calls under which the seat ledger is stated: an `upsertSession` creates a
session no active registration of the tenant refers to, keeps the `max_seats` of an
existing session, or lowers it by no more than its `available_seats`; a
`createRegistration` that names an existing session of the tenant stores an active
status; an `updateRegistrationStatus` keeps the registration active or inactive as
it was. -/
def ledgerGuard (s : Store) : Op → Bool
  | .upsertSession tenant sessionData =>
    match getTenantContext tenant with
    | .error _ => true
    | .ok tenantId =>
      match selectSessions sessionData.id tenantId s with
      | [] => decide (activeCount s.registrations tenantId sessionData.id = 0)
      | old :: _ =>
        decide (orDefaultInt sessionData.max_seats 12 = old.max_seats) ||
          (decide (orDefaultInt sessionData.max_seats 12 < old.max_seats) &&
            decide (old.max_seats - orDefaultInt sessionData.max_seats 12
              ≤ old.available_seats))
  | .deleteSession _ _ => true
  | .createRegistration tenant _ _ registrationData =>
    match getTenantContext tenant with
    | .error _ => true
    | .ok tenantId =>
      !s.sessions.any (sessionTargeted registrationData.session_id tenantId) ||
        isActive (orDefaultStr registrationData.status "confirmed")
  | .updateRegistrationStatus tenant registrationId status =>
    match getTenantContext tenant with
    | .error _ => true
    | .ok tenantId =>
      s.registrations.all (fun g =>
        !(decide (g.id = registrationId) && decide (g.tenant_id = tenantId)) ||
          (isActive g.status == isActive status))

/-- The invariant carried along ledger-guarded call sequences: every session has
consumed as many seats as it has active registrations. -/
def ledgerInvariant (s : Store) : Prop :=
  ∀ r ∈ s.sessions,
    r.max_seats - r.available_seats = (activeCount s.registrations r.tenant_id r.id : Int)

instance (r : Session) : Decidable (seatBounds r) := by
  unfold seatBounds; infer_instance

instance (rows : List Session) : Decidable (keysUnique rows) := by
  unfold keysUnique; infer_instance

instance (s : Store) : Decidable (seatInvariant s) := by
  unfold seatInvariant; infer_instance

instance (s : Store) : Decidable (ledgerInvariant s) := by
  unfold ledgerInvariant; infer_instance

/-! ## All service calls -/

/-- A call of one of the fifteen exported service functions, with its arguments. -/
inductive ServiceCall where
  | getCategories (includeInactive : Bool)
  | getCategoryById (categoryId : String)
  | createCategory (now : Nat) (categoryData : CategoryData)
  | updateCategory (now : Nat) (categoryId : String) (categoryData : CategoryUpdate)
  | getClasses (category search : Option String)
  | getClassById (classId : String)
  | createClass (classData : ClassData)
  | updateClass (classId : String) (classData : ClassUpdate)
  | getClassSessions (today : String) (classId : String) (futureOnly : Bool)
  | getSessionById (sessionId : String)
  | upsertSession (sessionData : SessionData)
  | deleteSession (sessionId : String)
  | createRegistration (fault : Option RegistrationStatement) (now : Nat)
      (registrationData : RegistrationData)
  | getRegistrations (filters : RegistrationFilters)
  | updateRegistrationStatus (registrationId : Nat) (status : String)
  deriving DecidableEq, Repr

/-- The error of a result, if it is one. -/
def errorOf {α : Type} (r : Except ServiceError α) : Option ServiceError :=
  match r with
  | .error e => some e
  | .ok _ => none

/-- The error a call raises to its caller, if any, and the store after the call, for
the value `tenant` of `getTenantId()`. -/
def perform (tenant : Option Nat) (s : Store) : ServiceCall → Option ServiceError × Store
  | .getCategories includeInactive => (errorOf (getCategories tenant includeInactive s), s)
  | .getCategoryById categoryId => (errorOf (getCategoryById tenant categoryId s), s)
  | .createCategory now categoryData =>
    (errorOf (createCategory tenant now categoryData s).1,
      (createCategory tenant now categoryData s).2)
  | .updateCategory now categoryId categoryData =>
    (errorOf (updateCategory tenant now categoryId categoryData s).1,
      (updateCategory tenant now categoryId categoryData s).2)
  | .getClasses category search => (errorOf (getClasses tenant category search s), s)
  | .getClassById classId => (errorOf (getClassById tenant classId s), s)
  | .createClass classData =>
    (errorOf (createClass tenant classData s).1, (createClass tenant classData s).2)
  | .updateClass classId classData =>
    (errorOf (updateClass tenant classId classData s).1,
      (updateClass tenant classId classData s).2)
  | .getClassSessions today classId futureOnly =>
    (errorOf (getClassSessions tenant today classId futureOnly s), s)
  | .getSessionById sessionId => (errorOf (getSessionById tenant sessionId s), s)
  | .upsertSession sessionData =>
    (errorOf (upsertSession tenant sessionData s).1, (upsertSession tenant sessionData s).2)
  | .deleteSession sessionId =>
    (errorOf (deleteSession tenant sessionId s).1, (deleteSession tenant sessionId s).2)
  | .createRegistration fault now registrationData =>
    (errorOf (createRegistration tenant fault now registrationData s).1,
      (createRegistration tenant fault now registrationData s).2)
  | .getRegistrations filters => (errorOf (getRegistrations tenant filters s), s)
  | .updateRegistrationStatus registrationId status =>
    (errorOf (updateRegistrationStatus tenant registrationId status s).1,
      (updateRegistrationStatus tenant registrationId status s).2)

/-- The rows of the four tables that belong to a tenant other than `tenantId`. -/
def otherTenantRows (tenantId : Nat) (s : Store) :
    List Category × List TrainingClass × List Session × List Registration :=
  (s.categories.filter (fun r => !decide (r.tenant_id = tenantId)),
    s.classes.filter (fun r => !decide (r.tenant_id = tenantId)),
    s.sessions.filter (fun r => !decide (r.tenant_id = tenantId)),
    s.registrations.filter (fun r => !decide (r.tenant_id = tenantId)))

/-- The auto-increment counter lies above every registration id in the table. -/
def registrationIdsFresh (s : Store) : Prop :=
  ∀ g ∈ s.registrations, g.id < s.nextRegistrationId

instance (s : Store) : Decidable (registrationIdsFresh s) := by
  unfold registrationIdsFresh; infer_instance

/-! ## Sample catalog rows -/

/-- A class payload with the given id, name, level and active flag. -/
def sampleClassData (id : String) (name level : Option String) (active : Option Bool) :
    ClassData :=
  { id := id, name := name, level := level, duration := some "1 day", tuition := some 150,
    category := some "pistol", sort_order := none, badge := none, summary := none,
    description := none, highlights := none, equipment := none, prerequisites := none,
    active := active }

/-- A class row of the given tenant with the given id, name, level and sort order. -/
def sampleClass (tenantId : Nat) (id : String) (name level : Option String)
    (sortOrder : Int) (active : Bool) : TrainingClass :=
  { id := id, tenant_id := tenantId, name := name, level := level,
    duration := some "1 day", tuition := some 150, category := "pistol",
    sort_order := sortOrder, badge := none, summary := none, description := none,
    highlights := none, equipment := none, prerequisites := none, active := active }

/-- An update payload in which every field is `undefined`. -/
def emptyClassUpdate : ClassUpdate :=
  { name := none, level := none, duration := none, tuition := none, category := none,
    sort_order := none, badge := none, summary := none, description := none,
    highlights := none, equipment := none, prerequisites := none, active := none }

/-- A filter argument without any filter. -/
def noFilters : RegistrationFilters :=
  { class_id := none, session_id := none, status := none, email := none }

/-- A session row with the given tenant and id, 12 seats, all available. -/
def sampleSessionOf (tenantId : Nat) (id : String) (location : Option String) : Session :=
  { id := id, tenant_id := tenantId, class_id := some "c1", date := some "2026-03-01",
    start_time := some "09:00", end_time := some "17:00", location := location,
    instructor := none, max_seats := 12, available_seats := 12, status := "scheduled" }

/-- A store in which tenants 1 and 2 both hold a class `c1` and a session `s1`, and
each holds one registration against them. -/
def twoTenantStore : Store :=
  { categories := []
    classes := [sampleClass 2 "c1" (some "Rifle II") (some "Advanced") 0 true,
      sampleClass 1 "c1" (some "Pistol I") (some "Beginner") 0 true]
    sessions := [sampleSessionOf 2 "s1" (some "Range B"),
      sampleSessionOf 1 "s1" (some "Range A")]
    registrations := [
      insertedRegistration 1 2 5 (sampleRegistrationData (some "s1") none),
      insertedRegistration 2 1 6 (sampleRegistrationData (some "s1") none)]
    nextRegistrationId := 3 }

/-- A class table with rows of two tenants, of every level rank, one of them
inactive. -/
def catalogStore : Store :=
  { emptyStore with
    classes := [
      sampleClass 1 "c4" (some "Night Shoot") (some "Expert") 0 true,
      sampleClass 1 "c3" (some "Rifle II") (some "Advanced") 0 true,
      sampleClass 2 "c1" (some "Other Tenant") (some "Beginner") 0 true,
      sampleClass 1 "c2" (some "Pistol II") (some "Intermediate") 0 true,
      sampleClass 1 "c1" (some "Pistol I") (some "Beginner") 1 true,
      sampleClass 1 "c0" (some "Safety") (some "Beginner") 0 true,
      sampleClass 1 "c9" (some "Retired") (some "Beginner") 0 false] }

/-! ## Readings used to state the catalog properties -/

/-- The stored class row with the given id in the tenant, active or not. -/
def classRow (id : String) (tenantId : Nat) (s : Store) : Option TrainingClass :=
  (s.classes.filter (classMatches id tenantId)).head?

/-- A column after a sparse update: the supplied value when the payload has the
field, the prior value when it has not. -/
def keepsOrTakes {α : Type} (payload : Option α) (old new : α) : Prop :=
  match payload with
  | none => new = old
  | some v => new = v

/-- A text column that is updated only by a non-empty string: the supplied string
when the payload has one that is not empty, the prior value otherwise. -/
def keepsOrTakesText (payload : Option (Option String)) (old new : Option String) : Prop :=
  match payload with
  | some (some v) => if v = "" then new = old else new = some v
  | _ => new = old

/-- A store of tenant 1 with the class `c1`, the session `s1` and four registrations,
the last of them against a class `c8` that has no row. -/
def listingStore : Store :=
  { categories := []
    classes := [sampleClass 1 "c1" (some "Pistol I") (some "Beginner") 0 true]
    sessions := [sampleSessionOf 1 "s1" (some "Range A")]
    registrations := [
      insertedRegistration 1 1 5 (sampleRegistrationData (some "s1") none),
      insertedRegistration 2 1 9
        { sampleRegistrationData (some "s1") none with email := some "bo@example.org" },
      insertedRegistration 3 1 7 (sampleRegistrationData (some "s1") (some "pending")),
      insertedRegistration 4 1 8
        { sampleRegistrationData (some "s1") none with class_id := some "c8" }]
    nextRegistrationId := 5 }

/-- A class table for the listing filters: classes of tenant 1 in three categories,
with texts in summary and description, an inactive row, and a class of tenant 2. -/
def filterStore : Store :=
  { emptyStore with
    classes := [
      { sampleClass 1 "c5" (some "Rifle II") (some "Advanced") 0 true with
        category := "rifle" },
      { sampleClass 1 "c2" (some "Pistol II") (some "Intermediate") 0 true with
        summary := some "Draw and reload" },
      { sampleClass 2 "c1" (some "Rifle I") (some "Beginner") 0 true with
        category := "rifle" },
      { sampleClass 1 "c1" (some "Pistol I") (some "Beginner") 1 true with
        description := some "Safe handling of a pistol" },
      { sampleClass 1 "c0" (some "Safety") (some "Beginner") 0 true with
        category := "basics" },
      { sampleClass 1 "c9" (some "Rifle 0") (some "Beginner") 0 false with
        category := "rifle" },
      { sampleClass 1 "c6" (some "Rifle I") (some "Beginner") 1 true with
        category := "rifle" }] }

/-! # Theorems -/

/-! ## Lemmas on the session table -/

theorem filter_map_of_stable {α : Type} (p : α → Bool) (g : α → α)
    (hg : ∀ a, p (g a) = p a) (l : List α) :
    (l.map g).filter p = (l.filter p).map g := by
  induction l with
  | nil => rfl
  | cons a l ih =>
    simp only [List.map_cons, List.filter_cons, hg]
    split <;> simp [ih]

theorem sessionMatches_updatedSession (id : String) (tenantId : Nat) (r : Session)
    (d : SessionData) (a : Int) :
    sessionMatches id tenantId (updatedSession r d a) = sessionMatches id tenantId r := rfl

theorem selectSessions_after_update (tenantId : Nat) (d : SessionData) (a : Int) (s : Store)
    (old : Session) (rest : List Session)
    (h : selectSessions d.id tenantId s = old :: rest) :
    selectSessions d.id tenantId
      { s with sessions := insertOrUpdateSession tenantId d a s.sessions }
      = updatedSession old d a :: rest.map (fun r => updatedSession r d a) := by
  have hany : s.sessions.any (sessionKeyCollides d.id tenantId) = true := by
    have hmem : old ∈ s.sessions.filter (sessionMatches d.id tenantId) := by
      unfold selectSessions at h; rw [h]; exact List.mem_cons_self _ _
    rw [List.mem_filter] at hmem
    exact List.any_eq_true.mpr ⟨old, hmem.1, hmem.2⟩
  unfold selectSessions at h ⊢
  simp only [insertOrUpdateSession, hany, if_true]
  rw [filter_map_of_stable]
  · rw [h]
    simp only [List.map_cons]
    have hold : sessionKeyCollides d.id tenantId old = true := by
      have hmem : old ∈ s.sessions.filter (sessionMatches d.id tenantId) := by
        rw [h]; exact List.mem_cons_self _ _
      exact (List.mem_filter.mp hmem).2
    simp only [hold, if_true, List.cons.injEq, true_and]
    apply List.map_congr_left
    intro r hr
    have hr2 : sessionKeyCollides d.id tenantId r = true := by
      have hmem : r ∈ s.sessions.filter (sessionMatches d.id tenantId) := by
        rw [h]; exact List.mem_cons_of_mem _ hr
      exact (List.mem_filter.mp hmem).2
    simp [hr2]
  · intro r
    by_cases hr : sessionKeyCollides d.id tenantId r = true
    · simp only [hr, if_true]; exact sessionMatches_updatedSession _ _ _ _ _
    · simp [hr]

theorem selectSessions_after_insert (tenantId : Nat) (d : SessionData) (a : Int) (s : Store)
    (h : selectSessions d.id tenantId s = []) :
    insertOrUpdateSession tenantId d a s.sessions
      = s.sessions ++ [insertedSession tenantId d a] ∧
    selectSessions d.id tenantId
      { s with sessions := insertOrUpdateSession tenantId d a s.sessions }
      = [insertedSession tenantId d a] := by
  unfold selectSessions at h
  have hany : s.sessions.any (sessionKeyCollides d.id tenantId) = false := by
    rw [Bool.eq_false_iff]
    intro hex
    obtain ⟨r, hr, hp⟩ := List.any_eq_true.mp hex
    have : r ∈ s.sessions.filter (sessionMatches d.id tenantId) :=
      List.mem_filter.mpr ⟨hr, hp⟩
    rw [h] at this
    exact List.not_mem_nil _ this
  have hins : insertOrUpdateSession tenantId d a s.sessions
      = s.sessions ++ [insertedSession tenantId d a] := by
    simp [insertOrUpdateSession, hany]
  refine ⟨hins, ?_⟩
  unfold selectSessions
  simp only [hins, List.filter_append, h, List.nil_append]
  simp [List.filter_cons, sessionMatches, insertedSession]

/-! ## Capacity edits and session creation -/

/-- C1 (as amended): when the session id of the payload already exists in the current
tenant with row `old`, `upsertSession` returns and stores a row whose `max_seats` is
the requested value, or 12 when the payload has none or has 0, and whose
`available_seats` is `max 0 (old_available - (old_max - new_max))` when the new
maximum is below the old one and `old_available` otherwise. -/
theorem upsertSession_existing_seats (tenant : Option Nat) (tenantId : Nat)
    (sessionData : SessionData) (s : Store) (old : Session)
    (htenant : getTenantContext tenant = .ok tenantId)
    (hold : sessionById sessionData.id tenantId s = some old) :
    ∃ stored : Session,
      (upsertSession tenant sessionData s).1 = .ok (some stored) ∧
      sessionById sessionData.id tenantId (upsertSession tenant sessionData s).2
        = some stored ∧
      stored.max_seats = orDefaultInt sessionData.max_seats 12 ∧
      stored.available_seats =
        (if orDefaultInt sessionData.max_seats 12 < old.max_seats then
          max 0 (old.available_seats - (old.max_seats - orDefaultInt sessionData.max_seats 12))
        else old.available_seats) := by
  unfold sessionById at hold
  obtain ⟨rest, hsel⟩ : ∃ rest, selectSessions sessionData.id tenantId s = old :: rest := by
    cases h : selectSessions sessionData.id tenantId s with
    | nil => rw [h] at hold; simp at hold
    | cons a l => rw [h] at hold; simp at hold; exact ⟨l, by rw [hold]⟩
  have hafter := selectSessions_after_update tenantId sessionData
    (upsertAvailableSeats (selectSessions sessionData.id tenantId s) sessionData) s old rest hsel
  refine ⟨updatedSession old sessionData
    (upsertAvailableSeats (selectSessions sessionData.id tenantId s) sessionData), ?_, ?_, rfl, ?_⟩
  · simp only [upsertSession, htenant, sessionById, hafter, List.head?_cons]
  · simp only [upsertSession, htenant, sessionById, hafter, List.head?_cons]
  · simp only [updatedSession, hsel, upsertAvailableSeats]

/-- C1 witness: a session with 12 seats of which 4 are available, edited to 5 seats,
has 0 available seats; edited back to 12 seats it still has 0. -/
theorem upsertSession_existing_seats_witness :
    getTenantContext (some 1) = .ok 1 ∧
    sessionById (sampleSessionData "s1" (some 5) none).id 1
      (storeWith (sampleSession 12 4 "scheduled")) = some (sampleSession 12 4 "scheduled") ∧
    (sessionById "s1" 1 (upsertSession (some 1) (sampleSessionData "s1" (some 5) none)
        (storeWith (sampleSession 12 4 "scheduled"))).2).map
      (fun r => (r.max_seats, r.available_seats)) = some (5, 0) ∧
    (sessionById "s1" 1 (upsertSession (some 1) (sampleSessionData "s1" (some 12) none)
        (upsertSession (some 1) (sampleSessionData "s1" (some 5) none)
          (storeWith (sampleSession 12 4 "scheduled"))).2).2).map
      (fun r => (r.max_seats, r.available_seats)) = some (12, 0) := by
  refine ⟨rfl, by decide, ?_, by decide⟩
  obtain ⟨stored, -, h2, h3, h4⟩ := upsertSession_existing_seats (some 1) 1
    (sampleSessionData "s1" (some 5) none) (storeWith (sampleSession 12 4 "scheduled"))
    (sampleSession 12 4 "scheduled") rfl (by decide)
  rw [show (sampleSessionData "s1" (some 5) none).id = "s1" from rfl] at h2
  rw [h2, Option.map_some', h3, h4]
  decide

/-- C1 counterexample: on a session with 12 seats of which 4 are available, a payload
whose `max_seats` is 0 stores `max_seats = 12` and `available_seats = 4`; with the
requested value 0 as new maximum the row would hold 0 and `max 0 (4 - 12) = 0`. -/
theorem upsertSession_zero_max_seats_counterexample :
    sessionById "s1" 1 (storeWith (sampleSession 12 4 "scheduled"))
      = some (sampleSession 12 4 "scheduled") ∧
    requestedMaxSeats (sampleSessionData "s1" (some 0) none) = 0 ∧
    (sessionById "s1" 1 (upsertSession (some 1) (sampleSessionData "s1" (some 0) none)
        (storeWith (sampleSession 12 4 "scheduled"))).2).map
      (fun r => (r.max_seats, r.available_seats)) = some (12, 4) ∧
    ((12 : Int), (4 : Int)) ≠ (0, max 0 (4 - (12 - 0))) := by
  decide

/-- C2 (as amended): when the session id of the payload does not exist in the current
tenant, `upsertSession` appends one row, returns it, and that row has
`available_seats = max_seats`, where `max_seats` is the requested value, or 12 when
the payload has none or has 0, and its status is the supplied one, or `scheduled`
when the payload has none or has the empty string. -/
theorem upsertSession_creates_fresh (tenant : Option Nat) (tenantId : Nat)
    (sessionData : SessionData) (s : Store)
    (htenant : getTenantContext tenant = .ok tenantId)
    (hnew : sessionById sessionData.id tenantId s = none) :
    ∃ stored : Session,
      (upsertSession tenant sessionData s).1 = .ok (some stored) ∧
      (upsertSession tenant sessionData s).2.sessions = s.sessions ++ [stored] ∧
      sessionById sessionData.id tenantId (upsertSession tenant sessionData s).2
        = some stored ∧
      stored.max_seats = orDefaultInt sessionData.max_seats 12 ∧
      stored.available_seats = stored.max_seats ∧
      stored.status = orDefaultStr sessionData.status "scheduled" := by
  have hsel : selectSessions sessionData.id tenantId s = [] := by
    unfold sessionById at hnew
    cases h : selectSessions sessionData.id tenantId s with
    | nil => rfl
    | cons a l => rw [h] at hnew; simp at hnew
  obtain ⟨hins, hafter⟩ := selectSessions_after_insert tenantId sessionData
    (upsertAvailableSeats (selectSessions sessionData.id tenantId s) sessionData) s hsel
  refine ⟨insertedSession tenantId sessionData
    (upsertAvailableSeats (selectSessions sessionData.id tenantId s) sessionData),
    ?_, ?_, ?_, rfl, ?_, rfl⟩
  · simp only [upsertSession, htenant, sessionById, hafter, List.head?_cons]
  · simp only [upsertSession, htenant, hins]
  · simp only [upsertSession, htenant, sessionById, hafter, List.head?_cons]
  · simp only [insertedSession, hsel, upsertAvailableSeats]

/-- C2 witness: on the empty store a payload without seat count and status creates a
row with 12 of 12 seats available and status `scheduled`. -/
theorem upsertSession_creates_fresh_witness :
    getTenantContext (some 1) = .ok 1 ∧
    sessionById (sampleSessionData "s1" none none).id 1 emptyStore = none ∧
    (sessionById "s1" 1 (upsertSession (some 1) (sampleSessionData "s1" none none)
        emptyStore).2).map
      (fun r => (r.max_seats, r.available_seats, r.status)) = some (12, 12, "scheduled") := by
  refine ⟨rfl, by decide, ?_⟩
  obtain ⟨stored, -, -, h3, h4, h5, h6⟩ := upsertSession_creates_fresh (some 1) 1
    (sampleSessionData "s1" none none) emptyStore rfl (by decide)
  rw [show (sampleSessionData "s1" none none).id = "s1" from rfl] at h3
  rw [h3, Option.map_some', h5, h4, h6]
  decide

/-- C2 counterexample: on the empty store a payload whose `max_seats` is 0 and whose
status is the empty string creates a row with `max_seats = 12`,
`available_seats = 12` and status `scheduled`, not the requested 0 and `""`. -/
theorem upsertSession_create_zero_max_seats_counterexample :
    sessionById "s9" 1 emptyStore = none ∧
    requestedMaxSeats (sampleSessionData "s9" (some 0) (some "")) = 0 ∧
    (sampleSessionData "s9" (some 0) (some "")).status = some "" ∧
    (sessionById "s9" 1 (upsertSession (some 1) (sampleSessionData "s9" (some 0) (some ""))
        emptyStore).2).map
      (fun r => (r.max_seats, r.available_seats, r.status)) = some (12, 12, "scheduled") := by
  decide

/-! ## Lemmas on `createRegistration` -/

/-- The session table written by the committed transaction of `createRegistration`. -/
theorem registrationTransaction_ok (tenantId : Nat) (fault : Option RegistrationStatement)
    (now : Nat) (d : RegistrationData) (s : Store) (insertId : Nat) (c : Store)
    (h : registrationTransaction tenantId fault now d s = .ok (insertId, c)) :
    insertId = s.nextRegistrationId ∧
    c.registrations
      = s.registrations ++ [insertedRegistration s.nextRegistrationId tenantId now d] ∧
    c.sessions =
      (if nowFull d.session_id tenantId (decrementSeats d.session_id tenantId s.sessions) then
        markFull d.session_id tenantId (decrementSeats d.session_id tenantId s.sessions)
      else decrementSeats d.session_id tenantId s.sessions) ∧
    c.categories = s.categories ∧ c.classes = s.classes ∧
    c.nextRegistrationId = s.nextRegistrationId + 1 := by
  unfold registrationTransaction at h
  by_cases hfull :
      nowFull d.session_id tenantId (decrementSeats d.session_id tenantId s.sessions) = true
  · rw [if_pos hfull]
    simp only [hfull, if_true] at h
    split_ifs at h
    simp only [Except.ok.injEq, Prod.mk.injEq] at h
    obtain ⟨h1, h2⟩ := h
    subst h1 h2
    exact ⟨rfl, rfl, rfl, rfl, rfl, rfl⟩
  · rw [if_neg hfull]
    rw [Bool.not_eq_true] at hfull
    simp only [hfull, Bool.false_eq_true, if_false] at h
    split_ifs at h
    simp only [Except.ok.injEq, Prod.mk.injEq] at h
    obtain ⟨h1, h2⟩ := h
    subst h1 h2
    exact ⟨rfl, rfl, rfl, rfl, rfl, rfl⟩

/-- Without a fault the transaction of `createRegistration` commits. -/
theorem registrationTransaction_no_fault (tenantId now : Nat) (d : RegistrationData)
    (s : Store) :
    ∃ c, registrationTransaction tenantId none now d s = .ok (s.nextRegistrationId, c) := by
  unfold registrationTransaction
  by_cases hfull :
      nowFull d.session_id tenantId (decrementSeats d.session_id tenantId s.sessions) = true
  · simp [hfull]
  · simp [hfull]

theorem sessionTargeted_some (sid : String) (tenantId : Nat) (r : Session) :
    sessionTargeted (some sid) tenantId r = sessionMatches sid tenantId r := by
  unfold sessionTargeted sessionMatches
  by_cases h : r.id = sid
  · simp [h]
  · have : ¬ sid = r.id := fun e => h e.symm
    simp [h, this]

/-- The rows selected by `(sid, tenantId)` after the two session updates of a
committed `createRegistration`. -/
theorem selectSessions_after_consume (sid : String) (tenantId : Nat) (rows : List Session)
    (old : Session) (rest : List Session)
    (h : rows.filter (sessionMatches sid tenantId) = old :: rest) :
    ((if nowFull (some sid) tenantId (decrementSeats (some sid) tenantId rows) then
        markFull (some sid) tenantId (decrementSeats (some sid) tenantId rows)
      else decrementSeats (some sid) tenantId rows).filter (sessionMatches sid tenantId)).head?
      = some { old with
          available_seats := old.available_seats - 1
          status := if old.available_seats - 1 ≤ 0 then "full" else old.status } := by
  have hdec : (decrementSeats (some sid) tenantId rows).filter (sessionMatches sid tenantId)
      = (old :: rest).map (fun r => { r with available_seats := r.available_seats - 1 }) := by
    unfold decrementSeats
    rw [filter_map_of_stable, h]
    · apply List.map_congr_left
      intro r hr
      have hp : sessionMatches sid tenantId r = true := by
        have : r ∈ rows.filter (sessionMatches sid tenantId) := by rw [h]; exact hr
        exact (List.mem_filter.mp this).2
      simp [sessionTargeted_some, hp]
    · intro r
      by_cases hp : sessionTargeted (some sid) tenantId r = true
      · simp only [hp, if_true]; rfl
      · simp [hp]
  have hfull : nowFull (some sid) tenantId (decrementSeats (some sid) tenantId rows)
      = decide (old.available_seats - 1 ≤ 0) := by
    unfold nowFull
    have : (decrementSeats (some sid) tenantId rows).filter (sessionTargeted (some sid) tenantId)
        = (decrementSeats (some sid) tenantId rows).filter (sessionMatches sid tenantId) := by
      congr 1
      funext r
      exact sessionTargeted_some sid tenantId r
    rw [this, hdec]
    simp
  by_cases hle : old.available_seats - 1 ≤ 0
  · rw [hfull]
    simp only [hle, decide_True, if_true]
    unfold markFull
    rw [filter_map_of_stable, hdec]
    · have hp : sessionMatches sid tenantId old = true := by
        have : old ∈ rows.filter (sessionMatches sid tenantId) := by
          rw [h]; exact List.mem_cons_self _ _
        exact (List.mem_filter.mp this).2
      have hp2 : sessionTargeted (some sid) tenantId
          { old with available_seats := old.available_seats - 1 } = true := by
        rw [sessionTargeted_some]; exact hp
      simp [hp2]
    · intro r
      by_cases hp : sessionTargeted (some sid) tenantId r = true
      · simp only [hp, if_true]; rfl
      · simp [hp]
  · rw [hfull]
    simp only [hle, decide_False, if_false, Bool.false_eq_true]
    rw [hdec]
    simp

/-- The rows not selected by the session id of the payload are not written by the two
session updates of a committed `createRegistration`. -/
theorem untargeted_after_consume (sessionId : Option String) (tenantId : Nat)
    (rows : List Session) (i : Nat) (r : Session)
    (hi : rows[i]? = some r) (hr : sessionTargeted sessionId tenantId r = false) :
    (if nowFull sessionId tenantId (decrementSeats sessionId tenantId rows) then
        markFull sessionId tenantId (decrementSeats sessionId tenantId rows)
      else decrementSeats sessionId tenantId rows)[i]? = some r := by
  have hdec : (decrementSeats sessionId tenantId rows)[i]? = some r := by
    unfold decrementSeats
    simp [List.getElem?_map, hi, hr]
  split
  · unfold markFull
    simp [List.getElem?_map, hdec, hr]
  · exact hdec

theorem length_after_consume (sessionId : Option String) (tenantId : Nat)
    (rows : List Session) :
    (if nowFull sessionId tenantId (decrementSeats sessionId tenantId rows) then
        markFull sessionId tenantId (decrementSeats sessionId tenantId rows)
      else decrementSeats sessionId tenantId rows).length = rows.length := by
  split <;> simp [markFull, decrementSeats]

/-- A call of `createRegistration` that returns has committed its transaction. -/
theorem createRegistration_ok_committed (tenant : Option Nat) (tenantId : Nat)
    (fault : Option RegistrationStatement) (now : Nat) (d : RegistrationData) (s : Store)
    (res : Option Registration)
    (htenant : getTenantContext tenant = .ok tenantId)
    (hok : (createRegistration tenant fault now d s).1 = .ok res) :
    registrationTransaction tenantId fault now d s
      = .ok (s.nextRegistrationId, (createRegistration tenant fault now d s).2) := by
  unfold createRegistration at hok ⊢
  simp only [htenant] at hok ⊢
  by_cases hconn : fault = some RegistrationStatement.getConnection
  · simp [hconn] at hok
  · simp only [hconn, if_false] at hok ⊢
    cases htx : registrationTransaction tenantId fault now d s with
    | error e => simp [htx] at hok
    | ok p =>
      obtain ⟨insertId, c⟩ := p
      have hid := (registrationTransaction_ok tenantId fault now d s insertId c htx).1
      subst hid
      simp only [htx] at hok ⊢
      by_cases hfetch : fault = some RegistrationStatement.fetchCreated
      · simp [hfetch] at hok
      · simp [hfetch]

/-- Without a fault and with a resolved tenant, `createRegistration` returns. -/
theorem createRegistration_no_fault_ok (tenant : Option Nat) (tenantId now : Nat)
    (d : RegistrationData) (s : Store)
    (htenant : getTenantContext tenant = .ok tenantId) :
    ∃ res, (createRegistration tenant none now d s).1 = .ok res := by
  obtain ⟨c, hc⟩ := registrationTransaction_no_fault tenantId now d s
  unfold createRegistration
  simp [htenant, hc]

/-! ## Seat consumption -/

/-- C3 (as amended): for every session that exists in the current tenant, a call of
`createRegistration` against it succeeds when no statement errors, and every
successful call appends exactly one registration row (status the supplied one, or
`confirmed` when none or the empty string is supplied), lowers the session's
`available_seats` by exactly one, sets its status to `full` when the new
`available_seats` is at most 0 and otherwise keeps its status, keeps its `max_seats`
and all its other columns, and leaves every other session row as it was. -/
theorem createRegistration_consumes_one_seat (tenant : Option Nat) (tenantId : Nat)
    (fault : Option RegistrationStatement) (now : Nat) (registrationData : RegistrationData)
    (s : Store) (sessionId : String) (old : Session) (res : Option Registration)
    (htenant : getTenantContext tenant = .ok tenantId)
    (hsession : registrationData.session_id = some sessionId)
    (hold : sessionById sessionId tenantId s = some old)
    (hok : (createRegistration tenant fault now registrationData s).1 = .ok res) :
    (∃ res0, (createRegistration tenant none now registrationData s).1 = .ok res0) ∧
    (∃ row : Registration,
      (createRegistration tenant fault now registrationData s).2.registrations
        = s.registrations ++ [row] ∧
      row.status = orDefaultStr registrationData.status "confirmed" ∧
      row.tenant_id = tenantId ∧ row.session_id = some sessionId) ∧
    sessionById sessionId tenantId (createRegistration tenant fault now registrationData s).2
      = some { old with
          available_seats := old.available_seats - 1
          status := if old.available_seats - 1 ≤ 0 then "full" else old.status } ∧
    (createRegistration tenant fault now registrationData s).2.sessions.length
      = s.sessions.length ∧
    (∀ (i : Nat) (r : Session), s.sessions[i]? = some r →
      sessionMatches sessionId tenantId r = false →
      (createRegistration tenant fault now registrationData s).2.sessions[i]? = some r) := by
  have hcommit := createRegistration_ok_committed tenant tenantId fault now registrationData s
    res htenant hok
  obtain ⟨-, hregs, hsess, -, -, -⟩ := registrationTransaction_ok tenantId fault now
    registrationData s _ _ hcommit
  obtain ⟨rest, hsel⟩ : ∃ rest,
      s.sessions.filter (sessionMatches sessionId tenantId) = old :: rest := by
    unfold sessionById selectSessions at hold
    cases h : s.sessions.filter (sessionMatches sessionId tenantId) with
    | nil => rw [h] at hold; simp at hold
    | cons a l => rw [h] at hold; simp at hold; exact ⟨l, by rw [hold]⟩
  refine ⟨createRegistration_no_fault_ok tenant tenantId now registrationData s htenant,
    ⟨_, hregs, rfl, rfl, hsession⟩, ?_, ?_, ?_⟩
  · unfold sessionById selectSessions
    rw [hsess, hsession]
    exact selectSessions_after_consume sessionId tenantId s.sessions old rest hsel
  · rw [hsess]
    exact length_after_consume _ _ _
  · intro i r hi hr
    rw [hsess]
    apply untargeted_after_consume _ _ _ _ _ hi
    rw [hsession, sessionTargeted_some]
    exact hr

/-- C3 witness: a session with one available seat ends with `available_seats = 0` and
status `full`, and one registration with status `confirmed` is stored. -/
theorem createRegistration_consumes_one_seat_witness :
    getTenantContext (some 1) = .ok 1 ∧
    (sampleRegistrationData (some "s1") none).session_id = some "s1" ∧
    sessionById "s1" 1 (storeWith (sampleSession 12 1 "scheduled"))
      = some (sampleSession 12 1 "scheduled") ∧
    (createRegistration (some 1) none 7 (sampleRegistrationData (some "s1") none)
      (storeWith (sampleSession 12 1 "scheduled"))).1.toOption.isSome = true ∧
    sessionById "s1" 1 (createRegistration (some 1) none 7
        (sampleRegistrationData (some "s1") none)
        (storeWith (sampleSession 12 1 "scheduled"))).2
      = some (sampleSession 12 0 "full") ∧
    (createRegistration (some 1) none 7 (sampleRegistrationData (some "s1") none)
      (storeWith (sampleSession 12 1 "scheduled"))).2.registrations.map (fun r => r.status)
      = ["confirmed"] := by
  refine ⟨rfl, rfl, by decide, by decide, ?_, by decide⟩
  have h := (createRegistration_consumes_one_seat (some 1) 1 none 7
    (sampleRegistrationData (some "s1") none) (storeWith (sampleSession 12 1 "scheduled"))
    "s1" (sampleSession 12 1 "scheduled")
    (some (insertedRegistration 1 1 7 (sampleRegistrationData (some "s1") none)))
    rfl rfl (by decide) (by rfl)).2.2.1
  rw [h]
  decide

/-- C3 counterexample: a payload whose status is the empty string is stored with
status `confirmed`, not with the supplied status. -/
theorem createRegistration_empty_status_counterexample :
    (sampleRegistrationData (some "s1") (some "")).status = some "" ∧
    sessionById "s1" 1 (storeWith (sampleSession 12 3 "scheduled"))
      = some (sampleSession 12 3 "scheduled") ∧
    (createRegistration (some 1) none 7 (sampleRegistrationData (some "s1") (some ""))
      (storeWith (sampleSession 12 3 "scheduled"))).1.toOption.isSome = true ∧
    (createRegistration (some 1) none 7 (sampleRegistrationData (some "s1") (some ""))
      (storeWith (sampleSession 12 3 "scheduled"))).2.registrations.map (fun r => r.status)
      = ["confirmed"] := by
  decide

/-- C4 (as amended): `createRegistration` does not check the remaining seats.  For
every session of the current tenant whose `available_seats` is 0, a call against it
succeeds when no statement errors; the number of registrations grows by one and the
session is left with `available_seats = -1` and status `full`. -/
theorem createRegistration_on_full_session (tenant : Option Nat) (tenantId now : Nat)
    (registrationData : RegistrationData) (s : Store) (sessionId : String) (old : Session)
    (htenant : getTenantContext tenant = .ok tenantId)
    (hsession : registrationData.session_id = some sessionId)
    (hold : sessionById sessionId tenantId s = some old)
    (hzero : old.available_seats = 0) :
    (∃ res, (createRegistration tenant none now registrationData s).1 = .ok res) ∧
    (createRegistration tenant none now registrationData s).2.registrations.length
      = s.registrations.length + 1 ∧
    sessionById sessionId tenantId (createRegistration tenant none now registrationData s).2
      = some { old with available_seats := -1, status := "full" } := by
  obtain ⟨res, hres⟩ := createRegistration_no_fault_ok tenant tenantId now registrationData s
    htenant
  have hcommit := createRegistration_ok_committed tenant tenantId none now registrationData s
    res htenant hres
  obtain ⟨-, hregs, hsess, -, -, -⟩ := registrationTransaction_ok tenantId none now
    registrationData s _ _ hcommit
  obtain ⟨rest, hsel⟩ : ∃ rest,
      s.sessions.filter (sessionMatches sessionId tenantId) = old :: rest := by
    unfold sessionById selectSessions at hold
    cases h : s.sessions.filter (sessionMatches sessionId tenantId) with
    | nil => rw [h] at hold; simp at hold
    | cons a l => rw [h] at hold; simp at hold; exact ⟨l, by rw [hold]⟩
  refine ⟨⟨res, hres⟩, ?_, ?_⟩
  · rw [hregs]; simp
  · unfold sessionById selectSessions
    rw [hsess, hsession,
      selectSessions_after_consume sessionId tenantId s.sessions old rest hsel, hzero]
    simp

/-- C4 witness: a session with 1 seat and none available takes one more registration
and is left at `available_seats = -1`. -/
theorem createRegistration_on_full_session_witness :
    getTenantContext (some 1) = .ok 1 ∧
    (sampleRegistrationData (some "s1") none).session_id = some "s1" ∧
    sessionById "s1" 1 (storeWith (sampleSession 1 0 "full"))
      = some (sampleSession 1 0 "full") ∧
    (sampleSession 1 0 "full").available_seats = 0 ∧
    sessionById "s1" 1 (createRegistration (some 1) none 7
        (sampleRegistrationData (some "s1") none) (storeWith (sampleSession 1 0 "full"))).2
      = some (sampleSession 1 (-1) "full") := by
  refine ⟨rfl, rfl, by decide, rfl, ?_⟩
  have h := (createRegistration_on_full_session (some 1) 1 7
    (sampleRegistrationData (some "s1") none) (storeWith (sampleSession 1 0 "full"))
    "s1" (sampleSession 1 0 "full") rfl rfl (by decide) rfl).2.2
  rw [h]
  decide

/-- C4 counterexample: after a session with one seat has taken one registration
(`available_seats = 0`), a second `createRegistration` against it returns a row
instead of failing; the registrations grow from 1 to 2 and `available_seats` goes
from 0 to -1. -/
theorem createRegistration_overbooks_counterexample :
    (run emptyStore [
        .upsertSession (some 1) (sampleSessionData "s1" (some 1) none),
        .createRegistration (some 1) none 7 (sampleRegistrationData (some "s1") none)
      ]).sessions.map (fun r => (r.available_seats, r.status)) = [(0, "full")] ∧
    (run emptyStore [
        .upsertSession (some 1) (sampleSessionData "s1" (some 1) none),
        .createRegistration (some 1) none 7 (sampleRegistrationData (some "s1") none)
      ]).registrations.length = 1 ∧
    (createRegistration (some 1) none 8 (sampleRegistrationData (some "s1") none)
      (run emptyStore [
        .upsertSession (some 1) (sampleSessionData "s1" (some 1) none),
        .createRegistration (some 1) none 7 (sampleRegistrationData (some "s1") none)
      ])).1.toOption.isSome = true ∧
    (createRegistration (some 1) none 8 (sampleRegistrationData (some "s1") none)
      (run emptyStore [
        .upsertSession (some 1) (sampleSessionData "s1" (some 1) none),
        .createRegistration (some 1) none 7 (sampleRegistrationData (some "s1") none)
      ])).2.registrations.length = 2 ∧
    (createRegistration (some 1) none 8 (sampleRegistrationData (some "s1") none)
      (run emptyStore [
        .upsertSession (some 1) (sampleSessionData "s1" (some 1) none),
        .createRegistration (some 1) none 7 (sampleRegistrationData (some "s1") none)
      ])).2.sessions.map (fun r => (r.available_seats, r.status)) = [(-1, "full")] := by
  decide

/-! ## Atomicity of `createRegistration` -/

/-- C5 (as amended): for every store state and input, when `createRegistration` fails
because the tenant cannot be resolved or because a statement up to and including
`commit` raises an error, the store afterwards equals the store before the call:
no inserted registration, no decremented seat, no status change. -/
theorem createRegistration_failure_rolls_back (tenant : Option Nat)
    (fault : Option RegistrationStatement) (now : Nat) (registrationData : RegistrationData)
    (s : Store) (e : ServiceError)
    (hfail : (createRegistration tenant fault now registrationData s).1 = .error e)
    (hfault : fault ≠ some RegistrationStatement.fetchCreated) :
    (createRegistration tenant fault now registrationData s).2 = s := by
  unfold createRegistration at hfail ⊢
  cases ht : getTenantContext tenant with
  | error e0 => simp only [ht]
  | ok tenantId =>
    simp only [ht] at hfail ⊢
    by_cases hconn : fault = some RegistrationStatement.getConnection
    · simp only [hconn, if_true]
    · simp only [hconn, if_false] at hfail ⊢
      cases htx : registrationTransaction tenantId fault now registrationData s with
      | error e1 => simp only [htx]
      | ok p =>
        obtain ⟨insertId, c⟩ := p
        simp only [htx, hfault, if_false] at hfail
        exact absurd hfail (by simp)

/-- C5 witness: an error raised by the seat decrement leaves the store as it was. -/
theorem createRegistration_failure_rolls_back_witness :
    (createRegistration (some 1) (some RegistrationStatement.decrementSeats) 7
      (sampleRegistrationData (some "s1") none)
      (storeWith (sampleSession 12 4 "scheduled"))).1 = .error ServiceError.storeError ∧
    (createRegistration (some 1) (some RegistrationStatement.decrementSeats) 7
      (sampleRegistrationData (some "s1") none)
      (storeWith (sampleSession 12 4 "scheduled"))).2
      = storeWith (sampleSession 12 4 "scheduled") :=
  ⟨rfl, createRegistration_failure_rolls_back (some 1)
    (some RegistrationStatement.decrementSeats) 7 (sampleRegistrationData (some "s1") none)
    (storeWith (sampleSession 12 4 "scheduled")) ServiceError.storeError rfl (by decide)⟩

/-- C5 counterexample: when the statement that re-reads the created row after
`commit` raises an error, the caller sees a failure, yet the registration is stored
and the seat is consumed. -/
theorem createRegistration_fetch_failure_counterexample :
    (createRegistration (some 1) (some RegistrationStatement.fetchCreated) 7
      (sampleRegistrationData (some "s1") none)
      (storeWith (sampleSession 12 4 "scheduled"))).1.toOption = none ∧
    (storeWith (sampleSession 12 4 "scheduled")).registrations.length = 0 ∧
    (createRegistration (some 1) (some RegistrationStatement.fetchCreated) 7
      (sampleRegistrationData (some "s1") none)
      (storeWith (sampleSession 12 4 "scheduled"))).2.registrations.length = 1 ∧
    (createRegistration (some 1) (some RegistrationStatement.fetchCreated) 7
      (sampleRegistrationData (some "s1") none)
      (storeWith (sampleSession 12 4 "scheduled"))).2.sessions.map
        (fun r => r.available_seats) = [3] := by
  decide

/-! ## The seat bounds along guarded call sequences -/

/-- The store after `createRegistration` is the store before the call or the store
committed by its transaction. -/
theorem createRegistration_store_cases (tenant : Option Nat)
    (fault : Option RegistrationStatement) (now : Nat) (d : RegistrationData) (s : Store) :
    (createRegistration tenant fault now d s).2 = s ∨
    ∃ tenantId insertId,
      getTenantContext tenant = .ok tenantId ∧
      registrationTransaction tenantId fault now d s
        = .ok (insertId, (createRegistration tenant fault now d s).2) := by
  unfold createRegistration
  cases ht : getTenantContext tenant with
  | error e0 => left; rfl
  | ok tenantId =>
    simp only []
    by_cases hconn : fault = some RegistrationStatement.getConnection
    · left; simp only [hconn, if_true]
    · simp only [hconn, if_false]
      cases htx : registrationTransaction tenantId fault now d s with
      | error e1 => left; rfl
      | ok p =>
        obtain ⟨insertId, c⟩ := p
        right
        refine ⟨tenantId, insertId, rfl, ?_⟩
        by_cases hfetch : fault = some RegistrationStatement.fetchCreated
        · simp only [hfetch, if_true]; rw [← hfetch]; exact htx
        · simp only [hfetch, if_false]; exact htx

theorem keysUnique_map (rows : List Session) (g : Session → Session)
    (hid : ∀ r, (g r).id = r.id) (htenant : ∀ r, (g r).tenant_id = r.tenant_id)
    (h : keysUnique rows) : keysUnique (rows.map g) := by
  unfold keysUnique at h ⊢
  rw [List.pairwise_map]
  simpa only [hid, htenant] using h

/-- With unique keys, the rows selected by a key are at most one. -/
theorem filter_targeted_of_unique (sessionId : Option String) (tenantId : Nat)
    (rows : List Session) (r : Session) (hu : keysUnique rows) (hr : r ∈ rows)
    (ht : sessionTargeted sessionId tenantId r = true) :
    rows.filter (sessionTargeted sessionId tenantId) = [r] := by
  have hmem : r ∈ rows.filter (sessionTargeted sessionId tenantId) :=
    List.mem_filter.mpr ⟨hr, ht⟩
  have hpw : keysUnique (rows.filter (sessionTargeted sessionId tenantId)) :=
    List.Pairwise.sublist (List.filter_sublist _) hu
  have hall : ∀ x ∈ rows.filter (sessionTargeted sessionId tenantId),
      sessionId = some x.id ∧ x.tenant_id = tenantId := by
    intro x hx
    have := (List.mem_filter.mp hx).2
    simpa [sessionTargeted] using this
  cases hl : rows.filter (sessionTargeted sessionId tenantId) with
  | nil => rw [hl] at hmem; exact absurd hmem (List.not_mem_nil _)
  | cons x l =>
    rw [hl] at hmem hpw hall
    cases l with
    | nil =>
      rw [List.mem_singleton] at hmem
      rw [hmem]
    | cons y l2 =>
      exfalso
      have hxy := (List.pairwise_cons.mp hpw).1 y (List.mem_cons_self _ _)
      have hx := hall x (List.mem_cons_self _ _)
      have hy := hall y (List.mem_cons_of_mem _ (List.mem_cons_self _ _))
      apply hxy
      refine ⟨?_, hx.2.trans hy.2.symm⟩
      have := hx.1.symm.trans hy.1
      exact Option.some.inj this

theorem any_collides_iff_filter (id : String) (tenantId : Nat) (rows : List Session) :
    rows.any (sessionKeyCollides id tenantId) = false ↔
      rows.filter (sessionMatches id tenantId) = [] := by
  rw [List.filter_eq_nil_iff, Bool.eq_false_iff]
  constructor
  · intro h a ha hp
    exact h (List.any_eq_true.mpr ⟨a, ha, hp⟩)
  · intro h hex
    obtain ⟨a, ha, hp⟩ := List.any_eq_true.mp hex
    exact h a ha hp

theorem upsertAvailableSeats_bounds (old : Session) (rest : List Session) (d : SessionData)
    (hold : seatBounds old) (hmax : 0 ≤ orDefaultInt d.max_seats 12) :
    0 ≤ upsertAvailableSeats (old :: rest) d ∧
      upsertAvailableSeats (old :: rest) d ≤ orDefaultInt d.max_seats 12 := by
  obtain ⟨h0, h1, -⟩ := hold
  simp only [upsertAvailableSeats]
  split_ifs with hlt
  · constructor
    · exact le_max_left _ _
    · apply max_le hmax
      omega
  · constructor
    · exact h0
    · omega

theorem upsertSession_preserves_seatInvariant (tenant : Option Nat) (d : SessionData)
    (s : Store) (hinv : seatInvariant s)
    (hguard : seatGuard s (.upsertSession tenant d) = true) :
    seatInvariant (upsertSession tenant d s).2 := by
  obtain ⟨hu, hb⟩ := hinv
  simp only [seatGuard, Bool.and_eq_true, Bool.or_eq_true, decide_eq_true_eq] at hguard
  obtain ⟨hmax, hstatus⟩ := hguard
  unfold upsertSession
  cases ht : getTenantContext tenant with
  | error e => exact ⟨hu, hb⟩
  | ok tenantId =>
    simp only [ht, decide_eq_true_eq] at hstatus
    simp only []
    by_cases hany : s.sessions.any (sessionKeyCollides d.id tenantId) = true
    · have hne : selectSessions d.id tenantId s ≠ [] := by
        intro hnil
        have := (any_collides_iff_filter d.id tenantId s.sessions).mpr hnil
        rw [hany] at this
        exact absurd this (by simp)
      obtain ⟨old, rest, hsel⟩ : ∃ old rest, selectSessions d.id tenantId s = old :: rest := by
        cases h : selectSessions d.id tenantId s with
        | nil => exact absurd h hne
        | cons a l => exact ⟨a, l, rfl⟩
      have holdmem : old ∈ s.sessions := by
        have : old ∈ s.sessions.filter (sessionMatches d.id tenantId) := by
          unfold selectSessions at hsel; rw [hsel]; exact List.mem_cons_self _ _
        exact (List.mem_filter.mp this).1
      obtain ⟨ha0, ha1⟩ := upsertAvailableSeats_bounds old rest d (hb old holdmem) hmax
      rw [hsel] at hstatus
      simp only [insertOrUpdateSession, hany, if_true, hsel]
      constructor
      · apply keysUnique_map _ _ _ _ hu
        · intro r; split <;> rfl
        · intro r; split <;> rfl
      · intro r hr
        obtain ⟨r0, hr0, rfl⟩ := List.mem_map.mp hr
        split
        · refine ⟨ha0, ha1, ?_⟩
          intro hfull
          rcases hstatus with h | h
          · exact absurd hfull h
          · exact h
        · exact hb r0 hr0
    · rw [Bool.not_eq_true] at hany
      have hnil := (any_collides_iff_filter d.id tenantId s.sessions).mp hany
      simp only [selectSessions, hnil] at hstatus
      simp only [insertOrUpdateSession, hany, Bool.false_eq_true, if_false, selectSessions,
        hnil]
      constructor
      · unfold keysUnique
        rw [List.pairwise_append]
        refine ⟨hu, List.pairwise_singleton _ _, ?_⟩
        intro a ha b hb2
        rw [List.mem_singleton] at hb2
        subst hb2
        intro hkey
        have hnot : sessionMatches d.id tenantId a = false := by
          rw [List.filter_eq_nil_iff] at hnil
          exact Bool.eq_false_iff.mpr (hnil a ha)
        have : sessionMatches d.id tenantId a = true := by
          simp only [sessionMatches, Bool.and_eq_true, decide_eq_true_eq]
          exact hkey
        rw [hnot] at this
        exact absurd this (by simp)
      · intro r hr
        rw [List.mem_append, List.mem_singleton] at hr
        rcases hr with hr | hr
        · exact hb r hr
        · subst hr
          refine ⟨hmax, le_refl _, ?_⟩
          intro hfull
          rcases hstatus with h | h
          · exact absurd hfull h
          · exact h

/-- With unique keys, the full check after the decrement reads the one targeted row. -/
theorem nowFull_after_decrement (sessionId : Option String) (tenantId : Nat)
    (rows : List Session) (r : Session) (hu : keysUnique rows) (hr : r ∈ rows)
    (ht : sessionTargeted sessionId tenantId r = true) :
    nowFull sessionId tenantId (decrementSeats sessionId tenantId rows)
      = decide (r.available_seats - 1 ≤ 0) := by
  unfold nowFull decrementSeats
  rw [filter_map_of_stable, filter_targeted_of_unique sessionId tenantId rows r hu hr ht]
  · simp [ht]
  · intro a
    by_cases hp : sessionTargeted sessionId tenantId a = true
    · simp only [hp, if_true]; exact hp
    · simp [hp]

theorem consume_preserves_seatInvariant (sessionId : Option String) (tenantId : Nat)
    (rows : List Session) (hu : keysUnique rows) (hb : ∀ r ∈ rows, seatBounds r)
    (hguard : ∀ r ∈ rows, sessionTargeted sessionId tenantId r = true →
      1 ≤ r.available_seats) :
    keysUnique
      (if nowFull sessionId tenantId (decrementSeats sessionId tenantId rows) then
        markFull sessionId tenantId (decrementSeats sessionId tenantId rows)
      else decrementSeats sessionId tenantId rows) ∧
    ∀ r ∈ (if nowFull sessionId tenantId (decrementSeats sessionId tenantId rows) then
        markFull sessionId tenantId (decrementSeats sessionId tenantId rows)
      else decrementSeats sessionId tenantId rows), seatBounds r := by
  have hudec : keysUnique (decrementSeats sessionId tenantId rows) := by
    apply keysUnique_map _ _ _ _ hu
    · intro r; split <;> rfl
    · intro r; split <;> rfl
  have hdec : ∀ r ∈ rows, seatBounds r →
      (sessionTargeted sessionId tenantId r = true → 1 ≤ r.available_seats ∧
        (nowFull sessionId tenantId (decrementSeats sessionId tenantId rows) = true →
          r.available_seats - 1 = 0)) := by
    intro r hr _ ht
    have h1 := hguard r hr ht
    refine ⟨h1, ?_⟩
    intro hfull
    rw [nowFull_after_decrement sessionId tenantId rows r hu hr ht] at hfull
    have := of_decide_eq_true hfull
    omega
  by_cases hfull : nowFull sessionId tenantId (decrementSeats sessionId tenantId rows) = true
  · rw [if_pos hfull]
    constructor
    · apply keysUnique_map _ _ _ _ hudec
      · intro r; split <;> rfl
      · intro r; split <;> rfl
    · intro r hr
      unfold markFull decrementSeats at hr
      rw [List.map_map] at hr
      obtain ⟨r0, hr0, rfl⟩ := List.mem_map.mp hr
      obtain ⟨h0, h1, h2⟩ := hb r0 hr0
      by_cases ht : sessionTargeted sessionId tenantId r0 = true
      · obtain ⟨hge, hz⟩ := hdec r0 hr0 (hb r0 hr0) ht
        have hz := hz hfull
        have ht2 : sessionTargeted sessionId tenantId
            { r0 with available_seats := r0.available_seats - 1 } = true := ht
        simp only [Function.comp, ht, if_true, ht2]
        refine ⟨?_, ?_, ?_⟩
        · show 0 ≤ r0.available_seats - 1
          omega
        · show r0.available_seats - 1 ≤ r0.max_seats
          omega
        · intro _
          exact hz
      · simp only [Function.comp, ht, if_false, Bool.false_eq_true]
        exact ⟨h0, h1, h2⟩
  · rw [if_neg hfull]
    refine ⟨hudec, ?_⟩
    intro r hr
    unfold decrementSeats at hr
    obtain ⟨r0, hr0, rfl⟩ := List.mem_map.mp hr
    obtain ⟨h0, h1, h2⟩ := hb r0 hr0
    by_cases ht : sessionTargeted sessionId tenantId r0 = true
    · obtain ⟨hge, -⟩ := hdec r0 hr0 (hb r0 hr0) ht
      have hnz : ¬ (r0.available_seats - 1 ≤ 0) := by
        intro hle
        apply hfull
        rw [nowFull_after_decrement sessionId tenantId rows r0 hu hr0 ht]
        exact decide_eq_true hle
      simp only [ht, if_true]
      refine ⟨?_, ?_, ?_⟩
      · show 0 ≤ r0.available_seats - 1
        omega
      · show r0.available_seats - 1 ≤ r0.max_seats
        omega
      · intro hst
        have hst2 : r0.status = "full" := hst
        have := h2 hst2
        omega
    · simp only [ht, if_false, Bool.false_eq_true]
      exact ⟨h0, h1, h2⟩

theorem createRegistration_preserves_seatInvariant (tenant : Option Nat)
    (fault : Option RegistrationStatement) (now : Nat) (d : RegistrationData) (s : Store)
    (hinv : seatInvariant s)
    (hguard : seatGuard s (.createRegistration tenant fault now d) = true) :
    seatInvariant (createRegistration tenant fault now d s).2 := by
  rcases createRegistration_store_cases tenant fault now d s with h | ⟨tenantId, i, ht, htx⟩
  · rw [h]; exact hinv
  · obtain ⟨-, -, hsess, -, -, -⟩ := registrationTransaction_ok tenantId fault now d s _ _ htx
    obtain ⟨hu, hb⟩ := hinv
    simp only [seatGuard, ht, List.all_eq_true, Bool.or_eq_true, Bool.not_eq_true',
      decide_eq_true_eq] at hguard
    have hg : ∀ r ∈ s.sessions, sessionTargeted d.session_id tenantId r = true →
        1 ≤ r.available_seats := by
      intro r hr htgt
      rcases hguard r hr with h | h
      · rw [htgt] at h; exact absurd h (by simp)
      · exact h
    unfold seatInvariant
    rw [hsess]
    exact consume_preserves_seatInvariant d.session_id tenantId s.sessions hu hb hg

theorem deleteSession_preserves_seatInvariant (tenant : Option Nat) (sessionId : String)
    (s : Store) (hinv : seatInvariant s) :
    seatInvariant (deleteSession tenant sessionId s).2 := by
  unfold deleteSession
  cases ht : getTenantContext tenant with
  | error e => exact hinv
  | ok tenantId =>
    obtain ⟨hu, hb⟩ := hinv
    exact ⟨List.Pairwise.sublist (List.filter_sublist _) hu,
      fun r hr => hb r (List.mem_filter.mp hr).1⟩

theorem updateRegistrationStatus_sessions (tenant : Option Nat) (registrationId : Nat)
    (status : String) (s : Store) :
    (updateRegistrationStatus tenant registrationId status s).2.sessions = s.sessions := by
  unfold updateRegistrationStatus
  cases ht : getTenantContext tenant <;> rfl

theorem step_preserves_seatInvariant (s : Store) (op : Op) (hinv : seatInvariant s)
    (hguard : seatGuard s op = true) : seatInvariant (step s op) := by
  cases op with
  | upsertSession tenant d => exact upsertSession_preserves_seatInvariant tenant d s hinv hguard
  | deleteSession tenant sessionId =>
    exact deleteSession_preserves_seatInvariant tenant sessionId s hinv
  | createRegistration tenant fault now d =>
    exact createRegistration_preserves_seatInvariant tenant fault now d s hinv hguard
  | updateRegistrationStatus tenant registrationId status =>
    unfold seatInvariant step
    rw [updateRegistrationStatus_sessions]
    exact hinv

theorem run_preserves_seatInvariant (ops : List Op) :
    ∀ s : Store, seatInvariant s → admissible seatGuard s ops = true →
      seatInvariant (run s ops) := by
  induction ops with
  | nil => intro s hinv _; exact hinv
  | cons op ops ih =>
    intro s hinv hadm
    simp only [admissible, Bool.and_eq_true] at hadm
    exact ih (step s op) (step_preserves_seatInvariant s op hinv hadm.1) hadm.2

/-- C6 (as amended): in every store state reached from the empty store by a sequence
of `upsertSession`, `deleteSession`, `createRegistration` and
`updateRegistrationStatus` calls in which every `upsertSession` payload asks for a
seat count that is absent or not negative, and for the status `full` only when the
call leaves no seat available, and every `createRegistration` names no session with
fewer than one available seat, every session satisfies
`0 ≤ available_seats ≤ max_seats`, and status `full` implies `available_seats = 0`. -/
theorem seat_bounds_on_guarded_runs (ops : List Op)
    (hadm : admissible seatGuard emptyStore ops = true) :
    ∀ r ∈ (run emptyStore ops).sessions,
      0 ≤ r.available_seats ∧ r.available_seats ≤ r.max_seats ∧
        (r.status = "full" → r.available_seats = 0) := by
  have hinit : seatInvariant emptyStore :=
    ⟨List.Pairwise.nil, fun r hr => absurd hr (List.not_mem_nil _)⟩
  exact (run_preserves_seatInvariant ops emptyStore hinit hadm).2

/-- C6 witness: a session created with one seat and then booked once passes the
guards and ends with `available_seats = 0` and status `full`. -/
theorem seat_bounds_on_guarded_runs_witness :
    admissible seatGuard emptyStore [
        .upsertSession (some 1) (sampleSessionData "s1" (some 1) none),
        .createRegistration (some 1) none 7 (sampleRegistrationData (some "s1") none)
      ] = true ∧
    (run emptyStore [
        .upsertSession (some 1) (sampleSessionData "s1" (some 1) none),
        .createRegistration (some 1) none 7 (sampleRegistrationData (some "s1") none)
      ]).sessions = [sampleSession 1 0 "full"] ∧
    ∀ r ∈ (run emptyStore [
        .upsertSession (some 1) (sampleSessionData "s1" (some 1) none),
        .createRegistration (some 1) none 7 (sampleRegistrationData (some "s1") none)
      ]).sessions,
      0 ≤ r.available_seats ∧ r.available_seats ≤ r.max_seats ∧
        (r.status = "full" → r.available_seats = 0) :=
  ⟨by decide, by decide,
    seat_bounds_on_guarded_runs [
        .upsertSession (some 1) (sampleSessionData "s1" (some 1) none),
        .createRegistration (some 1) none 7 (sampleRegistrationData (some "s1") none)
      ] (by decide)⟩

/-- C6 counterexample: three states reached from the empty store break the bounds.
An `upsertSession` with status `full` leaves a session `full` with 12 seats
available; an `upsertSession` asking for -3 seats leaves `available_seats = -3`;
two registrations against a one-seat session leave `available_seats = -1`. -/
theorem seat_bounds_counterexample :
    (run emptyStore [
        .upsertSession (some 1) (sampleSessionData "s1" (some 12) (some "full"))
      ]).sessions.map (fun r => (r.max_seats, r.available_seats, r.status))
      = [(12, 12, "full")] ∧
    (run emptyStore [
        .upsertSession (some 1) (sampleSessionData "s1" (some (-3)) none)
      ]).sessions.map (fun r => (r.max_seats, r.available_seats, r.status))
      = [(-3, -3, "scheduled")] ∧
    (run emptyStore [
        .upsertSession (some 1) (sampleSessionData "s1" (some 1) none),
        .createRegistration (some 1) none 7 (sampleRegistrationData (some "s1") none),
        .createRegistration (some 1) none 8 (sampleRegistrationData (some "s1") none)
      ]).sessions.map (fun r => (r.max_seats, r.available_seats, r.status))
      = [(1, -1, "full")] := by
  decide

/-! ## The seat ledger along guarded call sequences -/

/-- The two session updates of a committed `createRegistration` as one row map. -/
theorem consume_eq_map (sessionId : Option String) (tenantId : Nat) (rows : List Session) :
    (if nowFull sessionId tenantId (decrementSeats sessionId tenantId rows) then
        markFull sessionId tenantId (decrementSeats sessionId tenantId rows)
      else decrementSeats sessionId tenantId rows)
      = rows.map (fun r =>
          if sessionTargeted sessionId tenantId r then
            { r with
              available_seats := r.available_seats - 1
              status :=
                if nowFull sessionId tenantId (decrementSeats sessionId tenantId rows) then
                  "full"
                else r.status }
          else r) := by
  by_cases hfull : nowFull sessionId tenantId (decrementSeats sessionId tenantId rows) = true
  · rw [if_pos hfull]
    unfold markFull
    conv_lhs => unfold decrementSeats
    rw [List.map_map]
    apply List.map_congr_left
    intro r _
    by_cases ht : sessionTargeted sessionId tenantId r = true
    · have ht2 : sessionTargeted sessionId tenantId
          { r with available_seats := r.available_seats - 1 } = true := ht
      simp only [Function.comp, ht, if_true, ht2, hfull]
    · simp only [Function.comp, ht, if_false, Bool.false_eq_true]
  · rw [if_neg hfull]
    conv_lhs => unfold decrementSeats
    apply List.map_congr_left
    intro r _
    by_cases ht : sessionTargeted sessionId tenantId r = true
    · simp only [ht, if_true, hfull, if_false, Bool.false_eq_true]
    · simp only [ht, if_false, Bool.false_eq_true]

theorem activeCount_append_one (regs : List Registration) (g : Registration)
    (tenantId : Nat) (sessionId : String) :
    activeCount (regs ++ [g]) tenantId sessionId
      = activeCount regs tenantId sessionId +
        (if decide (g.tenant_id = tenantId) && decide (g.session_id = some sessionId) &&
            isActive g.status then 1 else 0) := by
  unfold activeCount
  rw [List.filter_append, List.length_append]
  congr 1
  simp only [List.filter_cons, List.filter_nil]
  split <;> rfl

theorem activeCount_map_of_stable (regs : List Registration) (f : Registration → Registration)
    (tenantId : Nat) (sessionId : String)
    (hf : ∀ g ∈ regs,
      (decide ((f g).tenant_id = tenantId) && decide ((f g).session_id = some sessionId) &&
        isActive (f g).status)
      = (decide (g.tenant_id = tenantId) && decide (g.session_id = some sessionId) &&
        isActive g.status)) :
    activeCount (regs.map f) tenantId sessionId = activeCount regs tenantId sessionId := by
  unfold activeCount
  induction regs with
  | nil => rfl
  | cons a l ih =>
    have ha := hf a (List.mem_cons_self _ _)
    have hl := ih (fun g hg => hf g (List.mem_cons_of_mem _ hg))
    simp only [List.map_cons, List.filter_cons, ha]
    split
    · simp only [List.length_cons, hl]
    · exact hl

theorem activeCount_eq_zero (regs : List Registration) (tenantId : Nat) (sessionId : String)
    (h : ∀ g ∈ regs, ¬ (g.tenant_id = tenantId ∧ g.session_id = some sessionId)) :
    activeCount regs tenantId sessionId = 0 := by
  unfold activeCount
  rw [List.length_eq_zero, List.filter_eq_nil_iff]
  intro g hg hp
  simp only [Bool.and_eq_true, decide_eq_true_eq] at hp
  exact h g hg hp.1

theorem upsertSession_preserves_ledger (tenant : Option Nat) (d : SessionData) (s : Store)
    (hinv : ledgerInvariant s) (hguard : ledgerGuard s (.upsertSession tenant d) = true) :
    ledgerInvariant (upsertSession tenant d s).2 := by
  unfold upsertSession
  cases ht : getTenantContext tenant with
  | error e => exact hinv
  | ok tenantId =>
    simp only [ledgerGuard, ht] at hguard
    simp only []
    cases hsel : selectSessions d.id tenantId s with
    | nil =>
      rw [hsel] at hguard
      have hzero : activeCount s.registrations tenantId d.id = 0 := of_decide_eq_true hguard
      have hany := (any_collides_iff_filter d.id tenantId s.sessions).mpr hsel
      unfold ledgerInvariant
      simp only [insertOrUpdateSession, hany, Bool.false_eq_true, if_false]
      intro r hr
      rw [List.mem_append, List.mem_singleton] at hr
      rcases hr with hr | hr
      · exact hinv r hr
      · subst hr
        simp only [insertedSession, upsertAvailableSeats, hzero]
        simp
    | cons old rest =>
      rw [hsel] at hguard
      simp only [Bool.or_eq_true, Bool.and_eq_true, decide_eq_true_eq] at hguard
      have hany : s.sessions.any (sessionKeyCollides d.id tenantId) = true := by
        cases h : s.sessions.any (sessionKeyCollides d.id tenantId) with
        | true => rfl
        | false =>
          have := (any_collides_iff_filter d.id tenantId s.sessions).mp h
          unfold selectSessions at hsel
          rw [hsel] at this
          exact absurd this (by simp)
      have holdmem : old ∈ s.sessions.filter (sessionMatches d.id tenantId) := by
        unfold selectSessions at hsel; rw [hsel]; exact List.mem_cons_self _ _
      obtain ⟨holdin, holdkey⟩ := List.mem_filter.mp holdmem
      simp only [sessionMatches, Bool.and_eq_true, decide_eq_true_eq] at holdkey
      have hold := hinv old holdin
      rw [holdkey.1, holdkey.2] at hold
      have hseats : orDefaultInt d.max_seats 12 - upsertAvailableSeats (old :: rest) d
          = old.max_seats - old.available_seats := by
        simp only [upsertAvailableSeats]
        rcases hguard with heq | ⟨hlt, hred⟩
        · rw [heq]; simp
        · rw [if_pos hlt, max_eq_right (by omega)]
          omega
      unfold ledgerInvariant
      simp only [insertOrUpdateSession, hany, if_true]
      intro r hr
      obtain ⟨r0, hr0, rfl⟩ := List.mem_map.mp hr
      by_cases hcol : sessionKeyCollides d.id tenantId r0 = true
      · simp only [hcol, if_true]
        have hkey : r0.id = d.id ∧ r0.tenant_id = tenantId := by
          simpa [sessionKeyCollides, sessionMatches] using hcol
        show orDefaultInt d.max_seats 12 - upsertAvailableSeats (old :: rest) d
          = (activeCount s.registrations r0.tenant_id r0.id : Int)
        rw [hseats, hold, hkey.1, hkey.2]
      · simp only [hcol, if_false, Bool.false_eq_true]
        exact hinv r0 hr0

theorem deleteSession_preserves_ledger (tenant : Option Nat) (sessionId : String) (s : Store)
    (hinv : ledgerInvariant s) :
    ledgerInvariant (deleteSession tenant sessionId s).2 := by
  unfold deleteSession
  cases ht : getTenantContext tenant with
  | error e => exact hinv
  | ok tenantId =>
    intro r hr
    exact hinv r (List.mem_filter.mp hr).1

theorem createRegistration_preserves_ledger (tenant : Option Nat)
    (fault : Option RegistrationStatement) (now : Nat) (d : RegistrationData) (s : Store)
    (hinv : ledgerInvariant s)
    (hguard : ledgerGuard s (.createRegistration tenant fault now d) = true) :
    ledgerInvariant (createRegistration tenant fault now d s).2 := by
  rcases createRegistration_store_cases tenant fault now d s with h | ⟨tenantId, i, ht, htx⟩
  · rw [h]; exact hinv
  · obtain ⟨-, hregs, hsess, -, -, -⟩ := registrationTransaction_ok tenantId fault now d s _ _ htx
    simp only [ledgerGuard, ht, Bool.or_eq_true, Bool.not_eq_true'] at hguard
    unfold ledgerInvariant
    rw [hsess, hregs, consume_eq_map]
    intro r hr
    obtain ⟨r0, hr0, rfl⟩ := List.mem_map.mp hr
    have h0 := hinv r0 hr0
    by_cases htgt : sessionTargeted d.session_id tenantId r0 = true
    · have hkey : d.session_id = some r0.id ∧ r0.tenant_id = tenantId := by
        simpa [sessionTargeted] using htgt
      have hactive : isActive (orDefaultStr d.status "confirmed") = true := by
        rcases hguard with hnone | hact
        · have hsome : s.sessions.any (sessionTargeted d.session_id tenantId) = true :=
            List.any_eq_true.mpr ⟨r0, hr0, htgt⟩
          rw [hnone] at hsome
          exact absurd hsome (by simp)
        · exact hact
      simp only [htgt, if_true]
      show r0.max_seats - (r0.available_seats - 1) = _
      rw [activeCount_append_one]
      have hcond : (decide ((insertedRegistration s.nextRegistrationId tenantId now d).tenant_id
            = r0.tenant_id) &&
          decide ((insertedRegistration s.nextRegistrationId tenantId now d).session_id
            = some r0.id) &&
          isActive (insertedRegistration s.nextRegistrationId tenantId now d).status) = true := by
        simp only [insertedRegistration, Bool.and_eq_true, decide_eq_true_eq]
        exact ⟨⟨hkey.2.symm, hkey.1⟩, hactive⟩
      rw [hcond]
      simp only [if_true]
      push_cast
      omega
    · simp only [htgt, if_false, Bool.false_eq_true]
      rw [activeCount_append_one]
      have hcond : (decide ((insertedRegistration s.nextRegistrationId tenantId now d).tenant_id
            = r0.tenant_id) &&
          decide ((insertedRegistration s.nextRegistrationId tenantId now d).session_id
            = some r0.id) &&
          isActive (insertedRegistration s.nextRegistrationId tenantId now d).status) = false := by
        rw [Bool.eq_false_iff]
        intro hcontra
        simp only [insertedRegistration, Bool.and_eq_true, decide_eq_true_eq] at hcontra
        apply htgt
        simp only [sessionTargeted, Bool.and_eq_true, decide_eq_true_eq]
        exact ⟨hcontra.1.2, hcontra.1.1.symm⟩
      rw [hcond]
      simp only [Bool.false_eq_true, if_false, Nat.add_zero]
      exact h0

theorem updateRegistrationStatus_preserves_ledger (tenant : Option Nat) (registrationId : Nat)
    (status : String) (s : Store) (hinv : ledgerInvariant s)
    (hguard : ledgerGuard s (.updateRegistrationStatus tenant registrationId status) = true) :
    ledgerInvariant (updateRegistrationStatus tenant registrationId status s).2 := by
  unfold updateRegistrationStatus
  cases ht : getTenantContext tenant with
  | error e => exact hinv
  | ok tenantId =>
    simp only [ledgerGuard, ht, List.all_eq_true, Bool.or_eq_true, Bool.not_eq_true',
      beq_iff_eq] at hguard
    intro r hr
    show r.max_seats - r.available_seats = _
    rw [activeCount_map_of_stable]
    · exact hinv r hr
    · intro g hg
      by_cases htgt : (decide (g.id = registrationId) && decide (g.tenant_id = tenantId)) = true
      · simp only [htgt, if_true]
        rcases hguard g hg with h | h
        · rw [htgt] at h; exact absurd h (by simp)
        · rw [h]
      · simp only [htgt, if_false, Bool.false_eq_true]

theorem step_preserves_ledger (s : Store) (op : Op) (hinv : ledgerInvariant s)
    (hguard : ledgerGuard s op = true) : ledgerInvariant (step s op) := by
  cases op with
  | upsertSession tenant d => exact upsertSession_preserves_ledger tenant d s hinv hguard
  | deleteSession tenant sessionId =>
    exact deleteSession_preserves_ledger tenant sessionId s hinv
  | createRegistration tenant fault now d =>
    exact createRegistration_preserves_ledger tenant fault now d s hinv hguard
  | updateRegistrationStatus tenant registrationId status =>
    exact updateRegistrationStatus_preserves_ledger tenant registrationId status s hinv hguard

theorem run_preserves_ledger (ops : List Op) :
    ∀ s : Store, ledgerInvariant s → admissible ledgerGuard s ops = true →
      ledgerInvariant (run s ops) := by
  induction ops with
  | nil => intro s hinv _; exact hinv
  | cons op ops ih =>
    intro s hinv hadm
    simp only [admissible, Bool.and_eq_true] at hadm
    exact ih (step s op) (step_preserves_ledger s op hinv hadm.1) hadm.2

/-- C7 (as amended): in every store state reached from the empty store by a sequence
of service calls in which every `upsertSession` creates a session no active
registration of the tenant refers to, keeps the `max_seats` of an existing session,
or lowers it by no more than its `available_seats`, every `createRegistration`
against an existing session of the tenant stores the status `confirmed` or
`pending`, and every `updateRegistrationStatus` keeps the registration active or
inactive as it was, `max_seats - available_seats` of every session equals the number
of registrations against it in its tenant whose status is `confirmed` or `pending`. -/
theorem seat_ledger_on_guarded_runs (ops : List Op)
    (hadm : admissible ledgerGuard emptyStore ops = true) :
    ∀ r ∈ (run emptyStore ops).sessions,
      r.max_seats - r.available_seats
        = (activeCount (run emptyStore ops).registrations r.tenant_id r.id : Int) := by
  have hinit : ledgerInvariant emptyStore :=
    fun r hr => absurd hr (List.not_mem_nil _)
  exact run_preserves_ledger ops emptyStore hinit hadm

/-- C7 witness: a session of 12 seats, two registrations (one `pending`), and a status
change from `confirmed` to `pending`: 2 seats consumed, 2 active registrations. -/
theorem seat_ledger_on_guarded_runs_witness :
    admissible ledgerGuard emptyStore [
        .upsertSession (some 1) (sampleSessionData "s1" (some 12) none),
        .createRegistration (some 1) none 7 (sampleRegistrationData (some "s1") none),
        .createRegistration (some 1) none 8
          (sampleRegistrationData (some "s1") (some "pending")),
        .updateRegistrationStatus (some 1) 1 "pending"
      ] = true ∧
    (run emptyStore [
        .upsertSession (some 1) (sampleSessionData "s1" (some 12) none),
        .createRegistration (some 1) none 7 (sampleRegistrationData (some "s1") none),
        .createRegistration (some 1) none 8
          (sampleRegistrationData (some "s1") (some "pending")),
        .updateRegistrationStatus (some 1) 1 "pending"
      ]).sessions = [sampleSession 12 10 "scheduled"] ∧
    ∀ r ∈ (run emptyStore [
        .upsertSession (some 1) (sampleSessionData "s1" (some 12) none),
        .createRegistration (some 1) none 7 (sampleRegistrationData (some "s1") none),
        .createRegistration (some 1) none 8
          (sampleRegistrationData (some "s1") (some "pending")),
        .updateRegistrationStatus (some 1) 1 "pending"
      ]).sessions,
      r.max_seats - r.available_seats
        = (activeCount (run emptyStore [
            .upsertSession (some 1) (sampleSessionData "s1" (some 12) none),
            .createRegistration (some 1) none 7 (sampleRegistrationData (some "s1") none),
            .createRegistration (some 1) none 8
              (sampleRegistrationData (some "s1") (some "pending")),
            .updateRegistrationStatus (some 1) 1 "pending"
          ]).registrations r.tenant_id r.id : Int) :=
  ⟨by decide, by decide,
    seat_ledger_on_guarded_runs [
        .upsertSession (some 1) (sampleSessionData "s1" (some 12) none),
        .createRegistration (some 1) none 7 (sampleRegistrationData (some "s1") none),
        .createRegistration (some 1) none 8
          (sampleRegistrationData (some "s1") (some "pending")),
        .updateRegistrationStatus (some 1) 1 "pending"
      ] (by decide)⟩

/-- C7 counterexample: two states reached from the empty store in which consumption
and registrations differ.  After a registration is set to `cancelled` the session
still has 1 of 12 seats consumed and no active registration; after a session
without registrations is edited from 5 to 12 seats it has 7 seats consumed. -/
theorem seat_ledger_counterexample :
    (run emptyStore [
        .upsertSession (some 1) (sampleSessionData "s1" (some 12) none),
        .createRegistration (some 1) none 7 (sampleRegistrationData (some "s1") none),
        .updateRegistrationStatus (some 1) 1 "cancelled"
      ]).sessions.map (fun r => r.max_seats - r.available_seats) = [1] ∧
    activeCount (run emptyStore [
        .upsertSession (some 1) (sampleSessionData "s1" (some 12) none),
        .createRegistration (some 1) none 7 (sampleRegistrationData (some "s1") none),
        .updateRegistrationStatus (some 1) 1 "cancelled"
      ]).registrations 1 "s1" = 0 ∧
    (run emptyStore [
        .upsertSession (some 1) (sampleSessionData "s1" (some 5) none),
        .upsertSession (some 1) (sampleSessionData "s1" (some 12) none)
      ]).sessions.map (fun r => r.max_seats - r.available_seats) = [7] ∧
    activeCount (run emptyStore [
        .upsertSession (some 1) (sampleSessionData "s1" (some 5) none),
        .upsertSession (some 1) (sampleSessionData "s1" (some 12) none)
      ]).registrations 1 "s1" = 0 := by
  decide

/-! ## Capacity edits and consumed seats -/

/-- The row stored by `upsertSession` for an id that exists in the tenant. -/
theorem upsertSession_existing_row (tenant : Option Nat) (tenantId : Nat) (d : SessionData)
    (s : Store) (old : Session)
    (htenant : getTenantContext tenant = .ok tenantId)
    (hold : sessionById d.id tenantId s = some old) :
    ∃ stored : Session,
      sessionById d.id tenantId (upsertSession tenant d s).2 = some stored ∧
      stored.max_seats = orDefaultInt d.max_seats 12 ∧
      stored.available_seats =
        (if orDefaultInt d.max_seats 12 < old.max_seats then
          max 0 (old.available_seats - (old.max_seats - orDefaultInt d.max_seats 12))
        else old.available_seats) := by
  unfold sessionById at hold
  obtain ⟨rest, hsel⟩ : ∃ rest, selectSessions d.id tenantId s = old :: rest := by
    cases h : selectSessions d.id tenantId s with
    | nil => rw [h] at hold; simp at hold
    | cons a l => rw [h] at hold; simp at hold; exact ⟨l, by rw [hold]⟩
  have hafter := selectSessions_after_update tenantId d
    (upsertAvailableSeats (selectSessions d.id tenantId s) d) s old rest hsel
  refine ⟨updatedSession old d (upsertAvailableSeats (selectSessions d.id tenantId s) d),
    ?_, rfl, ?_⟩
  · simp only [upsertSession, htenant, sessionById, hafter, List.head?_cons]
  · simp only [updatedSession, hsel, upsertAvailableSeats]

/-- C8 (as amended): for every existing session and every `upsertSession` call whose
new maximum is not below the old one, `available_seats` after the edit equals
`available_seats` before it, so the consumed count `max_seats - available_seats`
grows by `new_max - old_max`; it is the same as before exactly when the maximum is
unchanged. -/
theorem upsertSession_increase_keeps_available (tenant : Option Nat) (tenantId : Nat)
    (sessionData : SessionData) (s : Store) (old : Session)
    (htenant : getTenantContext tenant = .ok tenantId)
    (hold : sessionById sessionData.id tenantId s = some old)
    (hge : old.max_seats ≤ orDefaultInt sessionData.max_seats 12) :
    ∃ stored : Session,
      sessionById sessionData.id tenantId (upsertSession tenant sessionData s).2
        = some stored ∧
      stored.available_seats = old.available_seats ∧
      stored.max_seats - stored.available_seats
        = (old.max_seats - old.available_seats)
          + (orDefaultInt sessionData.max_seats 12 - old.max_seats) ∧
      (stored.max_seats - stored.available_seats = old.max_seats - old.available_seats ↔
        orDefaultInt sessionData.max_seats 12 = old.max_seats) := by
  obtain ⟨stored, h1, h2, h3⟩ := upsertSession_existing_row tenant tenantId sessionData s old
    htenant hold
  rw [if_neg (by omega)] at h3
  refine ⟨stored, h1, h3, ?_, ?_⟩
  · rw [h2, h3]; omega
  · rw [h2, h3]; constructor <;> intro h <;> omega

/-- C8 witness: a session with 5 seats, 3 of them consumed, edited to 12 seats keeps
`available_seats = 2`; its consumed count becomes 10. -/
theorem upsertSession_increase_keeps_available_witness :
    getTenantContext (some 1) = .ok 1 ∧
    sessionById (sampleSessionData "s1" (some 12) none).id 1
      (storeWith (sampleSession 5 2 "scheduled")) = some (sampleSession 5 2 "scheduled") ∧
    (sampleSession 5 2 "scheduled").max_seats
      ≤ orDefaultInt (sampleSessionData "s1" (some 12) none).max_seats 12 ∧
    (sessionById "s1" 1 (upsertSession (some 1) (sampleSessionData "s1" (some 12) none)
        (storeWith (sampleSession 5 2 "scheduled"))).2).map
      (fun r => (r.available_seats, r.max_seats - r.available_seats)) = some (2, 10) := by
  refine ⟨rfl, by decide, by decide, ?_⟩
  obtain ⟨stored, h1, h2, h3, -⟩ := upsertSession_increase_keeps_available (some 1) 1
    (sampleSessionData "s1" (some 12) none) (storeWith (sampleSession 5 2 "scheduled"))
    (sampleSession 5 2 "scheduled") rfl (by decide) (by decide)
  rw [show (sampleSessionData "s1" (some 12) none).id = "s1" from rfl] at h1
  rw [h1, Option.map_some', h3, h2]
  decide

/-- C8 counterexample: a session with 5 seats, all available (consumed count 0),
edited to 12 seats keeps `available_seats = 5`; its consumed count is then 7. -/
theorem upsertSession_increase_consumed_counterexample :
    sessionById "s1" 1 (storeWith (sampleSession 5 5 "scheduled"))
      = some (sampleSession 5 5 "scheduled") ∧
    (sampleSession 5 5 "scheduled").max_seats - (sampleSession 5 5 "scheduled").available_seats
      = 0 ∧
    (sessionById "s1" 1 (upsertSession (some 1) (sampleSessionData "s1" (some 12) none)
        (storeWith (sampleSession 5 5 "scheduled"))).2).map
      (fun r => (r.max_seats, r.available_seats, r.max_seats - r.available_seats))
      = some (12, 5, 7) := by
  decide

/-- C9 (as amended): for every existing session and every `upsertSession` call that
lowers its `max_seats`, `available_seats` after the edit is not negative, also when
the reduction exceeds the current availability, and it is not greater than
`available_seats` before the edit whenever that value is not negative. -/
theorem upsertSession_reduction_bounds (tenant : Option Nat) (tenantId : Nat)
    (sessionData : SessionData) (s : Store) (old : Session)
    (htenant : getTenantContext tenant = .ok tenantId)
    (hold : sessionById sessionData.id tenantId s = some old)
    (hlt : orDefaultInt sessionData.max_seats 12 < old.max_seats) :
    ∃ stored : Session,
      sessionById sessionData.id tenantId (upsertSession tenant sessionData s).2
        = some stored ∧
      0 ≤ stored.available_seats ∧
      (0 ≤ old.available_seats → stored.available_seats ≤ old.available_seats) := by
  obtain ⟨stored, h1, -, h3⟩ := upsertSession_existing_row tenant tenantId sessionData s old
    htenant hold
  rw [if_pos hlt] at h3
  refine ⟨stored, h1, ?_, ?_⟩
  · rw [h3]; exact le_max_left _ _
  · intro h0
    rw [h3]
    apply max_le h0
    omega

/-- C9 witness: a session with 12 seats and 4 available, lowered to 5 seats (a
reduction of 7), ends with `available_seats = 0`. -/
theorem upsertSession_reduction_bounds_witness :
    getTenantContext (some 1) = .ok 1 ∧
    sessionById (sampleSessionData "s1" (some 5) none).id 1
      (storeWith (sampleSession 12 4 "scheduled")) = some (sampleSession 12 4 "scheduled") ∧
    orDefaultInt (sampleSessionData "s1" (some 5) none).max_seats 12
      < (sampleSession 12 4 "scheduled").max_seats ∧
    ∃ stored : Session,
      sessionById (sampleSessionData "s1" (some 5) none).id 1
        (upsertSession (some 1) (sampleSessionData "s1" (some 5) none)
          (storeWith (sampleSession 12 4 "scheduled"))).2 = some stored ∧
      0 ≤ stored.available_seats ∧
      (0 ≤ (sampleSession 12 4 "scheduled").available_seats →
        stored.available_seats ≤ (sampleSession 12 4 "scheduled").available_seats) :=
  ⟨rfl, by decide, by decide,
    upsertSession_reduction_bounds (some 1) 1 (sampleSessionData "s1" (some 5) none)
      (storeWith (sampleSession 12 4 "scheduled")) (sampleSession 12 4 "scheduled")
      rfl (by decide) (by decide)⟩

/-- C9 counterexample: three registrations against a two-seat session leave
`available_seats = -1`; lowering `max_seats` from 2 to 1 then stores
`available_seats = 0`, which is greater than -1. -/
theorem upsertSession_reduction_raises_counterexample :
    (run emptyStore [
        .upsertSession (some 1) (sampleSessionData "s1" (some 2) none),
        .createRegistration (some 1) none 7 (sampleRegistrationData (some "s1") none),
        .createRegistration (some 1) none 8 (sampleRegistrationData (some "s1") none),
        .createRegistration (some 1) none 9 (sampleRegistrationData (some "s1") none)
      ]).sessions.map (fun r => (r.max_seats, r.available_seats)) = [(2, -1)] ∧
    (upsertSession (some 1) (sampleSessionData "s1" (some 1) none)
      (run emptyStore [
        .upsertSession (some 1) (sampleSessionData "s1" (some 2) none),
        .createRegistration (some 1) none 7 (sampleRegistrationData (some "s1") none),
        .createRegistration (some 1) none 8 (sampleRegistrationData (some "s1") none),
        .createRegistration (some 1) none 9 (sampleRegistrationData (some "s1") none)
      ])).2.sessions.map (fun r => (r.max_seats, r.available_seats)) = [(1, 0)] ∧
    ¬ ((0 : Int) ≤ -1) := by
  decide

/-! ## Status updates of registrations -/

/-- C10: `updateRegistrationStatus` writes only the status column of the
registrations with the given id in the current tenant.  The session, class and
category tables are unchanged; the registration table keeps its rows in place; a
row with the given id and the current tenant gets the new status and keeps every
other column; every other row is unchanged. -/
theorem updateRegistrationStatus_frame (tenant : Option Nat) (registrationId : Nat)
    (status : String) (s : Store) :
    (updateRegistrationStatus tenant registrationId status s).2.sessions = s.sessions ∧
    (updateRegistrationStatus tenant registrationId status s).2.classes = s.classes ∧
    (updateRegistrationStatus tenant registrationId status s).2.categories = s.categories ∧
    (updateRegistrationStatus tenant registrationId status s).2.registrations.length
      = s.registrations.length ∧
    ∀ (i : Nat) (g : Registration), s.registrations[i]? = some g →
      ∃ g2 : Registration,
        (updateRegistrationStatus tenant registrationId status s).2.registrations[i]?
          = some g2 ∧
        { g2 with status := g.status } = g ∧
        (g.id = registrationId ∧ getTenantContext tenant = .ok g.tenant_id →
          g2.status = status) ∧
        (¬ (g.id = registrationId ∧ getTenantContext tenant = .ok g.tenant_id) →
          g2 = g) := by
  unfold updateRegistrationStatus
  cases ht : getTenantContext tenant with
  | error e =>
    refine ⟨rfl, rfl, rfl, rfl, ?_⟩
    intro i g hg
    refine ⟨g, hg, rfl, ?_, fun _ => rfl⟩
    intro h
    exact absurd h.2 (by simp)
  | ok tenantId =>
    refine ⟨rfl, rfl, rfl, by simp, ?_⟩
    intro i g hg
    simp only [List.getElem?_map, hg, Option.map_some']
    by_cases htgt : (decide (g.id = registrationId) && decide (g.tenant_id = tenantId)) = true
    · simp only [htgt, if_true]
      refine ⟨_, rfl, rfl, fun _ => rfl, ?_⟩
      intro hnot
      exfalso
      apply hnot
      simp only [Bool.and_eq_true, decide_eq_true_eq] at htgt
      exact ⟨htgt.1, by rw [htgt.2]⟩
    · simp only [htgt, if_false, Bool.false_eq_true]
      refine ⟨g, rfl, rfl, ?_, fun _ => rfl⟩
      intro h
      exfalso
      apply htgt
      simp only [Bool.and_eq_true, decide_eq_true_eq]
      refine ⟨h.1, ?_⟩
      have := h.2
      simp only [Except.ok.injEq] at this
      exact this.symm

/-! ## Tenant resolution -/

/-- C13 (as amended): every service function resolves the tenant before anything
else.  When `getTenantId()` yields no value or the id 0, the call fails with
`Tenant context required` and the store is unchanged; when it yields an id other
than 0, tenant resolution succeeds with that id. -/
theorem unresolved_tenant_fails (tenant : Option Nat) (call : ServiceCall) (s : Store)
    (hnone : tenant = none ∨ tenant = some 0) :
    perform tenant s call = (some ServiceError.tenantContextRequired, s) ∧
    ∀ t : Nat, t ≠ 0 → getTenantContext (some t) = .ok t := by
  have herr : getTenantContext tenant = .error ServiceError.tenantContextRequired := by
    rcases hnone with h | h <;> subst h <;> rfl
  constructor
  · cases call <;>
      simp [perform, errorOf, getCategories, getCategoryById, createCategory, updateCategory,
        getClasses, getClassById, createClass, updateClass, getClassSessions, getSessionById,
        upsertSession, deleteSession, createRegistration, getRegistrations,
        updateRegistrationStatus, herr]
  · intro t ht
    simp [getTenantContext, ht]

/-- C13 witness: without a tenant, `createRegistration` fails with `Tenant context
required` and stores nothing. -/
theorem unresolved_tenant_fails_witness :
    perform none (storeWith (sampleSession 12 4 "scheduled"))
      (.createRegistration none 7 (sampleRegistrationData (some "s1") none))
      = (some ServiceError.tenantContextRequired, storeWith (sampleSession 12 4 "scheduled")) :=
  (unresolved_tenant_fails none
    (.createRegistration none 7 (sampleRegistrationData (some "s1") none))
    (storeWith (sampleSession 12 4 "scheduled")) (Or.inl rfl)).1

/-- C13 counterexample: when `getTenantId()` yields the tenant id 0, tenant
resolution fails and so does the call. -/
theorem tenant_zero_counterexample :
    errorOf (getTenantContext (some 0)) = some ServiceError.tenantContextRequired ∧
    (perform (some 0) emptyStore (.getCategories false)).1
      = some ServiceError.tenantContextRequired := by
  decide

/-! ## Rows of other tenants -/

theorem filter_map_of_fixed {α : Type} (p : α → Bool) (f : α → α)
    (hstable : ∀ a, p (f a) = p a) (hfixed : ∀ a, p a = true → f a = a) (l : List α) :
    (l.map f).filter p = l.filter p := by
  rw [filter_map_of_stable p f hstable]
  conv_rhs => rw [← List.map_id (l.filter p)]
  apply List.map_congr_left
  intro a ha
  exact hfixed a (List.mem_filter.mp ha).2

theorem filter_append_one_of_false {α : Type} (p : α → Bool) (l : List α) (x : α)
    (hx : p x = false) : (l ++ [x]).filter p = l.filter p := by
  simp [List.filter_append, List.filter_cons, hx]

theorem filter_filter_of_imp {α : Type} (p q : α → Bool) (l : List α)
    (h : ∀ a, p a = true → q a = true) : (l.filter q).filter p = l.filter p := by
  rw [List.filter_filter]
  apply List.filter_congr
  intro a _
  by_cases hp : p a = true
  · simp [hp, h a hp]
  · simp [hp]

theorem createCategory_other_tenants (tenant : Option Nat) (tenantId now : Nat)
    (d : CategoryData) (s : Store) (ht : getTenantContext tenant = .ok tenantId) :
    otherTenantRows tenantId (createCategory tenant now d s).2 = otherTenantRows tenantId s := by
  unfold createCategory
  simp only [ht]
  split
  · rfl
  · simp only [otherTenantRows]
    rw [filter_append_one_of_false]
    simp

theorem updateCategory_other_tenants (tenant : Option Nat) (tenantId now : Nat)
    (categoryId : String) (d : CategoryUpdate) (s : Store)
    (ht : getTenantContext tenant = .ok tenantId) :
    otherTenantRows tenantId (updateCategory tenant now categoryId d s).2
      = otherTenantRows tenantId s := by
  unfold updateCategory
  simp only [ht]
  split
  · rfl
  · simp only [otherTenantRows]
    rw [filter_map_of_fixed]
    · intro a; split <;> rfl
    · intro a ha
      have hne : ¬ a.tenant_id = tenantId := by simpa using ha
      simp [categoryMatches, hne]

theorem createClass_other_tenants (tenant : Option Nat) (tenantId : Nat)
    (d : ClassData) (s : Store) (ht : getTenantContext tenant = .ok tenantId) :
    otherTenantRows tenantId (createClass tenant d s).2 = otherTenantRows tenantId s := by
  unfold createClass
  simp only [ht]
  split
  · rfl
  · simp only [otherTenantRows]
    rw [filter_append_one_of_false]
    simp [insertedClass]

theorem updateClass_other_tenants (tenant : Option Nat) (tenantId : Nat)
    (classId : String) (d : ClassUpdate) (s : Store)
    (ht : getTenantContext tenant = .ok tenantId) :
    otherTenantRows tenantId (updateClass tenant classId d s).2
      = otherTenantRows tenantId s := by
  unfold updateClass
  simp only [ht]
  split
  · rfl
  · simp only [otherTenantRows]
    rw [filter_map_of_fixed]
    · intro a; split <;> rfl
    · intro a ha
      have hne : ¬ a.tenant_id = tenantId := by simpa using ha
      simp [classMatches, hne]

theorem upsertSession_other_tenants (tenant : Option Nat) (tenantId : Nat)
    (d : SessionData) (s : Store) (ht : getTenantContext tenant = .ok tenantId) :
    otherTenantRows tenantId (upsertSession tenant d s).2 = otherTenantRows tenantId s := by
  unfold upsertSession
  simp only [ht, otherTenantRows, insertOrUpdateSession]
  split
  · rw [filter_map_of_fixed]
    · intro a; split <;> rfl
    · intro a ha
      have hne : ¬ a.tenant_id = tenantId := by simpa using ha
      simp [sessionKeyCollides, sessionMatches, hne]
  · rw [filter_append_one_of_false]
    simp [insertedSession]

theorem deleteSession_other_tenants (tenant : Option Nat) (tenantId : Nat)
    (sessionId : String) (s : Store) (ht : getTenantContext tenant = .ok tenantId) :
    otherTenantRows tenantId (deleteSession tenant sessionId s).2
      = otherTenantRows tenantId s := by
  unfold deleteSession
  simp only [ht, otherTenantRows]
  rw [filter_filter_of_imp]
  intro a ha
  have hne : ¬ a.tenant_id = tenantId := by simpa using ha
  simp [sessionMatches, hne]

theorem createRegistration_other_tenants (tenant : Option Nat) (tenantId : Nat)
    (fault : Option RegistrationStatement) (now : Nat) (d : RegistrationData) (s : Store)
    (ht : getTenantContext tenant = .ok tenantId) :
    otherTenantRows tenantId (createRegistration tenant fault now d s).2
      = otherTenantRows tenantId s := by
  rcases createRegistration_store_cases tenant fault now d s with h | ⟨t2, i, ht2, htx⟩
  · rw [h]
  · have ht3 : t2 = tenantId := by
      rw [ht] at ht2
      exact (Except.ok.inj ht2).symm
    subst ht3
    obtain ⟨-, hregs, hsess, hcat, hcls, -⟩ := registrationTransaction_ok t2 fault now d s _ _ htx
    simp only [otherTenantRows, hregs, hsess, hcat, hcls, consume_eq_map]
    rw [filter_append_one_of_false, filter_map_of_fixed]
    · intro a; split <;> rfl
    · intro a ha
      have hne : ¬ a.tenant_id = t2 := by simpa using ha
      simp [sessionTargeted, hne]
    · simp [insertedRegistration]

theorem updateRegistrationStatus_other_tenants (tenant : Option Nat) (tenantId : Nat)
    (registrationId : Nat) (status : String) (s : Store)
    (ht : getTenantContext tenant = .ok tenantId) :
    otherTenantRows tenantId (updateRegistrationStatus tenant registrationId status s).2
      = otherTenantRows tenantId s := by
  unfold updateRegistrationStatus
  simp only [ht, otherTenantRows]
  rw [filter_map_of_fixed]
  · intro a; split <;> rfl
  · intro a ha
    have hne : ¬ a.tenant_id = tenantId := by simpa using ha
    simp [hne]

/-- C12: for every store state, every resolved tenant and every service call, the
rows of the four tables whose tenant id differs from the current tenant are the same
after the call as before it, whatever ids the call names. -/
theorem other_tenants_unchanged (tenant : Option Nat) (tenantId : Nat) (call : ServiceCall)
    (s : Store) (htenant : getTenantContext tenant = .ok tenantId) :
    otherTenantRows tenantId (perform tenant s call).2 = otherTenantRows tenantId s := by
  cases call with
  | createCategory now d => exact createCategory_other_tenants tenant tenantId now d s htenant
  | updateCategory now categoryId d =>
    exact updateCategory_other_tenants tenant tenantId now categoryId d s htenant
  | createClass d => exact createClass_other_tenants tenant tenantId d s htenant
  | updateClass classId d => exact updateClass_other_tenants tenant tenantId classId d s htenant
  | upsertSession d => exact upsertSession_other_tenants tenant tenantId d s htenant
  | deleteSession sessionId =>
    exact deleteSession_other_tenants tenant tenantId sessionId s htenant
  | createRegistration fault now d =>
    exact createRegistration_other_tenants tenant tenantId fault now d s htenant
  | updateRegistrationStatus registrationId status =>
    exact updateRegistrationStatus_other_tenants tenant tenantId registrationId status s htenant
  | _ => rfl

/-- C12 witness: tenant 2 holds a session `s1`; when tenant 1 upserts a session with
the same id, a second row is added and the row of tenant 2 stays as it was. -/
theorem other_tenants_unchanged_witness :
    getTenantContext (some 1) = .ok 1 ∧
    (perform (some 1) { emptyStore with sessions := [sampleSessionOf 2 "s1" none] }
      (.upsertSession (sampleSessionData "s1" (some 5) none))).2.sessions.map
        (fun r => (r.tenant_id, r.id, r.max_seats)) = [(2, "s1", 12), (1, "s1", 5)] ∧
    otherTenantRows 1
      (perform (some 1) { emptyStore with sessions := [sampleSessionOf 2 "s1" none] }
        (.upsertSession (sampleSessionData "s1" (some 5) none))).2
      = otherTenantRows 1 { emptyStore with sessions := [sampleSessionOf 2 "s1" none] } :=
  ⟨rfl, by decide,
    other_tenants_unchanged (some 1) 1 (.upsertSession (sampleSessionData "s1" (some 5) none))
      { emptyStore with sessions := [sampleSessionOf 2 "s1" none] } rfl⟩

/-! ## Rows returned to a tenant -/

theorem mem_orderBy {α : Type} (le : α → α → Bool) (l : List α) (a : α) :
    a ∈ orderBy le l ↔ a ∈ l :=
  (List.perm_insertionSort (fun a b => le a b = true) l).mem_iff

theorem head?_filter_some {α : Type} (p : α → Bool) (l : List α) (a : α)
    (h : (l.filter p).head? = some a) : a ∈ l ∧ p a = true := by
  have hmem : a ∈ l.filter p := by
    cases hl : l.filter p with
    | nil => rw [hl] at h; simp at h
    | cons x xs =>
      rw [hl] at h
      simp only [List.head?_cons, Option.some.injEq] at h
      rw [h]
      exact List.mem_cons_self _ _
  exact List.mem_filter.mp hmem

/-- The row `createRegistration` returns is the first row with the `insertId` in the
table after the call. -/
theorem createRegistration_result (tenant : Option Nat) (tenantId : Nat)
    (fault : Option RegistrationStatement) (now : Nat) (d : RegistrationData) (s : Store)
    (res : Option Registration)
    (htenant : getTenantContext tenant = .ok tenantId)
    (hok : (createRegistration tenant fault now d s).1 = .ok res) :
    res = ((createRegistration tenant fault now d s).2.registrations.filter
      (fun r => decide (r.id = s.nextRegistrationId))).head? := by
  unfold createRegistration at hok ⊢
  simp only [htenant] at hok ⊢
  by_cases hconn : fault = some RegistrationStatement.getConnection
  · simp [hconn] at hok
  · simp only [hconn, if_false] at hok ⊢
    cases htx : registrationTransaction tenantId fault now d s with
    | error e => simp [htx] at hok
    | ok p =>
      obtain ⟨insertId, c⟩ := p
      have hid := (registrationTransaction_ok tenantId fault now d s insertId c htx).1
      subst hid
      simp only [htx] at hok ⊢
      by_cases hfetch : fault = some RegistrationStatement.fetchCreated
      · simp [hfetch] at hok
      · simp only [hfetch, if_false, Except.ok.injEq] at hok ⊢
        exact hok.symm

/-- With a fresh counter, the row `createRegistration` returns is the row it
inserted. -/
theorem createRegistration_returns_inserted (tenant : Option Nat) (tenantId : Nat)
    (fault : Option RegistrationStatement) (now : Nat) (d : RegistrationData) (s : Store)
    (res : Option Registration)
    (htenant : getTenantContext tenant = .ok tenantId)
    (hfresh : registrationIdsFresh s)
    (hok : (createRegistration tenant fault now d s).1 = .ok res) :
    res = some (insertedRegistration s.nextRegistrationId tenantId now d) := by
  have hres := createRegistration_result tenant tenantId fault now d s res htenant hok
  have hcommit := createRegistration_ok_committed tenant tenantId fault now d s res htenant hok
  obtain ⟨-, hregs, -, -, -, -⟩ := registrationTransaction_ok tenantId fault now d s _ _ hcommit
  rw [hres, hregs, List.filter_append]
  have hnil : s.registrations.filter (fun r => decide (r.id = s.nextRegistrationId)) = [] := by
    rw [List.filter_eq_nil_iff]
    intro g hg hp
    have hlt := hfresh g hg
    have : g.id = s.nextRegistrationId := of_decide_eq_true hp
    omega
  rw [hnil]
  simp [insertedRegistration]

/-- C11: for every store state and every resolved tenant, each read function returns,
and every row it returns carries the tenant id of the current tenant: the rows of
`getCategories`, `getCategoryById`, `getClasses`, `getClassById`, `getClassSessions`,
`getSessionById` and `getRegistrations`.  The joined class name and session columns of
`getRegistrations` are those of a class row and a session row of the same tenant with
the ids the registration names.  In a store whose auto-increment counter lies above
the ids in use, the row returned by `createRegistration` is of the current tenant. -/
theorem reads_return_own_tenant (tenant : Option Nat) (tenantId : Nat) (s : Store)
    (htenant : getTenantContext tenant = .ok tenantId) :
    (∀ includeInactive, ∃ rows, getCategories tenant includeInactive s = .ok rows ∧
      ∀ r ∈ rows, r.tenant_id = tenantId) ∧
    (∀ id, ∃ row, getCategoryById tenant id s = .ok row ∧
      ∀ r, row = some r → r.tenant_id = tenantId ∧ r.id = id) ∧
    (∀ category search, ∃ rows, getClasses tenant category search s = .ok rows ∧
      ∀ r ∈ rows, r.tenant_id = tenantId) ∧
    (∀ id, ∃ row, getClassById tenant id s = .ok row ∧
      ∀ r, row = some r → r.tenant_id = tenantId ∧ r.id = id) ∧
    (∀ today classId futureOnly, ∃ rows,
      getClassSessions tenant today classId futureOnly s = .ok rows ∧
      ∀ r ∈ rows, r.tenant_id = tenantId) ∧
    (∀ id, ∃ row, getSessionById tenant id s = .ok row ∧
      ∀ r, row = some r → r.tenant_id = tenantId ∧ r.id = id) ∧
    (∀ filters, ∃ rows, getRegistrations tenant filters s = .ok rows ∧
      ∀ v ∈ rows, v.registration.tenant_id = tenantId ∧
        (∃ c ∈ s.classes, c.tenant_id = tenantId ∧ v.registration.class_id = some c.id ∧
          v.class_name = c.name) ∧
        (∃ cs ∈ s.sessions, cs.tenant_id = tenantId ∧
          v.registration.session_id = some cs.id ∧ v.date = cs.date ∧
          v.start_time = cs.start_time ∧ v.end_time = cs.end_time ∧
          v.location = cs.location)) ∧
    (registrationIdsFresh s → ∀ fault now registrationData res,
      (createRegistration tenant fault now registrationData s).1 = .ok res →
      ∃ g, res = some g ∧ g.tenant_id = tenantId) := by
  refine ⟨?_, ?_, ?_, ?_, ?_, ?_, ?_, ?_⟩
  · intro includeInactive
    refine ⟨_, by simp only [getCategories, htenant]; rfl, ?_⟩
    intro r hr
    rw [mem_orderBy] at hr
    have := (List.mem_filter.mp hr).2
    simp only [Bool.and_eq_true, decide_eq_true_eq] at this
    exact this.1
  · intro id
    refine ⟨_, by simp only [getCategoryById, htenant]; rfl, ?_⟩
    intro r hr
    have := (head?_filter_some _ _ _ hr).2
    simp only [categoryMatches, Bool.and_eq_true, decide_eq_true_eq] at this
    exact ⟨this.2, this.1⟩
  · intro category search
    refine ⟨_, by simp only [getClasses, htenant]; rfl, ?_⟩
    intro r hr
    unfold classesOf at hr
    rw [mem_orderBy] at hr
    have := (List.mem_filter.mp hr).2
    simp only [classSelected, Bool.and_eq_true, decide_eq_true_eq] at this
    exact this.1.1.1
  · intro id
    refine ⟨_, by simp only [getClassById, htenant]; rfl, ?_⟩
    intro r hr
    have := (head?_filter_some _ _ _ hr).2
    simp only [classMatches, Bool.and_eq_true, decide_eq_true_eq] at this
    exact ⟨this.1.2, this.1.1⟩
  · intro today classId futureOnly
    refine ⟨_, by simp only [getClassSessions, htenant]; rfl, ?_⟩
    intro r hr
    rw [mem_orderBy] at hr
    have := (List.mem_filter.mp hr).2
    simp only [Bool.and_eq_true, decide_eq_true_eq] at this
    exact this.1.2
  · intro id
    refine ⟨_, by simp only [getSessionById, htenant]; rfl, ?_⟩
    intro r hr
    have := (head?_filter_some _ _ _ hr).2
    simp only [sessionMatches, Bool.and_eq_true, decide_eq_true_eq] at this
    exact ⟨this.2, this.1⟩
  · intro filters
    refine ⟨_, by simp only [getRegistrations, htenant]; rfl, ?_⟩
    intro v hv
    unfold registrationsOf at hv
    rw [mem_orderBy, List.mem_flatMap] at hv
    obtain ⟨g, hg, hvg⟩ := hv
    have hsel := (List.mem_filter.mp hg).2
    simp only [registrationSelected, Bool.and_eq_true, decide_eq_true_eq] at hsel
    have hgt : g.tenant_id = tenantId := hsel.1.1.1.1
    unfold joinedRows at hvg
    rw [List.mem_flatMap] at hvg
    obtain ⟨c, hc, hvc⟩ := hvg
    rw [List.mem_map] at hvc
    obtain ⟨cs, hcs, rfl⟩ := hvc
    obtain ⟨hcin, hcj⟩ := List.mem_filter.mp hc
    obtain ⟨hcsin, hcsj⟩ := List.mem_filter.mp hcs
    simp only [classJoins, Bool.and_eq_true, decide_eq_true_eq] at hcj
    simp only [sessionJoins, Bool.and_eq_true, decide_eq_true_eq] at hcsj
    refine ⟨hgt, ⟨c, hcin, ?_, hcj.1, rfl⟩, ⟨cs, hcsin, ?_, hcsj.1, rfl, rfl, rfl, rfl⟩⟩
    · rw [← hcj.2]; exact hgt
    · rw [← hcsj.2]; exact hgt
  · intro hfresh fault now d res hok
    refine ⟨_, createRegistration_returns_inserted tenant tenantId fault now d s res htenant
      hfresh hok, rfl⟩

/-- C11 witness: tenants 1 and 2 both hold a class `c1` and a session `s1`; tenant 1
lists one registration, joined with its own class name and session location, and
reads its own class and session under the shared ids. -/
theorem reads_return_own_tenant_witness :
    getTenantContext (some 1) = .ok 1 ∧
    (registrationsOf 1 noFilters twoTenantStore).map
      (fun v => (v.registration.tenant_id, v.class_name, v.location))
      = [(1, some "Pistol I", some "Range A")] ∧
    (classById "c1" 1 twoTenantStore).map (fun r => (r.tenant_id, r.name))
      = some (1, some "Pistol I") ∧
    (sessionById "s1" 1 twoTenantStore).map (fun r => (r.tenant_id, r.location))
      = some (1, some "Range A") ∧
    ∀ id, ∃ row, getSessionById (some 1) id twoTenantStore = .ok row ∧
      ∀ r, row = some r → r.tenant_id = 1 ∧ r.id = id :=
  ⟨rfl, by decide, by decide, by decide,
    (reads_return_own_tenant (some 1) 1 twoTenantStore rfl).2.2.2.2.2.1⟩

/-- Every service call keeps the auto-increment counter above the registration ids in
use; the empty store has the property. -/
theorem perform_preserves_registrationIdsFresh (tenant : Option Nat) (call : ServiceCall)
    (s : Store) (hfresh : registrationIdsFresh s) :
    registrationIdsFresh (perform tenant s call).2 := by
  cases call with
  | createRegistration fault now d =>
    simp only [perform]
    rcases createRegistration_store_cases tenant fault now d s with h | ⟨t, i, ht, htx⟩
    · rw [h]; exact hfresh
    · obtain ⟨-, hregs, -, -, -, hnext⟩ := registrationTransaction_ok t fault now d s _ _ htx
      unfold registrationIdsFresh
      rw [hregs, hnext]
      intro g hg
      rw [List.mem_append, List.mem_singleton] at hg
      rcases hg with hg | hg
      · have := hfresh g hg; omega
      · subst hg; simp [insertedRegistration]
  | updateRegistrationStatus registrationId status =>
    simp only [perform, updateRegistrationStatus]
    cases getTenantContext tenant with
    | error e => exact hfresh
    | ok t =>
      intro g hg
      obtain ⟨g0, hg0, rfl⟩ := List.mem_map.mp hg
      have := hfresh g0 hg0
      split <;> exact this
  | createCategory now d =>
    simp only [perform, createCategory]
    cases getTenantContext tenant with
    | error e => exact hfresh
    | ok t => simp only []; split <;> exact hfresh
  | updateCategory now categoryId d =>
    simp only [perform, updateCategory]
    cases getTenantContext tenant with
    | error e => exact hfresh
    | ok t => simp only []; split <;> exact hfresh
  | createClass d =>
    simp only [perform, createClass]
    cases getTenantContext tenant with
    | error e => exact hfresh
    | ok t => simp only []; split <;> exact hfresh
  | updateClass classId d =>
    simp only [perform, updateClass]
    cases getTenantContext tenant with
    | error e => exact hfresh
    | ok t => simp only []; split <;> exact hfresh
  | upsertSession d =>
    simp only [perform, upsertSession]
    cases getTenantContext tenant with
    | error e => exact hfresh
    | ok t => exact hfresh
  | deleteSession sessionId =>
    simp only [perform, deleteSession]
    cases getTenantContext tenant with
    | error e => exact hfresh
    | ok t => exact hfresh
  | _ => exact hfresh

/-! ## Listing classes -/

theorem charsLe_total : ∀ a b : List Char, charsLe a b = true ∨ charsLe b a = true
  | [], _ => Or.inl rfl
  | _ :: _, [] => Or.inr rfl
  | a :: as, b :: bs => by
    simp only [charsLe]
    by_cases h1 : a.toNat < b.toNat
    · left; simp [h1]
    · by_cases h2 : b.toNat < a.toNat
      · right; simp [h2]
      · simp only [h1, h2, if_false]
        exact charsLe_total as bs

theorem charsLe_trans : ∀ a b c : List Char,
    charsLe a b = true → charsLe b c = true → charsLe a c = true
  | [], _, _, _, _ => rfl
  | _ :: _, [], _, h, _ => by simp [charsLe] at h
  | _ :: _, _ :: _, [], _, h => by simp [charsLe] at h
  | a :: as, b :: bs, c :: cs, hab, hbc => by
    simp only [charsLe] at hab hbc ⊢
    by_cases h1 : a.toNat < b.toNat
    · by_cases h2 : b.toNat < c.toNat
      · have : a.toNat < c.toNat := by omega
        simp [this]
      · by_cases h3 : c.toNat < b.toNat
        · simp [h2, h3] at hbc
        · have : a.toNat < c.toNat := by omega
          simp [this]
    · by_cases h1b : b.toNat < a.toNat
      · simp [h1, h1b] at hab
      · simp only [h1, h1b, if_false] at hab
        by_cases h2 : b.toNat < c.toNat
        · have : a.toNat < c.toNat := by omega
          simp [this]
        · by_cases h3 : c.toNat < b.toNat
          · simp [h2, h3] at hbc
          · simp only [h2, h3, if_false] at hbc
            have h4 : ¬ a.toNat < c.toNat := by omega
            have h5 : ¬ c.toNat < a.toNat := by omega
            simp only [h4, h5, if_false]
            exact charsLe_trans as bs cs hab hbc

theorem textLe_total (a b : Option String) : textLe a b = true ∨ textLe b a = true := by
  cases a with
  | none => left; rfl
  | some x =>
    cases b with
    | none => right; rfl
    | some y => exact charsLe_total x.data y.data

theorem textLe_trans (a b c : Option String) (hab : textLe a b = true)
    (hbc : textLe b c = true) : textLe a c = true := by
  cases a with
  | none => rfl
  | some x =>
    cases b with
    | none => simp [textLe] at hab
    | some y =>
      cases c with
      | none => simp [textLe] at hbc
      | some z => exact charsLe_trans x.data y.data z.data hab hbc

/-- The comparison `classLe` as a proposition on the sort key. -/
theorem classLe_iff (a b : TrainingClass) :
    classLe a b = true ↔
      (levelRank a.level < levelRank b.level ∨
        (levelRank a.level = levelRank b.level ∧
          (a.sort_order < b.sort_order ∨
            (a.sort_order = b.sort_order ∧ textLe a.name b.name = true)))) := by
  simp [classLe]

theorem classLe_total (a b : TrainingClass) : classLe a b = true ∨ classLe b a = true := by
  rw [classLe_iff, classLe_iff]
  rcases textLe_total a.name b.name with h | h
  · by_cases h1 : levelRank a.level < levelRank b.level
    · left; left; exact h1
    · by_cases h2 : levelRank b.level < levelRank a.level
      · right; left; exact h2
      · have h3 : levelRank a.level = levelRank b.level := by omega
        by_cases h4 : a.sort_order < b.sort_order
        · left; right; exact ⟨h3, Or.inl h4⟩
        · by_cases h5 : b.sort_order < a.sort_order
          · right; right; exact ⟨h3.symm, Or.inl h5⟩
          · left; right; exact ⟨h3, Or.inr ⟨by omega, h⟩⟩
  · by_cases h1 : levelRank a.level < levelRank b.level
    · left; left; exact h1
    · by_cases h2 : levelRank b.level < levelRank a.level
      · right; left; exact h2
      · have h3 : levelRank a.level = levelRank b.level := by omega
        by_cases h4 : a.sort_order < b.sort_order
        · left; right; exact ⟨h3, Or.inl h4⟩
        · by_cases h5 : b.sort_order < a.sort_order
          · right; right; exact ⟨h3.symm, Or.inl h5⟩
          · right; right; exact ⟨h3.symm, Or.inr ⟨by omega, h⟩⟩

theorem classLe_trans (a b c : TrainingClass) (hab : classLe a b = true)
    (hbc : classLe b c = true) : classLe a c = true := by
  rw [classLe_iff] at hab hbc ⊢
  rcases hab with h1 | ⟨h1, h2⟩
  · rcases hbc with g1 | ⟨g1, _⟩
    · left; omega
    · left; omega
  · rcases hbc with g1 | ⟨g1, g2⟩
    · left; omega
    · right
      refine ⟨by omega, ?_⟩
      rcases h2 with h3 | ⟨h3, h4⟩
      · rcases g2 with g3 | ⟨g3, _⟩
        · left; omega
        · left; omega
      · rcases g2 with g3 | ⟨g3, g4⟩
        · left; omega
        · right; exact ⟨by omega, textLe_trans _ _ _ h4 g4⟩

theorem orderBy_sorted {α : Type} (le : α → α → Bool)
    (htotal : ∀ a b, le a b = true ∨ le b a = true)
    (htrans : ∀ a b c, le a b = true → le b c = true → le a c = true) (l : List α) :
    (orderBy le l).Sorted (fun a b => le a b = true) := by
  haveI : IsTotal α (fun a b => le a b = true) := ⟨htotal⟩
  haveI : IsTrans α (fun a b => le a b = true) := ⟨htrans⟩
  exact List.sorted_insertionSort _ l

theorem orderBy_perm {α : Type} (le : α → α → Bool) (l : List α) :
    (orderBy le l).Perm l :=
  List.perm_insertionSort _ l

/-- C17: for every store state and every resolved tenant, `getClasses` returns
exactly the rows of the class table that belong to the current tenant, are active,
have the category asked for (when the category argument is a string other than `""`
and `"all"`) and match the search pattern in name, summary or description (when the
search argument has characters left after trimming), each as often as it is in the
table, sorted ascending by the key (level rank, `sort_order`, `name`); the level rank
is 1 for `Beginner`, 2 for `Intermediate`, 3 for `Advanced` and 4 for every other
level. -/
theorem getClasses_selected_sorted (tenant : Option Nat) (tenantId : Nat)
    (category search : Option String) (s : Store)
    (htenant : getTenantContext tenant = .ok tenantId) :
    ∃ rows : List TrainingClass,
      getClasses tenant category search s = .ok rows ∧
      (∀ r, r ∈ rows ↔
        r ∈ s.classes ∧ r.tenant_id = tenantId ∧ r.active = true ∧
          (∀ c, category = some c → c ≠ "" → c ≠ "all" → r.category = c) ∧
          (∀ t, search = some t → trimChars t.data ≠ [] →
            like r.name (String.mk ('%' :: (trimChars t.data ++ ['%']))) = true ∨
            like r.summary (String.mk ('%' :: (trimChars t.data ++ ['%']))) = true ∨
            like r.description (String.mk ('%' :: (trimChars t.data ++ ['%']))) = true)) ∧
      (∀ r ∈ rows, rows.count r = s.classes.count r) ∧
      rows.Sorted (fun a b =>
        levelRank a.level < levelRank b.level ∨
          (levelRank a.level = levelRank b.level ∧
            (a.sort_order < b.sort_order ∨
              (a.sort_order = b.sort_order ∧ textLe a.name b.name = true)))) ∧
      levelRank (some "Beginner") = 1 ∧ levelRank (some "Intermediate") = 2 ∧
      levelRank (some "Advanced") = 3 ∧
      (∀ level, level ≠ some "Beginner" → level ≠ some "Intermediate" →
        level ≠ some "Advanced" → levelRank level = 4) := by
  refine ⟨classesOf tenantId category search s, by simp only [getClasses, htenant],
    ?_, ?_, ?_, by decide, by decide, by decide, ?_⟩
  · intro r
    unfold classesOf
    rw [mem_orderBy, List.mem_filter]
    simp only [classSelected, Bool.and_eq_true, Bool.or_eq_true, Bool.not_eq_true',
      decide_eq_true_eq]
    constructor
    · rintro ⟨hmem, ⟨⟨ht, hact⟩, hcat⟩, hsearch⟩
      refine ⟨hmem, ht, hact, ?_, ?_⟩
      · intro c hc h1 h2
        subst hc
        rcases hcat with h | h
        · simp [categoryFilterActive, h1, h2] at h
        · exact Option.some.inj h
      · intro t ht2 hne
        subst ht2
        rcases hsearch with h | h
        · simp [searchFilterActive, hne] at h
        · simp only [searchTerm, Option.getD_some] at h
          rcases h with (h | h) | h
          · exact Or.inl h
          · exact Or.inr (Or.inl h)
          · exact Or.inr (Or.inr h)
    · rintro ⟨hmem, ht, hact, hcat, hsearch⟩
      refine ⟨hmem, ⟨⟨ht, hact⟩, ?_⟩, ?_⟩
      · cases category with
        | none => left; rfl
        | some c =>
          by_cases h1 : c = ""
          · left; simp [categoryFilterActive, h1]
          · by_cases h2 : c = "all"
            · left; simp [categoryFilterActive, h2]
            · right; rw [hcat c rfl h1 h2]
      · cases search with
        | none => left; rfl
        | some t =>
          by_cases hne : trimChars t.data = []
          · left; simp [searchFilterActive, hne]
          · right
            simp only [searchTerm, Option.getD_some]
            rcases hsearch t rfl hne with h | h | h
            · exact Or.inl (Or.inl h)
            · exact Or.inl (Or.inr h)
            · exact Or.inr h
  · intro r hr
    unfold classesOf at hr ⊢
    rw [(orderBy_perm classLe _).count_eq r]
    rw [mem_orderBy] at hr
    exact List.count_filter (List.mem_filter.mp hr).2
  · have hsorted := orderBy_sorted classLe classLe_total classLe_trans
      (s.classes.filter (classSelected tenantId category search))
    exact List.Pairwise.imp (fun {a b} h => (classLe_iff a b).mp h) hsorted
  · intro level h1 h2 h3
    simp [levelRank, h1, h2, h3]

/-- C17 witness: in a table with classes of two tenants, three categories and an
inactive row, tenant 1 asks for the category `rifle` and the search string ` ii `:
the one row returned is its active class `Rifle II`.  The category alone lists its two
active rifle classes by level; the search ` SAFE ` finds a name and a description in
any letter case; a search string of a no-break space alone filters nothing and the
five active classes come sorted by level rank, sort order and name. -/
theorem getClasses_selected_sorted_witness :
    getTenantContext (some 1) = .ok 1 ∧
    (getClasses (some 1) (some "rifle") (some " ii ") filterStore).toOption.map
      (fun rows => rows.map (fun r => r.id)) = some ["c5"] ∧
    (getClasses (some 1) (some "rifle") none filterStore).toOption.map
      (fun rows => rows.map (fun r => r.id)) = some ["c6", "c5"] ∧
    (getClasses (some 1) none (some " SAFE ") filterStore).toOption.map
      (fun rows => rows.map (fun r => r.id)) = some ["c0", "c1"] ∧
    (getClasses (some 1) (some "pistol") (some "reload") filterStore).toOption.map
      (fun rows => rows.map (fun r => r.id)) = some ["c2"] ∧
    (getClasses (some 1) (some "all") (some (String.mk [Char.ofNat 160])) filterStore).toOption.map
      (fun rows => rows.map (fun r => r.id)) = some ["c0", "c1", "c6", "c2", "c5"] ∧
    ∃ rows : List TrainingClass,
      getClasses (some 1) (some "rifle") (some " ii ") filterStore = .ok rows ∧
      (∀ r, r ∈ rows ↔
        r ∈ filterStore.classes ∧ r.tenant_id = 1 ∧ r.active = true ∧
          (∀ c, some "rifle" = some c → c ≠ "" → c ≠ "all" → r.category = c) ∧
          (∀ t, some " ii " = some t → trimChars t.data ≠ [] →
            like r.name (String.mk ('%' :: (trimChars t.data ++ ['%']))) = true ∨
            like r.summary (String.mk ('%' :: (trimChars t.data ++ ['%']))) = true ∨
            like r.description (String.mk ('%' :: (trimChars t.data ++ ['%']))) = true)) :=
  ⟨rfl, by decide, by decide, by decide, by decide, by decide,
    (getClasses_selected_sorted (some 1) 1 (some "rifle") (some " ii ") filterStore rfl).imp
      (fun _ h => ⟨h.1, h.2.1⟩)⟩

theorem orderBy_nil {α : Type} (le : α → α → Bool) : orderBy le ([] : List α) = [] := rfl

/-- C14 (as amended): for every store state and every search argument,
`getClasses("all", search)` returns the same sequence as `getClasses(null, search)`;
and for every category value other than `"all"` and the empty string that no active
class of the tenant carries, `getClasses(category, search)` returns the empty
sequence without failing. -/
theorem getClasses_all_and_unknown_category (tenant : Option Nat) (search : Option String)
    (s : Store) :
    getClasses tenant (some "all") search s = getClasses tenant none search s ∧
    ∀ (tenantId : Nat) (category : String),
      getTenantContext tenant = .ok tenantId →
      category ≠ "all" → category ≠ "" →
      (∀ r ∈ s.classes, r.tenant_id = tenantId → r.active = true → r.category ≠ category) →
      getClasses tenant (some category) search s = .ok [] := by
  constructor
  · unfold getClasses classesOf
    have hsel : ∀ tenantId, classSelected tenantId (some "all") search
        = classSelected tenantId none search := by
      intro tenantId
      funext r
      simp [classSelected, categoryFilterActive]
    cases getTenantContext tenant with
    | error e => rfl
    | ok tenantId => simp only [hsel]
  · intro tenantId category htenant hall hempty hnone
    unfold getClasses classesOf
    simp only [htenant]
    have hnil : s.classes.filter (classSelected tenantId (some category) search) = [] := by
      rw [List.filter_eq_nil_iff]
      intro r hr hsel
      simp only [classSelected, categoryFilterActive, hall, hempty, decide_False, Bool.not_false,
        Bool.and_self, Bool.not_true, Bool.false_or, Bool.and_eq_true, decide_eq_true_eq,
        Option.some.injEq] at hsel
      exact hnone r hr hsel.1.1.1 hsel.1.1.2 hsel.1.2
    rw [hnil, orderBy_nil]

/-- C14 witness: tenant 1 gets the same five classes for the category `all` as for no
category, and no class for the category `archery`, which none of its classes has. -/
theorem getClasses_all_and_unknown_category_witness :
    (getClasses (some 1) (some "all") none catalogStore).toOption.map
      (fun rows => rows.map (fun r => r.id)) = some ["c0", "c1", "c2", "c3", "c4"] ∧
    getClasses (some 1) (some "all") none catalogStore
      = getClasses (some 1) none none catalogStore ∧
    getClasses (some 1) (some "archery") none catalogStore = .ok [] :=
  ⟨by decide,
    (getClasses_all_and_unknown_category (some 1) none catalogStore).1,
    (getClasses_all_and_unknown_category (some 1) none catalogStore).2 1 "archery" rfl
      (by decide) (by decide) (by decide)⟩

/-- C14 counterexample: no class of tenant 1 has the category `""` or the category
`"all"`, yet `getClasses` with either value returns all five active classes of the
tenant instead of the empty sequence. -/
theorem getClasses_empty_category_counterexample :
    (catalogStore.classes.filter (fun r =>
      decide (r.tenant_id = 1) && r.active &&
        (decide (r.category = "") || decide (r.category = "all")))) = [] ∧
    (getClasses (some 1) (some "") none catalogStore).toOption.map
      (fun rows => rows.map (fun r => r.id)) = some ["c0", "c1", "c2", "c3", "c4"] ∧
    (getClasses (some 1) (some "all") none catalogStore).toOption.map
      (fun rows => rows.map (fun r => r.id)) = some ["c0", "c1", "c2", "c3", "c4"] := by
  decide

/-! ## Updating and creating classes -/

theorem keepsOrTakes_getD {α : Type} (payload : Option α) (old : α) :
    keepsOrTakes payload old (payload.getD old) := by
  cases payload <;> rfl

theorem keepsOrTakesText_truthy (payload : Option (Option String)) (old : Option String) :
    keepsOrTakesText payload old (if truthyText payload then payload.getD old else old) := by
  cases payload with
  | none => rfl
  | some v =>
    cases v with
    | none => rfl
    | some t =>
      by_cases ht : t = ""
      · simp [keepsOrTakesText, truthyText, ht]
      · simp [keepsOrTakesText, truthyText, ht]

/-- An update payload without assignments leaves every column as it is. -/
theorem updatedClass_of_empty (d : ClassUpdate) (r : TrainingClass)
    (h : classUpdateEmpty d = true) : updatedClass d r = r := by
  simp only [classUpdateEmpty, Bool.and_eq_true, Bool.not_eq_true', Option.isNone_iff_eq_none]
    at h
  obtain ⟨⟨⟨⟨⟨⟨⟨⟨⟨⟨⟨⟨h1, h2⟩, h3⟩, h4⟩, h5⟩, h6⟩, h7⟩, h8⟩, h9⟩, h10⟩, h11⟩, h12⟩, h13⟩ := h
  simp [updatedClass, h1, h2, h3, h4, h5, h6, h7, h8, h9, h10, h11, h12, h13]

/-- The class table after `updateClass`, as one row map. -/
theorem updateClass_classes (tenant : Option Nat) (tenantId : Nat) (classId : String)
    (d : ClassUpdate) (s : Store) (htenant : getTenantContext tenant = .ok tenantId) :
    (updateClass tenant classId d s).2.classes
      = s.classes.map (fun r =>
          if classMatches classId tenantId r then updatedClass d r else r) := by
  unfold updateClass
  simp only [htenant]
  split
  · rename_i hempty
    simp only []
    conv_lhs => rw [← List.map_id s.classes]
    apply List.map_congr_left
    intro r _
    split
    · exact (updatedClass_of_empty d r hempty).symm
    · rfl
  · rfl

/-- C15 (as amended): for every existing class and every update payload,
`updateClass` changes exactly the assigned columns of that class.  Every field absent
from the payload keeps its prior value; `tuition`, `category`, `sort_order`, `badge`,
`summary`, `description`, `highlights`, `equipment`, `prerequisites` and `active` take
the supplied value when present; `name`, `level` and `duration` take the supplied
value only when it is a non-empty string and keep their prior value otherwise.  The
rows of other classes are unchanged. -/
theorem updateClass_sparse (tenant : Option Nat) (tenantId : Nat) (classId : String)
    (classData : ClassUpdate) (s : Store) (old : TrainingClass)
    (htenant : getTenantContext tenant = .ok tenantId)
    (hold : classRow classId tenantId s = some old) :
    (∃ new : TrainingClass,
      classRow classId tenantId (updateClass tenant classId classData s).2 = some new ∧
      new.id = old.id ∧ new.tenant_id = old.tenant_id ∧
      keepsOrTakesText classData.name old.name new.name ∧
      keepsOrTakesText classData.level old.level new.level ∧
      keepsOrTakesText classData.duration old.duration new.duration ∧
      keepsOrTakes classData.tuition old.tuition new.tuition ∧
      keepsOrTakes classData.category old.category new.category ∧
      keepsOrTakes classData.sort_order old.sort_order new.sort_order ∧
      keepsOrTakes classData.badge old.badge new.badge ∧
      keepsOrTakes classData.summary old.summary new.summary ∧
      keepsOrTakes classData.description old.description new.description ∧
      keepsOrTakes classData.highlights old.highlights new.highlights ∧
      keepsOrTakes classData.equipment old.equipment new.equipment ∧
      keepsOrTakes classData.prerequisites old.prerequisites new.prerequisites ∧
      keepsOrTakes classData.active old.active new.active) ∧
    (updateClass tenant classId classData s).2.classes.length = s.classes.length ∧
    (∀ (i : Nat) (r : TrainingClass), s.classes[i]? = some r →
      classMatches classId tenantId r = false →
      (updateClass tenant classId classData s).2.classes[i]? = some r) := by
  have hclasses := updateClass_classes tenant tenantId classId classData s htenant
  refine ⟨⟨updatedClass classData old, ?_, rfl, rfl, ?_⟩, ?_, ?_⟩
  · unfold classRow at hold ⊢
    rw [hclasses, filter_map_of_stable]
    · cases hl : s.classes.filter (classMatches classId tenantId) with
      | nil => rw [hl] at hold; simp at hold
      | cons a l =>
        rw [hl] at hold
        simp only [List.head?_cons, Option.some.injEq] at hold
        subst hold
        have ha : classMatches classId tenantId a = true := by
          have : a ∈ s.classes.filter (classMatches classId tenantId) := by
            rw [hl]; exact List.mem_cons_self _ _
          exact (List.mem_filter.mp this).2
        simp [ha]
    · intro r; split <;> rfl
  · exact ⟨keepsOrTakesText_truthy _ _, keepsOrTakesText_truthy _ _,
      keepsOrTakesText_truthy _ _, keepsOrTakes_getD _ _, keepsOrTakes_getD _ _,
      keepsOrTakes_getD _ _, keepsOrTakes_getD _ _, keepsOrTakes_getD _ _,
      keepsOrTakes_getD _ _, keepsOrTakes_getD _ _, keepsOrTakes_getD _ _,
      keepsOrTakes_getD _ _, keepsOrTakes_getD _ _⟩
  · rw [hclasses]; simp
  · intro i r hi hr
    rw [hclasses]
    simp [List.getElem?_map, hi, hr]

/-- C15 witness: an update of class `c1` of tenant 1 with a new level and tuition
changes these two columns and keeps the name. -/
theorem updateClass_sparse_witness :
    getTenantContext (some 1) = .ok 1 ∧
    (classRow "c1" 1 catalogStore).map (fun r => (r.name, r.level, r.tuition))
      = some (some "Pistol I", some "Beginner", some 150) ∧
    (classRow "c1" 1 (updateClass (some 1) "c1"
        { emptyClassUpdate with level := some (some "Advanced"), tuition := some (some 200) }
        catalogStore).2).map (fun r => (r.name, r.level, r.tuition))
      = some (some "Pistol I", some "Advanced", some 200) ∧
    (updateClass (some 1) "c1"
        { emptyClassUpdate with level := some (some "Advanced"), tuition := some (some 200) }
        catalogStore).2.classes.length = catalogStore.classes.length :=
  ⟨rfl, by decide, by decide,
    (updateClass_sparse (some 1) 1 "c1"
      { emptyClassUpdate with level := some (some "Advanced"), tuition := some (some 200) }
      catalogStore (sampleClass 1 "c1" (some "Pistol I") (some "Beginner") 1 true) rfl
      (by decide)).2.1⟩

/-- C15 counterexample: a payload that supplies the empty string as `name` and 200 as
`tuition` stores the tuition and leaves the name `Pistol I` in place. -/
theorem updateClass_empty_name_counterexample :
    (classRow "c1" 1 catalogStore).map (fun r => (r.name, r.tuition))
      = some (some "Pistol I", some 150) ∧
    (classRow "c1" 1 (updateClass (some 1) "c1"
        { emptyClassUpdate with name := some (some ""), tuition := some (some 200) }
        catalogStore).2).map (fun r => (r.name, r.tuition))
      = some (some "Pistol I", some 200) := by
  decide

/-- C16: the code at the failing inputs.  `createClass` with `active = false` stores
the row and returns no row; `updateClass` that sets `active` to `false` stores the
change and returns no row. -/
theorem createClass_inactive_returns_no_row :
    (createClass (some 1) (sampleClassData "c7" (some "Draft") (some "Beginner") (some false))
      emptyStore).1.toOption = some none ∧
    (classRow "c7" 1 (createClass (some 1)
        (sampleClassData "c7" (some "Draft") (some "Beginner") (some false))
        emptyStore).2).map (fun r => (r.name, r.active)) = some (some "Draft", false) ∧
    (updateClass (some 1) "c1" { emptyClassUpdate with active := some false }
      catalogStore).1.toOption = some none ∧
    (classRow "c1" 1 (updateClass (some 1) "c1" { emptyClassUpdate with active := some false }
        catalogStore).2).map (fun r => (r.name, r.active)) = some (some "Pistol I", false) ∧
    (createClass (some 1) (sampleClassData "c7" (some "Draft") (some "Beginner") (some true))
      emptyStore).1.toOption.map (fun row => row.map (fun r => r.name))
      = some (some (some "Draft")) := by
  decide

/-! ## Searching classes -/

theorem likeChars_percent (ps text : List Char) :
    likeChars ('%' :: ps) text = text.tails.any (fun t => likeChars ps t) := by
  rw [likeChars]

theorem likeChars_plain (c : Char) (ps text : List Char)
    (h1 : c ≠ '%') (h2 : c ≠ '_') (h3 : c ≠ '\\') :
    likeChars (c :: ps) text =
      match text with
      | [] => false
      | t :: ts => decide (foldCase c = foldCase t) && likeChars ps ts := by
  rw [likeChars.eq_def]
  split
  · rename_i h; cases h
  · rename_i h; exact absurd (List.cons.inj h).1 h1
  · rename_i h; exact absurd (List.cons.inj h).1 h2
  · rename_i h; exact absurd (List.cons.inj h).1 h3
  · rename_i h
    obtain ⟨hc, hps⟩ := List.cons.inj h
    subst hc hps
    rfl

theorem likeChars_any_run (text : List Char) : likeChars ['%'] text = true := by
  rw [likeChars_percent, List.any_eq_true]
  refine ⟨[], ?_, ?_⟩
  · rw [List.mem_tails]; exact List.nil_suffix
  · rw [likeChars.eq_def]; rfl

/-- A pattern of ordinary characters followed by `%` matches the texts that start with
the characters, up to letter case. -/
theorem likeChars_plain_start : ∀ (t text : List Char),
    (∀ c ∈ t, c ≠ '%' ∧ c ≠ '_' ∧ c ≠ '\\') →
    (likeChars (t ++ ['%']) text = true ↔ (t.map foldCase) <+: (text.map foldCase))
  | [], text, _ => by
    simp only [List.nil_append, likeChars_any_run, List.map_nil, true_iff]
    exact List.nil_prefix
  | c :: t, text, hplain => by
    obtain ⟨h1, h2, h3⟩ := hplain c (List.mem_cons_self _ _)
    have ih := fun x => likeChars_plain_start t x
      (fun c' hc' => hplain c' (List.mem_cons_of_mem _ hc'))
    rw [List.cons_append, likeChars_plain c _ text h1 h2 h3]
    cases text with
    | nil => simp
    | cons y ys =>
      simp only [Bool.and_eq_true, decide_eq_true_eq, List.map_cons, List.cons_prefix_cons]
      rw [ih ys]

/-- A search string of ordinary characters between two `%` matches the texts that
contain it as a substring, up to letter case. -/
theorem likeChars_plain_infix (t text : List Char)
    (hplain : ∀ c ∈ t, c ≠ '%' ∧ c ≠ '_' ∧ c ≠ '\\') :
    likeChars ('%' :: (t ++ ['%'])) text = true ↔
      (t.map foldCase) <:+: (text.map foldCase) := by
  rw [likeChars_percent, List.any_eq_true, List.infix_iff_prefix_suffix]
  constructor
  · rintro ⟨x, hx, hlike⟩
    rw [List.mem_tails] at hx
    exact ⟨x.map foldCase, (likeChars_plain_start t x hplain).mp hlike, hx.map foldCase⟩
  · rintro ⟨y, hpre, hsuf⟩
    obtain ⟨n, hn⟩ : ∃ n, y = (text.map foldCase).drop n := by
      obtain ⟨pre, hpre2⟩ := hsuf
      refine ⟨pre.length, ?_⟩
      rw [← hpre2, List.drop_left]
    refine ⟨text.drop n, ?_, ?_⟩
    · rw [List.mem_tails]; exact List.drop_suffix _ _
    · rw [likeChars_plain_start t _ hplain, List.map_drop, ← hn]
      exact hpre

/-- For a search string whose trimmed characters are ordinary, the condition
`column LIKE searchTerm` holds exactly when the column holds a text that contains the
trimmed string, up to letter case. -/
theorem like_searchTerm_plain (column : Option String) (text : String)
    (hplain : ∀ c ∈ trimChars text.data, c ≠ '%' ∧ c ≠ '_' ∧ c ≠ '\\') :
    like column (searchTerm text) = true ↔
      ∃ v, column = some v ∧
        ((trimChars text.data).map foldCase) <:+: (v.data.map foldCase) := by
  cases column with
  | none => simp [like]
  | some v =>
    simp only [like, searchTerm, Option.some.injEq, exists_eq_left']
    exact likeChars_plain_infix _ _ hplain

/-- C18: the code at the failing inputs.  The search string `r_fle` is no substring of
any name, summary or description of tenant 1, in any letter case, yet `getClasses`
returns the class `Rifle II`, because `_` in the `LIKE` pattern stands for any
character; the search string `%` returns every active class of the tenant. -/
theorem getClasses_wildcard_search :
    (catalogStore.classes.filter (fun r =>
      decide (r.tenant_id = 1) && r.active &&
        (decide (("r_fle".data.map foldCase) <:+: ((r.name.getD "").data.map foldCase)) ||
          r.summary.isSome || r.description.isSome))) = [] ∧
    (classesOf 1 none (some "r_fle") catalogStore).map (fun r => (r.id, r.name))
      = [("c3", some "Rifle II")] ∧
    (classesOf 1 none (some "%") catalogStore).map (fun r => r.id)
      = ["c0", "c1", "c2", "c3", "c4"] ∧
    (classesOf 1 none (some " rifle ") catalogStore).map (fun r => (r.id, r.name))
      = [("c3", some "Rifle II")] := by
  decide

/-! ## Listing registrations -/

theorem listingLe_total (a b : RegistrationListing) :
    listingLe a b = true ∨ listingLe b a = true := by
  simp only [listingLe, decide_eq_true_eq]
  omega

theorem listingLe_trans (a b c : RegistrationListing) (hab : listingLe a b = true)
    (hbc : listingLe b c = true) : listingLe a c = true := by
  simp only [listingLe, decide_eq_true_eq] at hab hbc ⊢
  omega

/-- C19 (as amended): for every store state and every filter map, `getRegistrations`
returns one row for every registration of the current tenant that satisfies every
non-empty filter among `class_id`, `session_id`, `status` and `email` by equality
(absent and empty filters impose nothing) and whose class id and session id name a
class row and a session row of the tenant; the row carries the name of that class and
the date, start time, end time and location of that session; the rows are ordered by
creation time, most recent first.  A registration without such a class row or session
row is not returned. -/
theorem getRegistrations_joined_sorted (tenant : Option Nat) (tenantId : Nat)
    (filters : RegistrationFilters) (s : Store)
    (htenant : getTenantContext tenant = .ok tenantId) :
    ∃ rows : List RegistrationListing,
      getRegistrations tenant filters s = .ok rows ∧
      (∀ v, v ∈ rows ↔
        ∃ g ∈ s.registrations, ∃ c ∈ s.classes, ∃ cs ∈ s.sessions,
          g.tenant_id = tenantId ∧
          (filterPresent filters.class_id = true → g.class_id = filters.class_id) ∧
          (filterPresent filters.session_id = true → g.session_id = filters.session_id) ∧
          (filterPresent filters.status = true → some g.status = filters.status) ∧
          (filterPresent filters.email = true → g.email = filters.email) ∧
          g.class_id = some c.id ∧ c.tenant_id = tenantId ∧
          g.session_id = some cs.id ∧ cs.tenant_id = tenantId ∧
          v = { registration := g, class_name := c.name, date := cs.date,
                start_time := cs.start_time, end_time := cs.end_time,
                location := cs.location }) ∧
      rows.Sorted (fun a b => b.registration.created_at ≤ a.registration.created_at) ∧
      rows.Perm ((s.registrations.filter (registrationSelected tenantId filters)).flatMap
        (joinedRows s)) := by
  refine ⟨registrationsOf tenantId filters s, by simp only [getRegistrations, htenant],
    ?_, ?_, orderBy_perm _ _⟩
  · intro v
    unfold registrationsOf
    rw [mem_orderBy, List.mem_flatMap]
    constructor
    · rintro ⟨g, hg, hv⟩
      obtain ⟨hgin, hsel⟩ := List.mem_filter.mp hg
      simp only [registrationSelected, Bool.and_eq_true, Bool.or_eq_true, Bool.not_eq_true',
        decide_eq_true_eq] at hsel
      obtain ⟨⟨⟨⟨ht, h1⟩, h2⟩, h3⟩, h4⟩ := hsel
      unfold joinedRows at hv
      rw [List.mem_flatMap] at hv
      obtain ⟨c, hc, hv⟩ := hv
      rw [List.mem_map] at hv
      obtain ⟨cs, hcs, rfl⟩ := hv
      obtain ⟨hcin, hcj⟩ := List.mem_filter.mp hc
      obtain ⟨hcsin, hcsj⟩ := List.mem_filter.mp hcs
      simp only [classJoins, Bool.and_eq_true, decide_eq_true_eq] at hcj
      simp only [sessionJoins, Bool.and_eq_true, decide_eq_true_eq] at hcsj
      refine ⟨g, hgin, c, hcin, cs, hcsin, ht, ?_, ?_, ?_, ?_, hcj.1, ?_, hcsj.1, ?_, rfl⟩
      · intro hp
        rcases h1 with h | h
        · rw [hp] at h; exact absurd h (by simp)
        · exact h
      · intro hp
        rcases h2 with h | h
        · rw [hp] at h; exact absurd h (by simp)
        · exact h
      · intro hp
        rcases h3 with h | h
        · rw [hp] at h; exact absurd h (by simp)
        · exact h
      · intro hp
        rcases h4 with h | h
        · rw [hp] at h; exact absurd h (by simp)
        · exact h
      · rw [← hcj.2]; exact ht
      · rw [← hcsj.2]; exact ht
    · rintro ⟨g, hgin, c, hcin, cs, hcsin, ht, h1, h2, h3, h4, hc1, hc2, hs1, hs2, rfl⟩
      refine ⟨g, List.mem_filter.mpr ⟨hgin, ?_⟩, ?_⟩
      · simp only [registrationSelected, Bool.and_eq_true, Bool.or_eq_true,
          Bool.not_eq_true', decide_eq_true_eq]
        refine ⟨⟨⟨⟨ht, ?_⟩, ?_⟩, ?_⟩, ?_⟩
        · by_cases hp : filterPresent filters.class_id = true
          · exact Or.inr (h1 hp)
          · exact Or.inl (by simpa using hp)
        · by_cases hp : filterPresent filters.session_id = true
          · exact Or.inr (h2 hp)
          · exact Or.inl (by simpa using hp)
        · by_cases hp : filterPresent filters.status = true
          · exact Or.inr (h3 hp)
          · exact Or.inl (by simpa using hp)
        · by_cases hp : filterPresent filters.email = true
          · exact Or.inr (h4 hp)
          · exact Or.inl (by simpa using hp)
      · unfold joinedRows
        rw [List.mem_flatMap]
        refine ⟨c, List.mem_filter.mpr ⟨hcin, ?_⟩, List.mem_map.mpr
          ⟨cs, List.mem_filter.mpr ⟨hcsin, ?_⟩, rfl⟩⟩
        · simp only [classJoins, Bool.and_eq_true, decide_eq_true_eq]
          exact ⟨hc1, ht.trans hc2.symm⟩
        · simp only [sessionJoins, Bool.and_eq_true, decide_eq_true_eq]
          exact ⟨hs1, ht.trans hs2.symm⟩
  · have hsorted := orderBy_sorted listingLe listingLe_total listingLe_trans
      ((s.registrations.filter (registrationSelected tenantId filters)).flatMap (joinedRows s))
    exact List.Pairwise.imp (fun {a b} h => by simpa [listingLe] using h) hsorted

/-- C19 witness: of the four registrations of tenant 1, the three whose class has a
row are listed, most recent first, with the class name and the session location;
with a status filter only the pending one is listed. -/
theorem getRegistrations_joined_sorted_witness :
    getTenantContext (some 1) = .ok 1 ∧
    (registrationsOf 1 noFilters listingStore).map
      (fun v => (v.registration.id, v.registration.created_at, v.class_name, v.location))
      = [(2, 9, some "Pistol I", some "Range A"), (3, 7, some "Pistol I", some "Range A"),
          (1, 5, some "Pistol I", some "Range A")] ∧
    (registrationsOf 1 { noFilters with status := some "pending" } listingStore).map
      (fun v => v.registration.id) = [3] ∧
    ∃ rows : List RegistrationListing,
      getRegistrations (some 1) noFilters listingStore = .ok rows ∧
      rows.Sorted (fun a b => b.registration.created_at ≤ a.registration.created_at) :=
  ⟨rfl, by decide, by decide,
    (getRegistrations_joined_sorted (some 1) 1 noFilters listingStore rfl).imp
      (fun _ h => ⟨h.1, h.2.2.1⟩)⟩

/-- C19 counterexample: the registration 4 of tenant 1 passes every filter of an empty
filter map, but its class id `c8` names no class row, and `getRegistrations` does not
return it; after the session `s1` is deleted, no registration is returned at all. -/
theorem getRegistrations_drops_unjoined_counterexample :
    (listingStore.registrations.filter (fun g => decide (g.tenant_id = 1))).map (fun g => g.id)
      = [1, 2, 3, 4] ∧
    (getRegistrations (some 1) noFilters listingStore).toOption.map
      (fun rows => rows.map (fun v => v.registration.id)) = some [2, 3, 1] ∧
    (getRegistrations (some 1) noFilters
      (deleteSession (some 1) "s1" listingStore).2).toOption.map
      (fun rows => rows.map (fun v => v.registration.id)) = some [] ∧
    ((deleteSession (some 1) "s1" listingStore).2.registrations.filter
      (fun g => decide (g.tenant_id = 1))).length = 4 := by
  decide

/-! ## References of a registration -/

/-- C20 (as amended): `createRegistration` does not validate its references.  For
every input whose session id names no session row of the current tenant, whatever
its class id, a call in which no statement errors succeeds, stores the registration
row and leaves the session table as it was. -/
theorem createRegistration_unresolved_session (tenant : Option Nat) (tenantId now : Nat)
    (registrationData : RegistrationData) (s : Store)
    (htenant : getTenantContext tenant = .ok tenantId)
    (hnone : ∀ r ∈ s.sessions,
      sessionTargeted registrationData.session_id tenantId r = false) :
    (∃ res, (createRegistration tenant none now registrationData s).1 = .ok res) ∧
    (createRegistration tenant none now registrationData s).2.registrations
      = s.registrations
        ++ [insertedRegistration s.nextRegistrationId tenantId now registrationData] ∧
    (createRegistration tenant none now registrationData s).2.sessions = s.sessions := by
  obtain ⟨res, hres⟩ := createRegistration_no_fault_ok tenant tenantId now registrationData s
    htenant
  have hcommit := createRegistration_ok_committed tenant tenantId none now registrationData s
    res htenant hres
  obtain ⟨-, hregs, hsess, -, -, -⟩ := registrationTransaction_ok tenantId none now
    registrationData s _ _ hcommit
  refine ⟨⟨res, hres⟩, hregs, ?_⟩
  rw [hsess, consume_eq_map]
  conv_rhs => rw [← List.map_id s.sessions]
  apply List.map_congr_left
  intro r hr
  simp [hnone r hr]

/-- C20 witness: tenant 1 registers against the session id `s1`, which only tenant 2
holds; the registration is stored and the session of tenant 2 keeps its 12 seats. -/
theorem createRegistration_unresolved_session_witness :
    getTenantContext (some 1) = .ok 1 ∧
    (createRegistration (some 1) none 7 (sampleRegistrationData (some "s1") none)
      { emptyStore with sessions := [sampleSessionOf 2 "s1" none] }).2.registrations.length
      = 1 ∧
    (createRegistration (some 1) none 7 (sampleRegistrationData (some "s1") none)
      { emptyStore with sessions := [sampleSessionOf 2 "s1" none] }).2.sessions
      = [sampleSessionOf 2 "s1" none] :=
  ⟨rfl, by decide,
    (createRegistration_unresolved_session (some 1) 1 7
      (sampleRegistrationData (some "s1") none)
      { emptyStore with sessions := [sampleSessionOf 2 "s1" none] } rfl (by decide)).2.2⟩

/-- C20 counterexample: on the empty store, which has no session and no class, a
`createRegistration` for the session `s1` and the class `c1` returns the created row
and the registration table holds it afterwards. -/
theorem createRegistration_no_validation_counterexample :
    sessionById "s1" 1 emptyStore = none ∧
    classRow "c1" 1 emptyStore = none ∧
    (createRegistration (some 1) none 7 (sampleRegistrationData (some "s1") none)
      emptyStore).1.toOption.map (fun row => row.map (fun g => (g.id, g.session_id)))
      = some (some (1, some "s1")) ∧
    (createRegistration (some 1) none 7 (sampleRegistrationData (some "s1") none)
      emptyStore).2.registrations.map (fun g => (g.id, g.class_id, g.session_id))
      = [(1, some "c1", some "s1")] := by
  decide

/-! ## Repeating and bounding a session upsert -/

theorem upsertAvailableSeats_after_update (old : Session) (rest : List Session)
    (d : SessionData) (a : Int) :
    upsertAvailableSeats (updatedSession old d a :: rest) d = a := by
  simp [upsertAvailableSeats, updatedSession]

theorem upsertAvailableSeats_after_insert (tenantId : Nat) (d : SessionData) :
    upsertAvailableSeats [insertedSession tenantId d (upsertAvailableSeats [] d)] d
      = upsertAvailableSeats [] d := by
  simp [upsertAvailableSeats, insertedSession]

/-- The statement of `upsertSession`, run again on the table it has written with the
seat count it computes from that table, writes the same table. -/
theorem insertOrUpdateSession_again (tenantId : Nat) (d : SessionData) (s : Store) :
    insertOrUpdateSession tenantId d
      (upsertAvailableSeats
        (selectSessions d.id tenantId
          { s with
            sessions := insertOrUpdateSession tenantId d
              (upsertAvailableSeats (selectSessions d.id tenantId s) d) s.sessions }) d)
      (insertOrUpdateSession tenantId d
        (upsertAvailableSeats (selectSessions d.id tenantId s) d) s.sessions)
      = insertOrUpdateSession tenantId d
        (upsertAvailableSeats (selectSessions d.id tenantId s) d) s.sessions := by
  cases hsel : selectSessions d.id tenantId s with
  | nil =>
    obtain ⟨hins, hafter⟩ := selectSessions_after_insert tenantId d
      (upsertAvailableSeats [] d) s hsel
    rw [hafter, hins, upsertAvailableSeats_after_insert]
    have hany : (s.sessions ++ [insertedSession tenantId d (upsertAvailableSeats [] d)]).any
        (sessionKeyCollides d.id tenantId) = true := by
      rw [List.any_eq_true]
      exact ⟨_, List.mem_append_right _ (List.mem_singleton.mpr rfl),
        by simp [sessionKeyCollides, sessionMatches, insertedSession]⟩
    have hnot : ∀ r ∈ s.sessions, sessionKeyCollides d.id tenantId r = false := by
      intro r hr
      unfold selectSessions at hsel
      rw [List.filter_eq_nil_iff] at hsel
      exact Bool.eq_false_iff.mpr (hsel r hr)
    conv_lhs => unfold insertOrUpdateSession
    rw [if_pos hany, List.map_append]
    congr 1
    · conv_rhs => rw [← List.map_id s.sessions]
      apply List.map_congr_left
      intro r hr
      simp [hnot r hr]
    · simp [sessionKeyCollides, sessionMatches, insertedSession, updatedSession]
  | cons old rest =>
    have hafter := selectSessions_after_update tenantId d
      (upsertAvailableSeats (old :: rest) d) s old rest hsel
    rw [hafter, upsertAvailableSeats_after_update]
    have hany : s.sessions.any (sessionKeyCollides d.id tenantId) = true := by
      cases h : s.sessions.any (sessionKeyCollides d.id tenantId) with
      | true => rfl
      | false =>
        have := (any_collides_iff_filter d.id tenantId s.sessions).mp h
        unfold selectSessions at hsel
        rw [hsel] at this
        exact absurd this (by simp)
    have hrows : insertOrUpdateSession tenantId d (upsertAvailableSeats (old :: rest) d)
        s.sessions
        = s.sessions.map (fun r =>
            if sessionKeyCollides d.id tenantId r then
              updatedSession r d (upsertAvailableSeats (old :: rest) d)
            else r) := by
      simp only [insertOrUpdateSession, hany, if_true]
    rw [hrows]
    have hany2 : (s.sessions.map (fun r =>
        if sessionKeyCollides d.id tenantId r then
          updatedSession r d (upsertAvailableSeats (old :: rest) d)
        else r)).any (sessionKeyCollides d.id tenantId) = true := by
      obtain ⟨r, hr, hp⟩ := List.any_eq_true.mp hany
      rw [List.any_eq_true]
      refine ⟨_, List.mem_map.mpr ⟨r, hr, rfl⟩, ?_⟩
      simp only [hp, if_true]
      exact hp
    conv_lhs => unfold insertOrUpdateSession
    rw [if_pos hany2, List.map_map]
    apply List.map_congr_left
    intro r _
    by_cases hp : sessionKeyCollides d.id tenantId r = true
    · have hp2 : sessionKeyCollides d.id tenantId
          (updatedSession r d (upsertAvailableSeats (old :: rest) d)) = true := hp
      simp only [Function.comp, hp, if_true, hp2]
      rfl
    · simp only [Function.comp, hp, if_false, Bool.false_eq_true]

/-- C21: `upsertSession` is idempotent.  For every store state, tenant and session
payload, applying `upsertSession` a second time with the same payload returns the
same row and leaves the same store as applying it once: the session row keeps its
`max_seats`, `available_seats`, status and every other column, and no other row
changes. -/
theorem upsertSession_idempotent (tenant : Option Nat) (sessionData : SessionData)
    (s : Store) :
    upsertSession tenant sessionData (upsertSession tenant sessionData s).2
      = upsertSession tenant sessionData s := by
  unfold upsertSession
  cases ht : getTenantContext tenant with
  | error e => simp only [ht]
  | ok tenantId =>
    simp only [ht]
    have h := insertOrUpdateSession_again tenantId sessionData s
    simp only [h]

/-- C22: `upsertSession` preserves the seat bounds.  For every payload whose
`max_seats` is absent or a positive integer, if the existing row of the session (when
there is one) satisfies `0 ≤ available_seats ≤ max_seats`, then `upsertSession`
stores a row for the session and that row satisfies
`0 ≤ available_seats ≤ max_seats`. -/
theorem upsertSession_preserves_bounds (tenant : Option Nat) (tenantId : Nat)
    (sessionData : SessionData) (s : Store)
    (htenant : getTenantContext tenant = .ok tenantId)
    (hmax : sessionData.max_seats = none ∨ ∃ v : Int, sessionData.max_seats = some v ∧ 0 < v)
    (hold : ∀ old, sessionById sessionData.id tenantId s = some old →
      0 ≤ old.available_seats ∧ old.available_seats ≤ old.max_seats) :
    ∃ stored : Session,
      (upsertSession tenant sessionData s).1 = .ok (some stored) ∧
      sessionById sessionData.id tenantId (upsertSession tenant sessionData s).2
        = some stored ∧
      0 ≤ stored.available_seats ∧ stored.available_seats ≤ stored.max_seats := by
  have hpos : 0 < orDefaultInt sessionData.max_seats 12 := by
    rcases hmax with h | ⟨v, h, hv⟩
    · rw [h]; decide
    · rw [h]
      have hne : v ≠ 0 := by omega
      simp [orDefaultInt, hne, hv]
  have hres : (upsertSession tenant sessionData s).1
      = .ok (sessionById sessionData.id tenantId (upsertSession tenant sessionData s).2) := by
    simp only [upsertSession, htenant]
  cases hrow : sessionById sessionData.id tenantId s with
  | none =>
    have hsel : selectSessions sessionData.id tenantId s = [] := by
      unfold sessionById at hrow
      cases h : selectSessions sessionData.id tenantId s with
      | nil => rfl
      | cons a l => rw [h] at hrow; simp at hrow
    obtain ⟨-, hafter⟩ := selectSessions_after_insert tenantId sessionData
      (upsertAvailableSeats (selectSessions sessionData.id tenantId s) sessionData) s hsel
    have hstored : sessionById sessionData.id tenantId (upsertSession tenant sessionData s).2
        = some (insertedSession tenantId sessionData
          (upsertAvailableSeats (selectSessions sessionData.id tenantId s) sessionData)) := by
      simp only [upsertSession, htenant, sessionById, hafter, List.head?_cons]
    refine ⟨_, by rw [hres, hstored], hstored, ?_, ?_⟩
    · simp only [insertedSession, hsel, upsertAvailableSeats]
      omega
    · simp only [insertedSession, hsel, upsertAvailableSeats]
      exact le_refl _
  | some old =>
    obtain ⟨h0, h1⟩ := hold old hrow
    obtain ⟨stored, hstored, hm, ha⟩ := upsertSession_existing_row tenant tenantId sessionData s
      old htenant hrow
    refine ⟨stored, by rw [hres, hstored], hstored, ?_, ?_⟩
    · rw [ha]
      split
      · exact le_max_left _ _
      · exact h0
    · rw [ha, hm]
      split
      · apply max_le
        · omega
        · omega
      · omega

/-- C22 witness: a session with 12 seats and 4 available, edited to 5 seats, is stored
with 5 seats and 0 available. -/
theorem upsertSession_preserves_bounds_witness :
    getTenantContext (some 1) = .ok 1 ∧
    (sampleSessionData "s1" (some 5) none).max_seats = some 5 ∧
    sessionById "s1" 1 (storeWith (sampleSession 12 4 "scheduled"))
      = some (sampleSession 12 4 "scheduled") ∧
    (sessionById "s1" 1 (upsertSession (some 1) (sampleSessionData "s1" (some 5) none)
        (storeWith (sampleSession 12 4 "scheduled"))).2).map
      (fun r => (r.max_seats, r.available_seats)) = some (5, 0) ∧
    ∃ stored : Session,
      (upsertSession (some 1) (sampleSessionData "s1" (some 5) none)
        (storeWith (sampleSession 12 4 "scheduled"))).1 = .ok (some stored) ∧
      sessionById (sampleSessionData "s1" (some 5) none).id 1
        (upsertSession (some 1) (sampleSessionData "s1" (some 5) none)
          (storeWith (sampleSession 12 4 "scheduled"))).2 = some stored ∧
      0 ≤ stored.available_seats ∧ stored.available_seats ≤ stored.max_seats :=
  ⟨rfl, rfl, by decide, by decide,
    upsertSession_preserves_bounds (some 1) 1 (sampleSessionData "s1" (some 5) none)
      (storeWith (sampleSession 12 4 "scheduled")) rfl (Or.inr ⟨5, rfl, by decide⟩)
      (fun old h => by
        have hrow : sessionById (sampleSessionData "s1" (some 5) none).id 1
            (storeWith (sampleSession 12 4 "scheduled"))
            = some (sampleSession 12 4 "scheduled") := by decide
        rw [hrow] at h
        cases h
        decide)⟩

end TrainingScheduler
